import Mathlib

/-!
# isolate: a minimal container runtime

A shallow embedding of `src/isolate.c`, `src/cgroup_control.c` and `src/netns.c`.

Every library or system call the C code issues is recorded as a `Call` in a trace, and
the value the call returns is supplied by an environment `Env`, so a theorem quantified
over every `Env` speaks about every possible behaviour of the kernel.  A procedure of
the program is a function from the environment and the trace so far to a result
(normal return, `exit(status)`, or the fatal `die`) and the extended trace.
-/

namespace Isolate

/-! ## Calls, replies, and the `Sys` monad -/

/-- The type `struct params` of `isolate.c`: the two descriptors of the pipe and the command. -/
structure Params where
  fd0 : Int
  fd1 : Int
  argv : List String
  deriving DecidableEq, Repr

/-- A library or system call issued by the program, with the arguments it was given.
File descriptors, `FILE *` handles and PIDs are the integers the environment returned;
`clone` records the `struct params` handed to the child's entry point `cmd_exec`. -/
inductive Call where
  | printf (s : String)
  | perror (s : String)
  | fprintf_stderr (s : String)
  | die (fmt : String)
  | set_errno (v : Int)
  | pipe
  | clone (flags : Nat) (arg : Params)
  | stat (path : String)
  | mkdir (path : String) (mode : Nat)
  | sys_open (path : String) (flags : Nat)
  | write (fd : Int) (data : String)
  | read (fd : Int) (count : Nat)
  | close (fd : Int)
  | fopen (path : String) (mode : String)
  | fwrite (stream : Int) (data : String)
  | fclose (stream : Int)
  | socket (domain : Nat) (type : Nat) (protocol : Nat)
  | sendmsg (fd : Int) (bytes : List Nat)
  | recvmsg (fd : Int) (iov_len : Nat)
  | ioctl_addr (fd : Int) (request : Nat) (ifr_name : List Nat) (addr : String)
  | ioctl_flags (fd : Int) (request : Nat) (ifr_name : List Nat) (flags : Nat)
  | getpid
  | setns (fd : Int) (nstype : Nat)
  | waitpid (pid : Int)
  | prctl (option : Nat) (arg : Nat)
  | mount (source : String) (target : String) (fstype : String) (flags : Nat)
  | chdir (path : String)
  | pivot_root (new_root : String) (put_old : String)
  | umount2 (target : String) (flags : Nat)
  | msgget (key : Nat) (flags : Nat)
  | setgid (gid : Nat)
  | setuid (uid : Nat)
  | execvp (file : String) (argv : List String)
  deriving DecidableEq, Repr

/-- What the environment answers to a call: the return value, the bytes it stored in a
caller-supplied buffer (`read`, `recvmsg`, the two descriptors of `pipe`), the
`msg_flags` it set (`recvmsg`), and whether a failure left `errno == EEXIST`. -/
structure Reply where
  ret : Int
  buf : List Nat
  msg_flags : Nat
  eexist : Bool
  deriving DecidableEq, Repr

/-- The environment: the answer to the call issued at a given position of the trace. -/
abbrev Env := Nat → Call → Reply

/-- How a procedure ends: it returns a value, calls `exit(status)`, or calls `die`. -/
inductive Res (α : Type) where
  | ok (a : α)
  | exit (status : Int)
  | fatal
  deriving DecidableEq, Repr

/-- A procedure of the program: given the environment and the trace so far, its result
and the trace extended by the calls it issued. -/
def Sys (α : Type) : Type := Env → List Call → Res α × List Call

/-- Return without issuing a call. -/
def Sys.ret {α : Type} (a : α) : Sys α := fun _ tr => (Res.ok a, tr)

/-- Sequencing: the continuation runs only if the first part returned normally. -/
def Sys.andThen {α β : Type} (x : Sys α) (f : α → Sys β) : Sys β := fun env tr =>
  match x env tr with
  | (Res.ok a, tr1) => f a env tr1
  | (Res.exit s, tr1) => (Res.exit s, tr1)
  | (Res.fatal, tr1) => (Res.fatal, tr1)

instance : Monad Sys where
  pure := Sys.ret
  bind := Sys.andThen

/-- Issue a call: it is appended to the trace and the environment supplies the reply. -/
def sys (c : Call) : Sys Reply := fun env tr => (Res.ok (env tr.length c), tr ++ [c])

/-- Output and stores whose result the program never inspects: appended to the trace. -/
def emit (c : Call) : Sys Unit := fun _ tr => (Res.ok (), tr ++ [c])

/-- The C library's `exit(status)`. -/
def exit {α : Type} (status : Int) : Sys α := fun _ tr => (Res.exit status, tr)

/-- Modelled from the spec: `die` of `util.h`, which is not among the sources.  The spec
(4.1) describes it as the single fatal-exit primitive: it takes a format string, prints
the diagnostic, and terminates the process with a non-zero status.  The diagnostic is
recorded by its format string. -/
def die {α : Type} (fmt : String) : Sys α := fun _ tr => (Res.fatal, tr ++ [Call.die fmt])

/-- The rendering of an `int` by the conversion `%d`. -/
def fmt_d (i : Int) : String :=
  if i < 0 then "-" ++ Nat.repr i.natAbs else Nat.repr i.natAbs

/-! ## `src/cgroup_control.c` -/

def CGROUP_BASE : String := "/sys/fs/cgroup"
def CGROUP_NAME : String := "isolate_group"
def CGROUP_PATH : String := CGROUP_BASE ++ "/" ++ CGROUP_NAME

def O_WRONLY : Nat := 0x1
def O_CLOEXEC : Nat := 0x80000
def EXIT_FAILURE : Int := 1

/-- The function `write_to_file`: `open`, one `write` of `strlen(value)` bytes, `close`.
Only a negative return of `open` or of `write` leads to `exit(EXIT_FAILURE)`. -/
def write_to_file (path : String) (value : String) : Sys Unit := do
  let fd := (← sys (Call.sys_open path (O_WRONLY ||| O_CLOEXEC))).ret
  if fd < 0 then
    emit (Call.perror "open")
    exit EXIT_FAILURE
  if (← sys (Call.write fd value)).ret < 0 then
    emit (Call.perror "write")
    let _ ← sys (Call.close fd)
    exit EXIT_FAILURE
  let _ ← sys (Call.close fd)
  pure ()

/-- The function `create_cgroup_directory`: `mkdir` only when `stat` fails. -/
def create_cgroup_directory : Sys Unit := do
  if (← sys (Call.stat CGROUP_PATH)).ret = -1 then
    if (← sys (Call.mkdir CGROUP_PATH 0o755)).ret = -1 then
      emit (Call.perror "mkdir cgroup")
      exit EXIT_FAILURE

def cgroup_set_cpu_limit (max_us : String) : Sys Unit :=
  write_to_file (CGROUP_PATH ++ "/cpu.max") max_us

def cgroup_set_memory_limit (max_bytes : String) : Sys Unit :=
  write_to_file (CGROUP_PATH ++ "/memory.max") max_bytes

def cgroup_set_pids_limit (max_pids : String) : Sys Unit :=
  write_to_file (CGROUP_PATH ++ "/pids.max") max_pids

def cgroup_add_process (pid : Int) : Sys Unit :=
  write_to_file (CGROUP_PATH ++ "/cgroup.procs") (fmt_d pid)

def cgroup_init_and_limit (pid : Int) : Sys Unit := do
  create_cgroup_directory
  cgroup_set_cpu_limit "20000 100000"
  cgroup_set_memory_limit "50M"
  cgroup_set_pids_limit "50"
  cgroup_add_process pid

/-! ## `include/netns.h`, `src/netns.c`: the rtnetlink client -/

/-- Memory addressed in bytes relative to the start of a C object. -/
abbrev Mem := Nat → Nat

/-- Store the bytes `data` at offset `off`. -/
def poke (m : Mem) (off : Nat) (data : List Nat) : Mem := fun a =>
  if off ≤ a ∧ a < off + data.length then data.getD (a - off) 0 else m a

/-- The `len` bytes starting at offset `off`. -/
def peek (m : Mem) (off : Nat) (len : Nat) : List Nat :=
  (List.range len).map (fun i => m (off + i))

/-- Little-endian bytes of a 16-bit value. -/
def le16 (v : Nat) : List Nat := [v % 256, v / 256 % 256]

/-- Little-endian bytes of a 32-bit value. -/
def le32 (v : Nat) : List Nat := [v % 256, v / 256 % 256, v / 65536 % 256, v / 16777216 % 256]

def get_u16 (m : Mem) (off : Nat) : Nat := m off % 256 + 256 * (m (off + 1) % 256)

def get_u32 (m : Mem) (off : Nat) : Nat :=
  m off % 256 + 256 * (m (off + 1) % 256) + 65536 * (m (off + 2) % 256)
    + 16777216 * (m (off + 3) % 256)

def put_u16 (m : Mem) (off : Nat) (v : Nat) : Mem := poke m off (le16 v)

def put_u32 (m : Mem) (off : Nat) (v : Nat) : Mem := poke m off (le32 v)

/-- Conversion of a 32-bit pattern to `int` (two's complement). -/
def to_int (v : Nat) : Int := if v % 4294967296 < 2147483648 then (v % 4294967296 : Nat)
  else ((v % 4294967296 : Nat) : Int) - 4294967296

/-- Conversion of an integer to `unsigned int`, `__u32`. -/
def to_u32 (x : Int) : Nat := (x % 4294967296).toNat

/-- Bytes of a C string literal (ASCII), without the terminating NUL. -/
def cstr (s : String) : List Nat := s.toList.map Char.toNat

/-! Constants of the Linux headers (`linux/netlink.h`, `linux/rtnetlink.h`,
`linux/if_link.h`, `linux/veth.h`, `sys/socket.h`, `net/if.h`). -/

def MAX_PAYLOAD : Nat := 1024
def sizeof_nlmsghdr : Nat := 16
def sizeof_ifinfomsg : Nat := 16
def sizeof_rtattr : Nat := 4
def sizeof_nlmsgerr : Nat := 20
/-- The type `struct nl_req`: an `nlmsghdr`, an `ifinfomsg` and `MAX_PAYLOAD` bytes. -/
def sizeof_nl_req : Nat := sizeof_nlmsghdr + sizeof_ifinfomsg + MAX_PAYLOAD

def RTM_NEWLINK : Nat := 16
def NLMSG_ERROR : Nat := 2
def NLM_F_REQUEST : Nat := 0x1
def NLM_F_ACK : Nat := 0x4
def NLM_F_EXCL : Nat := 0x200
def NLM_F_CREATE : Nat := 0x400
def IFLA_IFNAME : Nat := 3
def IFLA_LINKINFO : Nat := 18
def IFLA_NET_NS_FD : Nat := 28
def IFLA_INFO_KIND : Nat := 1
def IFLA_INFO_DATA : Nat := 2
def VETH_INFO_PEER : Nat := 1
def MSG_TRUNC : Nat := 0x20
def PF_NETLINK : Nat := 16
def PF_INET : Nat := 2
def AF_INET : Nat := 2
def SOCK_RAW : Nat := 3
def SOCK_DGRAM : Nat := 2
def SOCK_CLOEXEC : Nat := 0x80000
def NETLINK_ROUTE : Nat := 0
def IPPROTO_IP : Nat := 0
def IFNAMSIZ : Nat := 16
def SIOCSIFADDR : Nat := 0x8916
def SIOCSIFNETMASK : Nat := 0x891c
def SIOCSIFFLAGS : Nat := 0x8914
def IFF_UP : Nat := 0x1
def IFF_BROADCAST : Nat := 0x2
def IFF_RUNNING : Nat := 0x40
def IFF_MULTICAST : Nat := 0x1000
def O_RDONLY : Nat := 0
def CLONE_NEWNET : Nat := 0x40000000

/-- The macro `NLMSG_ALIGN(len)`: `(len + 3) & ~3` in `unsigned int` arithmetic. -/
def NLMSG_ALIGN (len : Nat) : Nat := (len + 3) % 4294967296 / 4 * 4

/-- The macro `NLMSG_LENGTH(len)`: `len + NLMSG_ALIGN(sizeof(struct nlmsghdr))`. -/
def NLMSG_LENGTH (len : Nat) : Nat := len + NLMSG_ALIGN sizeof_nlmsghdr

/-- The macro `RTA_ALIGN(len)`: `(len + 3) & ~3` in `unsigned int` arithmetic. -/
def RTA_ALIGN (len : Nat) : Nat := (len + 3) % 4294967296 / 4 * 4

/-- The macro `RTA_LENGTH(len)`: `RTA_ALIGN(sizeof(struct rtattr)) + len`. -/
def RTA_LENGTH (len : Nat) : Nat := RTA_ALIGN sizeof_rtattr + len

/-- The field `nlmsg_len`, the first four bytes of a `struct nlmsghdr`. -/
def nlmsg_len (n : Mem) : Nat := get_u32 n 0

/-- The macro `NLMSG_TAIL(nmsg)`, as an offset from `nmsg`. -/
def NLMSG_TAIL (n : Mem) : Nat := NLMSG_ALIGN (nlmsg_len n)

/-- The macro `RTA_DATA(rta)`, for `rta` an offset. -/
def RTA_DATA (rta : Nat) : Nat := rta + RTA_LENGTH 0

/-- The function `addattr_l`.  `attr_len` is a `__u16` and `newlen` a `__u32`; the
comparison with the `int maxlen` is done in `unsigned int`.  `data` holds the bytes
`data` points to, of which `memcpy` copies the first `datalen`. -/
def addattr_l (n : Mem) (maxlen : Int) (type : Nat) (data : List Nat) (datalen : Nat) :
    Sys Mem := do
  let attr_len := RTA_LENGTH datalen % 65536
  let newlen := (NLMSG_ALIGN (nlmsg_len n) + RTA_ALIGN attr_len) % 4294967296
  if newlen > to_u32 maxlen then
    die "cannot add attribute. size (%d) exceeded maxlen (%d)\n"
  let rta := NLMSG_TAIL n
  let n := put_u16 n (rta + 2) type
  let n := put_u16 n rta attr_len
  let n := if datalen ≠ 0 then poke n (RTA_DATA rta) (data.take datalen) else n
  pure (put_u32 n 0 newlen)

/-- The function `addattr_nest`: returns the message and the offset of the nest. -/
def addattr_nest (n : Mem) (maxlen : Int) (type : Nat) : Sys (Mem × Nat) := do
  let nest := NLMSG_TAIL n
  let n ← addattr_l n maxlen type [] 0
  pure (n, nest)

/-- The function `addattr_nest_end`: the pointer difference is stored in a `__u16`. -/
def addattr_nest_end (n : Mem) (nest : Nat) : Mem :=
  put_u16 n nest (to_u32 ((NLMSG_TAIL n : Int) - nest) % 65536)

/-- The function `read_response`: one `recvmsg` into a buffer of `MAX_PAYLOAD` bytes.
The reply carries the received length, the buffer and `msg_flags`. -/
def read_response (fd : Int) : Sys Reply := do
  let r ← sys (Call.recvmsg fd MAX_PAYLOAD)
  let resp_len := r.ret
  if resp_len = 0 then
    die "EOF on netlink\n"
  if resp_len < 0 then
    die "netlink receive error: %m\n"
  pure r

/-- The reply buffer `resp` as memory: the `malloc`ed area after `recvmsg`, so the bytes
past the received length are arbitrary. -/
def resp_mem (r : Reply) : Mem := fun a => r.buf.getD a 0

/-- The function `check_response`.  `nlmsglen` and `datalen` are `int`: the first is the
`__u32` header field converted to `int`, the second the difference with the `size_t`
`sizeof(*hdr)` converted to `int`.  The negation of `err->error` wraps at 32 bits. -/
def check_response (sock_fd : Int) : Sys Unit := do
  let r ← read_response sock_fd
  let resp_len := r.ret
  let resp : Mem := resp_mem r
  let nlmsglen : Int := to_int (get_u32 resp 0)
  let datalen : Int := to_int (to_u32 (nlmsglen - sizeof_nlmsghdr))
  if datalen < 0 ∨ nlmsglen > resp_len then
    if r.msg_flags &&& MSG_TRUNC ≠ 0 then
      die "received truncated message\n"
    die "malformed message: nlmsg_len=%d\n"
  if get_u16 resp 4 = NLMSG_ERROR then
    let error : Int := to_int (get_u32 resp (NLMSG_LENGTH 0))
    if datalen < sizeof_nlmsgerr then
      emit (Call.fprintf_stderr "ERROR truncated!\n")
    if error ≠ 0 then
      emit (Call.set_errno (to_int (to_u32 (-error))))
      die "RTNETLINK: %m\n"
  pure ()

def create_socket (domain : Nat) (type : Nat) (protocol : Nat) : Sys Int := do
  let sock_fd := (← sys (Call.socket domain type protocol)).ret
  if sock_fd < 0 then
    die "cannot open socket: %m\n"
  pure sock_fd

/-- The function `send_nlmsg`: `iov_len` is read from `nlmsg_len`, `nlmsg_seq` (at
offset 8) is incremented, the first `iov_len` bytes are sent, the reply is checked. -/
def send_nlmsg (sock_fd : Int) (n : Mem) : Sys Unit := do
  let iov_len := nlmsg_len n
  let n := put_u32 n 8 ((get_u32 n 8 + 1) % 4294967296)
  let status := (← sys (Call.sendmsg sock_fd (peek n 0 iov_len))).ret
  if status < 0 then
    die "cannot talk to rtnetlink: %m\n"
  check_response sock_fd

def get_netns_fd (pid : Int) : Sys Int := do
  let path := "/proc/" ++ fmt_d pid ++ "/ns/net"
  let fd := (← sys (Call.sys_open path O_RDONLY)).ret
  if fd < 0 then
    die "cannot read netns file %s: %m\n"
  pure fd

/-- The function `if_up`.  `ifr_flags` shares the union of `struct ifreq` with
`ifr_addr`, whose first 16 bits hold `sin_family` when the flags are or-ed in. -/
def if_up (ifname : List Nat) (ip : String) (netmask : String) : Sys Unit := do
  let sock_fd ← create_socket PF_INET SOCK_DGRAM IPPROTO_IP
  let ifr_name := ifname.take (IFNAMSIZ - 1)
  if (← sys (Call.ioctl_addr sock_fd SIOCSIFADDR ifr_name ip)).ret ≠ 0 then
    die "cannot set ip addr %s, %s: %m\n"
  if (← sys (Call.ioctl_addr sock_fd SIOCSIFNETMASK ifr_name netmask)).ret ≠ 0 then
    die "cannot set netmask for addr %s, %s: %m\n"
  let ifr_flags := AF_INET ||| IFF_UP ||| IFF_BROADCAST ||| IFF_RUNNING ||| IFF_MULTICAST
  if (← sys (Call.ioctl_flags sock_fd SIOCSIFFLAGS ifr_name ifr_flags)).ret ≠ 0 then
    die "cannot set flags for addr %s, %s: %m\n"
  let _ ← sys (Call.close sock_fd)
  pure ()

/-- A zero-initialised `struct nl_req` with the four designated fields set. -/
def nl_req_init (len : Nat) (flags : Nat) (type : Nat) (ifi_family : Nat) : Mem :=
  poke (put_u16 (put_u16 (put_u32 (fun _ => 0) 0 len) 4 type) 6 flags) 16 [ifi_family % 256]

/-- The length of a C string given by its bytes before the NUL. -/
def strlen (s : List Nat) : Nat := s.length

/-- The part of `create_veth` that builds the request, up to the call of `send_nlmsg`.
A name is given by its bytes before the terminating NUL. -/
def create_veth_req (ifname : List Nat) (peername : List Nat) : Sys Mem := do
  let flags := NLM_F_REQUEST ||| NLM_F_CREATE ||| NLM_F_EXCL ||| NLM_F_ACK
  let req := nl_req_init (NLMSG_LENGTH sizeof_ifinfomsg) flags RTM_NEWLINK PF_NETLINK
  let maxlen : Int := sizeof_nl_req
  let n ← addattr_l req maxlen IFLA_IFNAME (ifname ++ [0]) ((strlen ifname + 1) % 65536)
  let (n, linfo) ← addattr_nest n maxlen IFLA_LINKINFO
  let n ← addattr_l n sizeof_nl_req IFLA_INFO_KIND (cstr "veth" ++ [0]) 5
  let (n, linfodata) ← addattr_nest n maxlen IFLA_INFO_DATA
  let (n, peerinfo) ← addattr_nest n maxlen VETH_INFO_PEER
  let n := put_u32 n 0 ((nlmsg_len n + sizeof_ifinfomsg) % 4294967296)
  let n ← addattr_l n maxlen IFLA_IFNAME (peername ++ [0]) ((strlen peername + 1) % 65536)
  let n := addattr_nest_end n peerinfo
  let n := addattr_nest_end n linfodata
  let n := addattr_nest_end n linfo
  pure n

def create_veth (sock_fd : Int) (ifname : List Nat) (peername : List Nat) : Sys Unit := do
  let n ← create_veth_req ifname peername
  send_nlmsg sock_fd n

/-- The part of `move_if_to_pid_netns` that builds the request. -/
def move_if_to_pid_netns_req (ifname : List Nat) (netns : Int) : Sys Mem := do
  let req := nl_req_init (NLMSG_LENGTH sizeof_ifinfomsg) (NLM_F_REQUEST ||| NLM_F_ACK)
    RTM_NEWLINK PF_NETLINK
  let n ← addattr_l req sizeof_nl_req IFLA_NET_NS_FD (le32 (to_u32 netns)) 4
  let n ← addattr_l n sizeof_nl_req IFLA_IFNAME (ifname ++ [0]) ((strlen ifname + 1) % 65536)
  pure n

def move_if_to_pid_netns (sock_fd : Int) (ifname : List Nat) (netns : Int) : Sys Unit := do
  let n ← move_if_to_pid_netns_req ifname netns
  send_nlmsg sock_fd n

/-! ## `src/isolate.c`: the orchestrator -/

def SIGCHLD : Nat := 17
def SIGKILL : Nat := 9
def PR_SET_PDEATHSIG : Nat := 1
def CLONE_NEWNS : Nat := 0x00020000
def CLONE_NEWUTS : Nat := 0x04000000
def CLONE_NEWIPC : Nat := 0x08000000
def CLONE_NEWUSER : Nat := 0x10000000
def CLONE_NEWPID : Nat := 0x20000000
def MS_BIND : Nat := 4096
def MNT_DETACH : Nat := 2
def IPC_PRIVATE : Nat := 0
def IPC_CREAT : Nat := 0o1000

/-- The function `parse_args`: `NEXT_ARG()` drops the program name; with nothing left
it prints and calls `exit(0)`, otherwise it stores the remaining vector. -/
def parse_args (argc : Int) (argv : List String) (params : Params) : Sys Params := do
  let argc := argc - 1
  let argv := argv.tail
  if argc < 1 then
    emit (Call.printf "Nothing to do!\n")
    exit 0
  pure { params with argv := argv }

/-- The function `await_setup`: one `read` of two bytes from the pipe. -/
def await_setup (pipe : Int) : Sys Unit := do
  if (← sys (Call.read pipe 2)).ret ≠ 2 then
    die "Failed to read from pipe: %m\n"

def prepare_procfs : Sys Unit := do
  let r ← sys (Call.mkdir "/proc" 0o555)
  if r.ret ≠ 0 ∧ r.eexist = false then
    die "Failed to mkdir /proc: %m\n"
  if (← sys (Call.mount "proc" "/proc" "proc" 0)).ret ≠ 0 then
    die "Failed to mount proc: %m\n"

def prepare_mntns (rootfs : String) : Sys Unit := do
  let mnt := rootfs
  if (← sys (Call.mount rootfs mnt "ext4" MS_BIND)).ret ≠ 0 then
    die "Failed to mount %s at %s: %m\n"
  if (← sys (Call.chdir mnt)).ret ≠ 0 then
    die "Failed to chdir to rootfs mounted at %s: %m\n"
  let put_old := ".put_old"
  let r ← sys (Call.mkdir put_old 0o777)
  if r.ret ≠ 0 ∧ r.eexist = false then
    die "Failed to mkdir put_old %s: %m\n"
  if (← sys (Call.pivot_root "." put_old)).ret ≠ 0 then
    die "Failed to pivot_root from %s to %s: %m\n"
  if (← sys (Call.chdir "/")).ret ≠ 0 then
    die "Failed to chdir to new root: %m\n"
  prepare_procfs
  if (← sys (Call.umount2 put_old MNT_DETACH)).ret ≠ 0 then
    die "Failed to umount put_old %s: %m\n"

/-- The function `cmd_exec`, the entry point of the cloned child. -/
def cmd_exec (params : Params) : Sys Int := do
  if (← sys (Call.prctl PR_SET_PDEATHSIG SIGKILL)).ret ≠ 0 then
    die "cannot PR_SET_PDEATHSIG for child process: %m\n"
  await_setup params.fd0
  prepare_mntns "rootfs"
  let msqid := (← sys (Call.msgget IPC_PRIVATE (IPC_CREAT ||| 0o666))).ret
  if msqid = -1 then
    die "msgget failed: %m\n"
  emit (Call.printf ("Created IPC message queue with id: " ++ fmt_d msqid ++ "\n"))
  if (← sys (Call.setgid 0)).ret = -1 then
    die "Failed to setgid: %m\n"
  if (← sys (Call.setuid 0)).ret = -1 then
    die "Failed to setuid: %m\n"
  let argv := params.argv
  let cmd := argv.headD ""
  emit (Call.printf ("===========" ++ cmd ++ "============\n"))
  if (← sys (Call.execvp cmd argv)).ret = -1 then
    die "Failed to exec %s: %m\n"
  die "¯\\_(ツ)_/¯"

/-- The function `write_file` of `isolate.c`.  `fwrite` returns a `size_t`, so the
comparison `< 0` is made on an unsigned value. -/
def write_file (path : String) (line : String) : Sys Unit := do
  let f := (← sys (Call.fopen path "w")).ret
  if f = 0 then
    die "Failed to open file %s: %m\n"
  let written : Nat := (← sys (Call.fwrite f line)).ret.toNat
  if written < 0 then
    die "Failed to write to file %s:\n"
  if (← sys (Call.fclose f)).ret ≠ 0 then
    die "Failed to close file %s: %m\n"

def prepare_userns (pid : Int) : Sys Unit := do
  let uid : Int := 1000
  write_file ("/proc/" ++ fmt_d pid ++ "/uid_map") ("0 " ++ fmt_d uid ++ " 1\n")
  write_file ("/proc/" ++ fmt_d pid ++ "/setgroups") "deny"
  write_file ("/proc/" ++ fmt_d pid ++ "/gid_map") ("0 " ++ fmt_d uid ++ " 1\n")

def prepare_netns (cmd_pid : Int) : Sys Unit := do
  let veth := cstr "veth0"
  let vpeer := cstr "veth1"
  let veth_addr := "10.1.1.1"
  let vpeer_addr := "10.1.1.2"
  let netmask := "255.255.255.0"
  let sock_fd ← create_socket PF_NETLINK (SOCK_RAW ||| SOCK_CLOEXEC) NETLINK_ROUTE
  create_veth sock_fd veth vpeer
  if_up veth veth_addr netmask
  let mynetns ← get_netns_fd (← sys Call.getpid).ret
  let child_netns ← get_netns_fd cmd_pid
  move_if_to_pid_netns sock_fd vpeer child_netns
  if (← sys (Call.setns child_netns CLONE_NEWNET)).ret ≠ 0 then
    die "Failed to setns for command at pid %d: %m\n"
  if_up vpeer vpeer_addr netmask
  if (← sys (Call.setns mynetns CLONE_NEWNET)).ret ≠ 0 then
    die "Failed to restore previous net namespace: %m\n"
  let _ ← sys (Call.close sock_fd)
  pure ()

/-- The flags `main` passes to `clone`: `SIGCHLD` and the six namespaces. -/
def clone_flags : Nat := SIGCHLD ||| CLONE_NEWUTS ||| CLONE_NEWUSER ||| CLONE_NEWNS |||
    CLONE_NEWPID ||| CLONE_NEWNET ||| CLONE_NEWIPC

/-- The function `main`.  The child created by `clone` runs `cmd_exec` in a process of
its own, with its own trace; the parent continues with the PID `clone` returned. -/
def main (argc : Int) (argv : List String) : Sys Int := do
  let params : Params := { fd0 := 0, fd1 := 0, argv := [] }
  let params ← parse_args argc argv params
  let r ← sys Call.pipe
  if r.ret < 0 then
    die "Failed to create pipe: %m"
  let params := { params with fd0 := r.buf.getD 0 0, fd1 := r.buf.getD 1 0 }
  let cmd_pid := (← sys (Call.clone clone_flags params)).ret
  if cmd_pid < 0 then
    die "Failed to clone: %m\n"
  cgroup_init_and_limit cmd_pid
  let pipe := params.fd1
  prepare_userns cmd_pid
  prepare_netns cmd_pid
  if (← sys (Call.write pipe "OK")).ret ≠ 2 then
    die "Failed to write to pipe: %m"
  if (← sys (Call.close pipe)).ret ≠ 0 then
    die "Failed to close pipe: %m"
  if (← sys (Call.waitpid cmd_pid)).ret = -1 then
    die "Failed to wait pid %d: %m\n"
  pure 0

/-! ## Environments and call sequences used in the statements -/

/-- An environment in which `open` yields descriptor 3 and `write` reports that only
5 bytes were transferred. -/
def env_short_write : Env := fun _ c =>
  match c with
  | Call.sys_open _ _ => { ret := 3, buf := [], msg_flags := 0, eexist := false }
  | Call.write _ _ => { ret := 5, buf := [], msg_flags := 0, eexist := false }
  | _ => { ret := 0, buf := [], msg_flags := 0, eexist := false }

/-- An environment for a first launch: the cgroup directory does not exist yet (`stat`
fails), descriptors and stream handles are 3, `write` transfers everything, `pipe`
yields the descriptors 3 and 4, `clone` yields PID 77, `read` delivers two bytes, and
every netlink request is acknowledged with error code 0. -/
def env_launch : Env := fun _ c =>
  match c with
  | Call.stat _ => { ret := -1, buf := [], msg_flags := 0, eexist := false }
  | Call.sys_open _ _ => { ret := 3, buf := [], msg_flags := 0, eexist := false }
  | Call.write _ data => { ret := data.length, buf := [], msg_flags := 0, eexist := false }
  | Call.fopen _ _ => { ret := 3, buf := [], msg_flags := 0, eexist := false }
  | Call.pipe => { ret := 0, buf := [3, 4], msg_flags := 0, eexist := false }
  | Call.clone _ _ => { ret := 77, buf := [], msg_flags := 0, eexist := false }
  | Call.read _ _ => { ret := 2, buf := [79, 75], msg_flags := 0, eexist := false }
  | Call.socket _ _ _ => { ret := 5, buf := [], msg_flags := 0, eexist := false }
  | Call.recvmsg _ _ =>
    { ret := 36, buf := [36, 0, 0, 0, 2, 0, 0, 0, 1, 0, 0, 0, 0, 0, 0, 0, 0, 0, 0, 0],
      msg_flags := 0, eexist := false }
  | _ => { ret := 0, buf := [], msg_flags := 0, eexist := false }

/-- The calls of a complete `prepare_userns(pid)`, for the three stream handles. -/
def userns_calls (pid : Int) (f1 : Int) (f2 : Int) (f3 : Int) : List Call :=
  [Call.fopen ("/proc/" ++ fmt_d pid ++ "/uid_map") "w", Call.fwrite f1 "0 1000 1\n",
   Call.fclose f1,
   Call.fopen ("/proc/" ++ fmt_d pid ++ "/setgroups") "w", Call.fwrite f2 "deny",
   Call.fclose f2,
   Call.fopen ("/proc/" ++ fmt_d pid ++ "/gid_map") "w", Call.fwrite f3 "0 1000 1\n",
   Call.fclose f3]

/-- Every call a procedure adds to the trace satisfies `Q`, whatever the environment
and however the procedure ends. -/
def Emits {α : Type} (Q : Call → Prop) (x : Sys α) : Prop :=
  ∀ env tr, ∃ evs, (x env tr).2 = tr ++ evs ∧ ∀ e ∈ evs, Q e

/-- The write of a readiness token `"OK"`. -/
def Call.is_ready : Call → Bool
  | Call.write _ data => data == "OK"
  | _ => false

/-- The calls the parent issues between `clone` and the readiness token: everything
but `pipe`, `clone`, a write of `"OK"`, and the calls only the child makes. -/
def Call.is_setup : Call → Bool
  | Call.write _ data => data != "OK"
  | Call.perror _ => true
  | Call.fprintf_stderr _ => true
  | Call.die _ => true
  | Call.set_errno _ => true
  | Call.stat _ => true
  | Call.mkdir _ _ => true
  | Call.sys_open _ _ => true
  | Call.close _ => true
  | Call.fopen _ _ => true
  | Call.fwrite _ _ => true
  | Call.fclose _ => true
  | Call.socket _ _ _ => true
  | Call.sendmsg _ _ => true
  | Call.recvmsg _ _ => true
  | Call.ioctl_addr _ _ _ _ => true
  | Call.ioctl_flags _ _ _ _ => true
  | Call.getpid => true
  | Call.setns _ _ => true
  | _ => false

/-- The steps of the child that depend on the parent's setup: `mount`, `pivot_root`,
`setgid`, `setuid` and `execvp`. -/
def Call.is_payload_step : Call → Bool
  | Call.mount _ _ _ _ => true
  | Call.pivot_root _ _ => true
  | Call.setgid _ => true
  | Call.setuid _ => true
  | Call.execvp _ _ => true
  | _ => false

/-- A reply flagged `MSG_TRUNC` whose first message is a complete acknowledgment
(`nlmsg_len` = 36 = received length, type `NLMSG_ERROR`, error code 0). -/
def env_trunc_ack : Env := fun _ _ =>
  { ret := 36, buf := [36, 0, 0, 0, 2, 0, 0, 0, 1, 0, 0, 0, 0, 0, 0, 0, 0, 0, 0, 0],
    msg_flags := MSG_TRUNC, eexist := false }

/-- A reply flagged `MSG_TRUNC` whose header announces 2000 bytes while 1024 arrived. -/
def env_truncated : Env := fun _ _ =>
  { ret := 1024, buf := [208, 7, 0, 0, 2, 0, 0, 0, 1, 0, 0, 0, 0, 0, 0, 0, 0, 0, 0, 0],
    msg_flags := MSG_TRUNC, eexist := false }

/-- A reply of 16 bytes whose `nlmsg_len` is `0x80000000`, of type `NLMSG_DONE`. -/
def env_huge_len : Env := fun _ _ =>
  { ret := 16, buf := [0, 0, 0, 128, 3, 0, 0, 0, 1, 0, 0, 0, 0, 0, 0, 0],
    msg_flags := 0, eexist := false }

/-- A well-formed reply of type `NLMSG_ERROR` whose error code is `+5`. -/
def env_positive_error : Env := fun _ _ =>
  { ret := 36, buf := [36, 0, 0, 0, 2, 0, 0, 0, 1, 0, 0, 0, 0, 0, 0, 0, 5, 0, 0, 0],
    msg_flags := 0, eexist := false }

/-- A well-formed reply of type `NLMSG_ERROR` whose error code is `-17` (`-EEXIST`). -/
def env_eexist : Env := fun _ _ =>
  { ret := 36, buf := [36, 0, 0, 0, 2, 0, 0, 0, 1, 0, 0, 0, 0, 0, 0, 0, 239, 255, 255, 255],
    msg_flags := 0, eexist := false }

/-! ## The wire format of a request, as the spec describes it -/

/-- The bytes of one routing attribute: the header with the unpadded length, the type,
the payload, and zero padding to a multiple of four. -/
def rta (type : Nat) (payload : List Nat) : List Nat :=
  le16 (4 + payload.length) ++ le16 type ++ payload ++
    List.replicate ((4 - payload.length % 4) % 4) 0

/-- The message in `m` consists of the length field followed by `body`, and the memory
behind it is zero. -/
def Holds (m : Mem) (body : List Nat) : Prop :=
  nlmsg_len m = 4 + body.length ∧ peek m 4 body.length = body ∧
    ∀ a, 4 + body.length ≤ a → m a = 0


/-- The attributes of the veth creation request as the spec lists them: the host-side
name as a NUL-terminated string; then a nested `linkinfo` attribute containing the kind
string `"veth"` and a nested `info-data`, which contains a nested `veth-info-peer` whose
payload is a fresh (all-zero) interface header followed by the peer-name attribute. -/
def veth_request_attrs (name_a : List Nat) (name_b : List Nat) : List Nat :=
  rta IFLA_IFNAME (name_a ++ [0]) ++
  rta IFLA_LINKINFO
    (rta IFLA_INFO_KIND (cstr "veth" ++ [0]) ++
     rta IFLA_INFO_DATA
       (rta VETH_INFO_PEER
         (List.replicate sizeof_ifinfomsg 0 ++ rta IFLA_IFNAME (name_b ++ [0]))))

/-- The 28 bytes that follow `nlmsg_len` in a fresh request: type, flags, sequence
number and port id of the `nlmsghdr`, then the `ifinfomsg` with only the family set. -/
def request_header (type : Nat) (flags : Nat) (ifi_family : Nat) : List Nat :=
  le16 type ++ le16 flags ++ List.replicate 8 0 ++ [ifi_family % 256] ++ List.replicate 15 0

/-- The part of `main` after `prepare_netns`: the readiness token, `close`, `waitpid`. -/
def main_release (pipe : Int) (cmd_pid : Int) : Sys Int := do
  if (← sys (Call.write pipe "OK")).ret ≠ 2 then
    die "Failed to write to pipe: %m"
  if (← sys (Call.close pipe)).ret ≠ 0 then
    die "Failed to close pipe: %m"
  if (← sys (Call.waitpid cmd_pid)).ret = -1 then
    die "Failed to wait pid %d: %m\n"
  pure 0

/-- The part of `cmd_exec` after `await_setup`. -/
def cmd_exec_payload (params : Params) : Sys Int := do
  prepare_mntns "rootfs"
  let msqid := (← sys (Call.msgget IPC_PRIVATE (IPC_CREAT ||| 0o666))).ret
  if msqid = -1 then
    die "msgget failed: %m\n"
  emit (Call.printf ("Created IPC message queue with id: " ++ fmt_d msqid ++ "\n"))
  if (← sys (Call.setgid 0)).ret = -1 then
    die "Failed to setgid: %m\n"
  if (← sys (Call.setuid 0)).ret = -1 then
    die "Failed to setuid: %m\n"
  let argv := params.argv
  let cmd := argv.headD ""
  emit (Call.printf ("===========" ++ cmd ++ "============\n"))
  if (← sys (Call.execvp cmd argv)).ret = -1 then
    die "Failed to exec %s: %m\n"
  die "¯\\_(ツ)_/¯"

/-! ## Sequence numbers of the requests sent -/

/-- The `nlmsg_seq` field of a netlink header, at offset 8. -/
def nlmsg_seq (n : Mem) : Nat := get_u32 n 8

/-- The sequence number carried by a request handed to `sendmsg`. -/
def Call.sent_seq : Call → Option Nat
  | Call.sendmsg _ bytes => some (nlmsg_seq (fun a => bytes.getD a 0))
  | _ => none

/-- The requests of a trace, in order: the socket each was sent on and the sequence number
it carried. -/
def sent_requests (tr : List Call) : List (Int × Nat) :=
  tr.filterMap (fun c =>
    match c with
    | Call.sendmsg fd bytes => some (fd, nlmsg_seq (fun a => bytes.getD a 0))
    | _ => none)

/-! ## The construction of a request, step by step -/

/-- A request as it goes out on the wire: the netlink header with length, type, flags,
sequence number and port id 0, the interface header with only the family set, and the
attributes. -/
def sent_request (type : Nat) (flags : Nat) (seq : Nat) (attrs : List Nat) : List Nat :=
  le32 (32 + attrs.length) ++ (le16 type ++ le16 flags ++ le32 seq ++ List.replicate 4 0 ++
    [PF_NETLINK % 256] ++ List.replicate 15 0 ++ attrs)

/-- The interface migration request as the spec describes it: a "new link" request with
two attributes, the target netns file descriptor as a 4-byte payload under
`IFLA_NET_NS_FD` and the interface name. -/
def move_request (ifname : List Nat) (netns : Int) : List Nat :=
  sent_request RTM_NEWLINK (NLM_F_REQUEST ||| NLM_F_ACK) 1
    (rta IFLA_NET_NS_FD (le32 (to_u32 netns)) ++ rta IFLA_IFNAME (ifname ++ [0]))

/-- The diagnostics with which `cmd_exec` dies before it reaches `execvp`. -/
def child_setup_failures : List String :=
  ["cannot PR_SET_PDEATHSIG for child process: %m\n", "Failed to read from pipe: %m\n",
   "Failed to mount %s at %s: %m\n", "Failed to chdir to rootfs mounted at %s: %m\n",
   "Failed to mkdir put_old %s: %m\n", "Failed to pivot_root from %s to %s: %m\n",
   "Failed to chdir to new root: %m\n", "Failed to mkdir /proc: %m\n",
   "Failed to mount proc: %m\n", "Failed to umount put_old %s: %m\n", "msgget failed: %m\n",
   "Failed to setgid: %m\n", "Failed to setuid: %m\n"]

/-- An environment in which every step of the child succeeds: `read` delivers two bytes
and every other call returns 0. -/
def child_setup_ok (cenv : Env) : Prop :=
  ∀ k c, (cenv k c).ret = match c with
    | Call.read _ _ => 2
    | _ => 0

/-- The calls of `cmd_exec` when every step succeeds and `execvp` returns. -/
def child_calls (p : Params) : List Call :=
  [Call.prctl PR_SET_PDEATHSIG SIGKILL, Call.read p.fd0 2,
   Call.mount "rootfs" "rootfs" "ext4" MS_BIND, Call.chdir "rootfs",
   Call.mkdir ".put_old" 0o777, Call.pivot_root "." ".put_old", Call.chdir "/",
   Call.mkdir "/proc" 0o555, Call.mount "proc" "/proc" "proc" 0,
   Call.umount2 ".put_old" MNT_DETACH, Call.msgget IPC_PRIVATE (IPC_CREAT ||| 0o666),
   Call.printf "Created IPC message queue with id: 0\n", Call.setgid 0, Call.setuid 0,
   Call.printf ("===========" ++ p.argv.headD "" ++ "============\n"),
   Call.execvp (p.argv.headD "") p.argv, Call.die "¯\\_(ツ)_/¯"]

/-- An environment in which `read` delivers two bytes and every other call returns 0. -/
def env_child : Env := fun _ c =>
  match c with
  | Call.read _ _ => { ret := 2, buf := [79, 75], msg_flags := 0, eexist := false }
  | _ => { ret := 0, buf := [], msg_flags := 0, eexist := false }

/-- How a procedure can end: it returns a value satisfying `P`, or it dies with one of the
diagnostics `L` as its last call, or it dies with the call `c` in its trace. -/
def Outcome {α : Type} (L : List String) (c : Call) (P : α → Prop) (x : Sys α) : Prop :=
  ∀ env tr,
    (∃ a t, x env tr = (Res.ok a, t) ∧ P a) ∨
    (∃ msg ∈ L, ∃ t, x env tr = (Res.fatal, t ++ [Call.die msg])) ∨
    (∃ t, x env tr = (Res.fatal, t) ∧ c ∈ t)

/-! ## Running procedures: rewriting rules for the `Sys` monad -/

@[simp] theorem run_pure {α : Type} (a : α) (env : Env) (tr : List Call) :
    (pure a : Sys α) env tr = (Res.ok a, tr) := rfl

@[simp] theorem run_bind {α β : Type} (x : Sys α) (f : α → Sys β) (env : Env)
    (tr : List Call) : (x >>= f) env tr = Sys.andThen x f env tr := rfl

theorem andThen_def {α β : Type} (x : Sys α) (f : α → Sys β) (env : Env) (tr : List Call) :
    Sys.andThen x f env tr = match x env tr with
      | (Res.ok a, tr1) => f a env tr1
      | (Res.exit s, tr1) => (Res.exit s, tr1)
      | (Res.fatal, tr1) => (Res.fatal, tr1) := rfl

@[simp] theorem andThen_sys {β : Type} (c : Call) (f : Reply → Sys β) (env : Env)
    (tr : List Call) : Sys.andThen (sys c) f env tr = f (env tr.length c) env (tr ++ [c]) := rfl

@[simp] theorem andThen_emit {β : Type} (c : Call) (f : Unit → Sys β) (env : Env)
    (tr : List Call) : Sys.andThen (emit c) f env tr = f () env (tr ++ [c]) := rfl

@[simp] theorem andThen_ret {α β : Type} (a : α) (f : α → Sys β) (env : Env)
    (tr : List Call) : Sys.andThen (pure a) f env tr = f a env tr := rfl

@[simp] theorem andThen_die {α β : Type} (m : String) (f : α → Sys β) (env : Env)
    (tr : List Call) : Sys.andThen (die m) f env tr = (Res.fatal, tr ++ [Call.die m]) := rfl

@[simp] theorem andThen_exit {α β : Type} (s : Int) (f : α → Sys β) (env : Env)
    (tr : List Call) : Sys.andThen (exit s) f env tr = (Res.exit s, tr) := rfl

@[simp] theorem andThen_ite {α β : Type} (c : Prop) [Decidable c] (x y : Sys α)
    (f : α → Sys β) (env : Env) (tr : List Call) :
    Sys.andThen (if c then x else y) f env tr =
      if c then Sys.andThen x f env tr else Sys.andThen y f env tr := by
  split <;> rfl

@[simp] theorem andThen_assoc {α β γ : Type} (x : Sys α) (f : α → Sys β) (g : β → Sys γ)
    (env : Env) (tr : List Call) :
    Sys.andThen (Sys.andThen x f) g env tr =
      Sys.andThen x (fun a => Sys.andThen (f a) g) env tr := by
  simp only [andThen_def]
  rcases x env tr with ⟨r, t⟩
  cases r <;> rfl

@[simp] theorem run_ite {α : Type} (c : Prop) [Decidable c] (x y : Sys α) (env : Env)
    (tr : List Call) : (if c then x else y) env tr = if c then x env tr else y env tr := by
  split <;> rfl

@[simp] theorem run_die {α : Type} (m : String) (env : Env) (tr : List Call) :
    (die m : Sys α) env tr = (Res.fatal, tr ++ [Call.die m]) := rfl

@[simp] theorem run_exit {α : Type} (s : Int) (env : Env) (tr : List Call) :
    (exit s : Sys α) env tr = (Res.exit s, tr) := rfl

@[simp] theorem run_sys (c : Call) (env : Env) (tr : List Call) :
    sys c env tr = (Res.ok (env tr.length c), tr ++ [c]) := rfl

@[simp] theorem run_emit (c : Call) (env : Env) (tr : List Call) :
    emit c env tr = (Res.ok (), tr ++ [c]) := rfl

/-! Laws used to bring a procedure into a form without join points. -/

theorem die_bind {α β : Type} (m : String) (f : α → Sys β) : (die m >>= f) = die m := rfl

theorem exit_bind {α β : Type} (s : Int) (f : α → Sys β) : (exit s >>= f) = exit s := rfl

theorem ret_bind {α β : Type} (a : α) (f : α → Sys β) : (pure a >>= f) = f a := rfl

theorem ite_bind {α β : Type} (c : Prop) [Decidable c] (x y : Sys α) (f : α → Sys β) :
    ((if c then x else y) >>= f) = if c then x >>= f else y >>= f := by
  split <;> rfl

theorem bind_assoc {α β γ : Type} (x : Sys α) (f : α → Sys β) (g : β → Sys γ) :
    ((x >>= f) >>= g) = x >>= fun a => f a >>= g := by
  funext env tr
  simp only [run_bind, andThen_def]
  rcases x env tr with ⟨r, t⟩
  cases r <;> rfl

/-- A composite returns normally exactly when both parts do, one after the other. -/
theorem andThen_ok_iff {α β : Type} (x : Sys α) (f : α → Sys β) (env : Env)
    (tr tr2 : List Call) (b : β) :
    Sys.andThen x f env tr = (Res.ok b, tr2) ↔
      ∃ a tr1, x env tr = (Res.ok a, tr1) ∧ f a env tr1 = (Res.ok b, tr2) := by
  simp only [andThen_def]
  rcases x env tr with ⟨r, t⟩
  cases r with
  | ok a =>
    constructor
    · intro h
      exact ⟨a, t, rfl, h⟩
    · rintro ⟨a1, t1, h1, h2⟩
      cases h1
      exact h2
  | exit s => simp
  | fatal => simp

/-! ## `write_to_file` and the cgroup controller -/

/-- The three outcomes of `write_to_file`, by the returns of `open` and `write`. -/
theorem write_to_file_run (path value : String) (env : Env) (tr : List Call) :
    write_to_file path value env tr =
      if (env tr.length (Call.sys_open path (O_WRONLY ||| O_CLOEXEC))).ret < 0 then
        (Res.exit EXIT_FAILURE,
          tr ++ [Call.sys_open path (O_WRONLY ||| O_CLOEXEC), Call.perror "open"])
      else if (env (tr.length + 1) (Call.write
          (env tr.length (Call.sys_open path (O_WRONLY ||| O_CLOEXEC))).ret value)).ret < 0 then
        (Res.exit EXIT_FAILURE,
          tr ++ [Call.sys_open path (O_WRONLY ||| O_CLOEXEC),
            Call.write (env tr.length (Call.sys_open path (O_WRONLY ||| O_CLOEXEC))).ret value,
            Call.perror "write",
            Call.close (env tr.length (Call.sys_open path (O_WRONLY ||| O_CLOEXEC))).ret])
      else
        (Res.ok (),
          tr ++ [Call.sys_open path (O_WRONLY ||| O_CLOEXEC),
            Call.write (env tr.length (Call.sys_open path (O_WRONLY ||| O_CLOEXEC))).ret value,
            Call.close (env tr.length (Call.sys_open path (O_WRONLY ||| O_CLOEXEC))).ret]) := by
  simp [write_to_file]

/-- C9, at the failing input: `write` transfers 5 of the 12 bytes of `"20000 100000"`,
and `write_to_file` closes the descriptor and returns normally instead of exiting. -/
theorem write_to_file_short_write_returns :
    ("20000 100000".length = 12 ∧
      (env_short_write 1 (Call.write 3 "20000 100000")).ret = 5) ∧
    write_to_file "/sys/fs/cgroup/isolate_group/cpu.max" "20000 100000" env_short_write [] =
      (Res.ok (), [Call.sys_open "/sys/fs/cgroup/isolate_group/cpu.max" (O_WRONLY ||| O_CLOEXEC),
        Call.write 3 "20000 100000", Call.close 3]) := by
  refine ⟨⟨by decide, rfl⟩, ?_⟩
  rw [write_to_file_run]
  rfl


theorem parse_args_run (argc : Int) (argv : List String) (p : Params) (env : Env)
    (tr : List Call) :
    parse_args argc argv p env tr =
      if argc - 1 < 1 then (Res.exit 0, tr ++ [Call.printf "Nothing to do!\n"])
      else (Res.ok { p with argv := argv.tail }, tr) := by
  simp [parse_args]

theorem create_cgroup_directory_run (env : Env) (tr : List Call) :
    create_cgroup_directory env tr =
      if (env tr.length (Call.stat CGROUP_PATH)).ret = -1 then
        if (env (tr.length + 1) (Call.mkdir CGROUP_PATH 0o755)).ret = -1 then
          (Res.exit EXIT_FAILURE,
            tr ++ [Call.stat CGROUP_PATH, Call.mkdir CGROUP_PATH 0o755, Call.perror "mkdir cgroup"])
        else (Res.ok (), tr ++ [Call.stat CGROUP_PATH, Call.mkdir CGROUP_PATH 0o755])
      else (Res.ok (), tr ++ [Call.stat CGROUP_PATH]) := by
  simp [create_cgroup_directory]

theorem write_to_file_ok (path value : String) (env : Env) (tr : List Call)
    (hopen : ∀ k p f, 0 ≤ (env k (Call.sys_open p f)).ret)
    (hwrite : ∀ k fd d, 0 ≤ (env k (Call.write fd d)).ret) :
    write_to_file path value env tr = (Res.ok (),
          tr ++ [Call.sys_open path (O_WRONLY ||| O_CLOEXEC),
            Call.write (env tr.length (Call.sys_open path (O_WRONLY ||| O_CLOEXEC))).ret value,
            Call.close (env tr.length (Call.sys_open path (O_WRONLY ||| O_CLOEXEC))).ret]) := by
  rw [write_to_file_run, if_neg (not_lt.mpr (hopen _ _ _)), if_neg (not_lt.mpr (hwrite _ _ _))]

/-- C2: for every pid, when every `open` and every `write` succeeds and the directory
is there or can be made, `cgroup_init_and_limit(pid)` first checks (and if needed
creates) `/sys/fs/cgroup/isolate_group` and then writes exactly four files, in this
order: `"20000 100000"` to `cpu.max`, `"50M"` to `memory.max`, `"50"` to `pids.max` and
the decimal rendering of `pid` to `cgroup.procs`, the last one exactly once. -/
theorem cgroup_init_and_limit_writes (pid : Int) (env : Env) (tr : List Call)
    (hopen : ∀ k path flags, 0 ≤ (env k (Call.sys_open path flags)).ret)
    (hwrite : ∀ k fd data, 0 ≤ (env k (Call.write fd data)).ret)
    (hdir : (env tr.length (Call.stat CGROUP_PATH)).ret ≠ -1 ∨
      (env (tr.length + 1) (Call.mkdir CGROUP_PATH 0o755)).ret ≠ -1) :
    ∃ dir fd1 fd2 fd3 fd4,
      (dir = [Call.stat "/sys/fs/cgroup/isolate_group"] ∨
        dir = [Call.stat "/sys/fs/cgroup/isolate_group",
               Call.mkdir "/sys/fs/cgroup/isolate_group" 0o755]) ∧
      fd1 = (env (tr ++ dir).length
        (Call.sys_open "/sys/fs/cgroup/isolate_group/cpu.max" (O_WRONLY ||| O_CLOEXEC))).ret ∧
      fd2 = (env ((tr ++ dir).length + 3)
        (Call.sys_open "/sys/fs/cgroup/isolate_group/memory.max" (O_WRONLY ||| O_CLOEXEC))).ret ∧
      fd3 = (env ((tr ++ dir).length + 6)
        (Call.sys_open "/sys/fs/cgroup/isolate_group/pids.max" (O_WRONLY ||| O_CLOEXEC))).ret ∧
      fd4 = (env ((tr ++ dir).length + 9)
        (Call.sys_open "/sys/fs/cgroup/isolate_group/cgroup.procs" (O_WRONLY ||| O_CLOEXEC))).ret ∧
      cgroup_init_and_limit pid env tr = (Res.ok (), tr ++ dir ++
        [Call.sys_open "/sys/fs/cgroup/isolate_group/cpu.max" (O_WRONLY ||| O_CLOEXEC),
         Call.write fd1 "20000 100000", Call.close fd1,
         Call.sys_open "/sys/fs/cgroup/isolate_group/memory.max" (O_WRONLY ||| O_CLOEXEC),
         Call.write fd2 "50M", Call.close fd2,
         Call.sys_open "/sys/fs/cgroup/isolate_group/pids.max" (O_WRONLY ||| O_CLOEXEC),
         Call.write fd3 "50", Call.close fd3,
         Call.sys_open "/sys/fs/cgroup/isolate_group/cgroup.procs" (O_WRONLY ||| O_CLOEXEC),
         Call.write fd4 (fmt_d pid), Call.close fd4]) := by
  have hp : CGROUP_PATH = "/sys/fs/cgroup/isolate_group" := by decide
  have h1 : CGROUP_PATH ++ "/cpu.max" = "/sys/fs/cgroup/isolate_group/cpu.max" := by decide
  have h2 : CGROUP_PATH ++ "/memory.max" = "/sys/fs/cgroup/isolate_group/memory.max" := by decide
  have h3 : CGROUP_PATH ++ "/pids.max" = "/sys/fs/cgroup/isolate_group/pids.max" := by decide
  have h4 : CGROUP_PATH ++ "/cgroup.procs" = "/sys/fs/cgroup/isolate_group/cgroup.procs" := by decide
  rw [hp] at hdir
  by_cases hs : (env tr.length (Call.stat "/sys/fs/cgroup/isolate_group")).ret = -1
  · have hm : (env (tr.length + 1) (Call.mkdir "/sys/fs/cgroup/isolate_group" 0o755)).ret ≠ -1 := by
      rcases hdir with h | h
      · exact absurd hs h
      · exact h
    refine ⟨[Call.stat "/sys/fs/cgroup/isolate_group",
               Call.mkdir "/sys/fs/cgroup/isolate_group" 0o755], _, _, _, _, Or.inr rfl, rfl, rfl, rfl, rfl, ?_⟩
    simp [cgroup_init_and_limit, cgroup_set_cpu_limit, cgroup_set_memory_limit, cgroup_set_pids_limit,
      cgroup_add_process, andThen_def, create_cgroup_directory_run, write_to_file_ok _ _ _ _ hopen hwrite,
      hp, h1, h2, h3, h4, hs, hm]
  · refine ⟨[Call.stat "/sys/fs/cgroup/isolate_group"], _, _, _, _, Or.inl rfl, rfl, rfl, rfl, rfl, ?_⟩
    simp [cgroup_init_and_limit, cgroup_set_cpu_limit, cgroup_set_memory_limit, cgroup_set_pids_limit,
      cgroup_add_process, andThen_def, create_cgroup_directory_run, write_to_file_ok _ _ _ _ hopen hwrite,
      hp, h1, h2, h3, h4, hs]

/-- C2 at a first launch with PID 77: the directory is created, then the four writes. -/
theorem cgroup_init_and_limit_writes_witness :
    ∃ dir fd1 fd2 fd3 fd4,
      (dir = [Call.stat "/sys/fs/cgroup/isolate_group"] ∨
        dir = [Call.stat "/sys/fs/cgroup/isolate_group",
               Call.mkdir "/sys/fs/cgroup/isolate_group" 0o755]) ∧
      fd1 = (env_launch (([] : List Call) ++ dir).length
        (Call.sys_open "/sys/fs/cgroup/isolate_group/cpu.max" (O_WRONLY ||| O_CLOEXEC))).ret ∧
      fd2 = (env_launch ((([] : List Call) ++ dir).length + 3)
        (Call.sys_open "/sys/fs/cgroup/isolate_group/memory.max" (O_WRONLY ||| O_CLOEXEC))).ret ∧
      fd3 = (env_launch ((([] : List Call) ++ dir).length + 6)
        (Call.sys_open "/sys/fs/cgroup/isolate_group/pids.max" (O_WRONLY ||| O_CLOEXEC))).ret ∧
      fd4 = (env_launch ((([] : List Call) ++ dir).length + 9)
        (Call.sys_open "/sys/fs/cgroup/isolate_group/cgroup.procs" (O_WRONLY ||| O_CLOEXEC))).ret ∧
      cgroup_init_and_limit 77 env_launch [] = (Res.ok (), [] ++ dir ++
        [Call.sys_open "/sys/fs/cgroup/isolate_group/cpu.max" (O_WRONLY ||| O_CLOEXEC),
         Call.write fd1 "20000 100000", Call.close fd1,
         Call.sys_open "/sys/fs/cgroup/isolate_group/memory.max" (O_WRONLY ||| O_CLOEXEC),
         Call.write fd2 "50M", Call.close fd2,
         Call.sys_open "/sys/fs/cgroup/isolate_group/pids.max" (O_WRONLY ||| O_CLOEXEC),
         Call.write fd3 "50", Call.close fd3,
         Call.sys_open "/sys/fs/cgroup/isolate_group/cgroup.procs" (O_WRONLY ||| O_CLOEXEC),
         Call.write fd4 (fmt_d 77), Call.close fd4]) :=
  cgroup_init_and_limit_writes 77 env_launch []
    (fun _ _ _ => by show (0 : Int) ≤ 3; decide)
    (fun _ _ data => Int.ofNat_nonneg data.length)
    (Or.inr (by decide))


theorem write_file_run (path line : String) (env : Env) (tr : List Call) :
    write_file path line env tr =
      if (env tr.length (Call.fopen path "w")).ret = 0 then
        (Res.fatal, tr ++ [Call.fopen path "w", Call.die "Failed to open file %s: %m\n"])
      else if (env (tr.length + 2) (Call.fclose (env tr.length (Call.fopen path "w")).ret)).ret ≠ 0 then
        (Res.fatal, tr ++ [Call.fopen path "w",
          Call.fwrite (env tr.length (Call.fopen path "w")).ret line,
          Call.fclose (env tr.length (Call.fopen path "w")).ret,
          Call.die "Failed to close file %s: %m\n"])
      else
        (Res.ok (), tr ++ [Call.fopen path "w",
          Call.fwrite (env tr.length (Call.fopen path "w")).ret line,
          Call.fclose (env tr.length (Call.fopen path "w")).ret]) := by
  simp [write_file]

theorem fmt_uid : "0 " ++ fmt_d 1000 ++ " 1\n" = "0 1000 1\n" := by decide

theorem prepare_userns_cases (pid : Int) (env : Env) (tr : List Call) :
    ∃ f1 f2 f3,
      f1 = (env tr.length (Call.fopen ("/proc/" ++ fmt_d pid ++ "/uid_map") "w")).ret ∧
      f2 = (env (tr.length + 3) (Call.fopen ("/proc/" ++ fmt_d pid ++ "/setgroups") "w")).ret ∧
      f3 = (env (tr.length + 6) (Call.fopen ("/proc/" ++ fmt_d pid ++ "/gid_map") "w")).ret ∧
      (prepare_userns pid env tr = (Res.ok (), tr ++ userns_calls pid f1 f2 f3) ∨
       ∃ n fmt, n ≤ 9 ∧ prepare_userns pid env tr =
          (Res.fatal, tr ++ (userns_calls pid f1 f2 f3).take n ++ [Call.die fmt])) := by
  refine ⟨_, _, _, rfl, rfl, rfl, ?_⟩
  by_cases h1 : (env tr.length (Call.fopen ("/proc/" ++ fmt_d pid ++ "/uid_map") "w")).ret = 0
  · exact Or.inr ⟨1, "Failed to open file %s: %m\n", by decide,
      by simp [prepare_userns, andThen_def, write_file_run, fmt_uid, h1, userns_calls]⟩
  by_cases h2 : (env (tr.length + 2) (Call.fclose
      (env tr.length (Call.fopen ("/proc/" ++ fmt_d pid ++ "/uid_map") "w")).ret)).ret = 0
  swap
  · exact Or.inr ⟨3, "Failed to close file %s: %m\n", by decide,
      by simp [prepare_userns, andThen_def, write_file_run, fmt_uid, h1, h2, userns_calls]⟩
  by_cases h3 : (env (tr.length + 3)
      (Call.fopen ("/proc/" ++ fmt_d pid ++ "/setgroups") "w")).ret = 0
  · exact Or.inr ⟨4, "Failed to open file %s: %m\n", by decide,
      by simp [prepare_userns, andThen_def, write_file_run, fmt_uid, h1, h2, h3, userns_calls]⟩
  by_cases h4 : (env (tr.length + 5) (Call.fclose (env (tr.length + 3)
      (Call.fopen ("/proc/" ++ fmt_d pid ++ "/setgroups") "w")).ret)).ret = 0
  swap
  · exact Or.inr ⟨6, "Failed to close file %s: %m\n", by decide,
      by simp [prepare_userns, andThen_def, write_file_run, fmt_uid, h1, h2, h3, h4, userns_calls]⟩
  by_cases h5 : (env (tr.length + 6)
      (Call.fopen ("/proc/" ++ fmt_d pid ++ "/gid_map") "w")).ret = 0
  · exact Or.inr ⟨7, "Failed to open file %s: %m\n", by decide,
      by simp [prepare_userns, andThen_def, write_file_run, fmt_uid, h1, h2, h3, h4, h5, userns_calls]⟩
  by_cases h6 : (env (tr.length + 8) (Call.fclose (env (tr.length + 6)
      (Call.fopen ("/proc/" ++ fmt_d pid ++ "/gid_map") "w")).ret)).ret = 0
  swap
  · exact Or.inr ⟨9, "Failed to close file %s: %m\n", by decide,
      by simp [prepare_userns, andThen_def, write_file_run, fmt_uid, h1, h2, h3, h4, h5, h6, userns_calls]⟩
  · exact Or.inl (by simp [prepare_userns, andThen_def, write_file_run, fmt_uid, h1, h2, h3, h4, h5, h6, userns_calls])

/-- C3: for every child pid, `prepare_userns(pid)` writes three files under
`/proc/<pid>/` in this order: `uid_map` with the line `0 1000 1`, then `setgroups` with
`deny`, then `gid_map` with the line `0 1000 1`; each stream is closed, hence flushed,
before the next file is opened.  When every `fopen` and `fclose` succeeds the calls are
exactly these nine; in every other run they are an initial part of them, then `die`. -/
theorem prepare_userns_writes (pid : Int) (env : Env) (tr : List Call)
    (hopen : ∀ k path mode, (env k (Call.fopen path mode)).ret ≠ 0)
    (hclose : ∀ k f, (env k (Call.fclose f)).ret = 0) :
    (∃ f1 f2 f3,
      f1 = (env tr.length (Call.fopen ("/proc/" ++ fmt_d pid ++ "/uid_map") "w")).ret ∧
      f2 = (env (tr.length + 3) (Call.fopen ("/proc/" ++ fmt_d pid ++ "/setgroups") "w")).ret ∧
      f3 = (env (tr.length + 6) (Call.fopen ("/proc/" ++ fmt_d pid ++ "/gid_map") "w")).ret ∧
      prepare_userns pid env tr = (Res.ok (), tr ++
        [Call.fopen ("/proc/" ++ fmt_d pid ++ "/uid_map") "w", Call.fwrite f1 "0 1000 1\n",
         Call.fclose f1,
         Call.fopen ("/proc/" ++ fmt_d pid ++ "/setgroups") "w", Call.fwrite f2 "deny",
         Call.fclose f2,
         Call.fopen ("/proc/" ++ fmt_d pid ++ "/gid_map") "w", Call.fwrite f3 "0 1000 1\n",
         Call.fclose f3])) ∧
    (∀ (env1 : Env) (tr1 : List Call), ∃ f1 f2 f3 n rest,
      (prepare_userns pid env1 tr1).2 = tr1 ++ (userns_calls pid f1 f2 f3).take n ++ rest ∧
      (rest = [] ∨ ∃ fmt, rest = [Call.die fmt])) := by
  constructor
  · obtain ⟨f1, f2, f3, h1, h2, h3, h⟩ := prepare_userns_cases pid env tr
    refine ⟨f1, f2, f3, h1, h2, h3, ?_⟩
    rcases h with h | ⟨n, fmt, _, h⟩
    · exact h
    · exfalso
      simp [prepare_userns, andThen_def, write_file_run, hopen, hclose] at h
  · intro env1 tr1
    obtain ⟨f1, f2, f3, _, _, _, h⟩ := prepare_userns_cases pid env1 tr1
    rcases h with h | ⟨n, fmt, _, h⟩
    · exact ⟨f1, f2, f3, 9, [], by rw [h]; simp [userns_calls], Or.inl rfl⟩
    · exact ⟨f1, f2, f3, n, [Call.die fmt], by rw [h], Or.inr ⟨fmt, rfl⟩⟩

/-- C3 at a first launch with PID 77: the nine calls on the three files. -/
theorem prepare_userns_writes_witness :
    prepare_userns 77 env_launch [] = (Res.ok (),
      [Call.fopen "/proc/77/uid_map" "w", Call.fwrite 3 "0 1000 1\n", Call.fclose 3,
       Call.fopen "/proc/77/setgroups" "w", Call.fwrite 3 "deny", Call.fclose 3,
       Call.fopen "/proc/77/gid_map" "w", Call.fwrite 3 "0 1000 1\n", Call.fclose 3]) := by
  obtain ⟨f1, f2, f3, h1, h2, h3, h⟩ := (prepare_userns_writes 77 env_launch []
    (fun _ _ _ => by show (3 : Int) ≠ 0; decide) (fun _ _ => rfl)).1
  rw [h, h1, h2, h3]
  decide

/-! ## `check_response` -/

theorem NLMSG_LENGTH_zero : NLMSG_LENGTH 0 = 16 := by decide

/-- The outcomes of `check_response`, by the reply `r` to its `recvmsg`. -/
theorem check_response_run (sock_fd : Int) (env : Env) (tr : List Call) (r : Reply)
    (hr : r = env tr.length (Call.recvmsg sock_fd MAX_PAYLOAD)) :
    check_response sock_fd env tr =
      if r.ret = 0 then
        (Res.fatal, tr ++ [Call.recvmsg sock_fd MAX_PAYLOAD, Call.die "EOF on netlink\n"])
      else if r.ret < 0 then
        (Res.fatal, tr ++ [Call.recvmsg sock_fd MAX_PAYLOAD,
          Call.die "netlink receive error: %m\n"])
      else if to_int (to_u32 (to_int (get_u32 (resp_mem r) 0) - 16)) < 0
          ∨ to_int (get_u32 (resp_mem r) 0) > r.ret then
        if r.msg_flags &&& MSG_TRUNC ≠ 0 then
          (Res.fatal, tr ++ [Call.recvmsg sock_fd MAX_PAYLOAD,
            Call.die "received truncated message\n"])
        else
          (Res.fatal, tr ++ [Call.recvmsg sock_fd MAX_PAYLOAD,
            Call.die "malformed message: nlmsg_len=%d\n"])
      else if get_u16 (resp_mem r) 4 = NLMSG_ERROR then
        if to_int (to_u32 (to_int (get_u32 (resp_mem r) 0) - 16)) < 20 then
          if to_int (get_u32 (resp_mem r) 16) ≠ 0 then
            (Res.fatal, tr ++ [Call.recvmsg sock_fd MAX_PAYLOAD,
              Call.fprintf_stderr "ERROR truncated!\n",
              Call.set_errno (to_int (to_u32 (-to_int (get_u32 (resp_mem r) 16)))),
              Call.die "RTNETLINK: %m\n"])
          else
            (Res.ok (), tr ++ [Call.recvmsg sock_fd MAX_PAYLOAD,
              Call.fprintf_stderr "ERROR truncated!\n"])
        else
          if to_int (get_u32 (resp_mem r) 16) ≠ 0 then
            (Res.fatal, tr ++ [Call.recvmsg sock_fd MAX_PAYLOAD,
              Call.set_errno (to_int (to_u32 (-to_int (get_u32 (resp_mem r) 16)))),
              Call.die "RTNETLINK: %m\n"])
          else
            (Res.ok (), tr ++ [Call.recvmsg sock_fd MAX_PAYLOAD])
      else (Res.ok (), tr ++ [Call.recvmsg sock_fd MAX_PAYLOAD]) := by
  subst hr
  simp only [check_response, read_response, die_bind, exit_bind, ret_bind, ite_bind,
    bind_assoc, NLMSG_LENGTH_zero, sizeof_nlmsghdr, sizeof_nlmsgerr]
  simp

theorem get_u32_lt (m : Mem) (off : Nat) : get_u32 m off < 4294967296 := by
  unfold get_u32
  omega

theorem to_int_small (nl : Nat) (h : nl < 2147483648) : to_int nl = nl := by
  unfold to_int
  split <;> omega

theorem datalen_cast (nl : Nat) (h : nl < 2147483648) :
    to_int (to_u32 ((nl : Int) - 16)) = (nl : Int) - 16 := by
  unfold to_int to_u32
  split <;> omega

theorem neg_wrap (e : Int) (h1 : -2147483648 < e) (h2 : e < 2147483648) :
    to_int (to_u32 (-e)) = -e := by
  unfold to_int to_u32
  split <;> omega

theorem to_int_range (v : Nat) : -2147483648 ≤ to_int v ∧ to_int v < 2147483648 := by
  unfold to_int
  split <;> omega

/-- C6, the claim as stated fails: this reply carries `MSG_TRUNC`, yet its first message
lies within the received bytes, the flag is not looked at, and `check_response` returns
normally. -/
theorem check_response_trunc_flag_ignored :
    ((env_trunc_ack 0 (Call.recvmsg 5 MAX_PAYLOAD)).msg_flags &&& MSG_TRUNC ≠ 0) ∧
    check_response 5 env_trunc_ack [] = (Res.ok (), [Call.recvmsg 5 MAX_PAYLOAD]) := by
  constructor
  · decide
  · rw [check_response_run 5 env_trunc_ack [] _ rfl]
    decide

/-- C6, amended: for a received reply whose `nlmsg_len` fits an `int`, `check_response`
aborts with the truncated-message diagnostic exactly when the receive flags carry
`MSG_TRUNC` and `nlmsg_len` is smaller than the 16-byte header or greater than the
received length. -/
theorem check_response_truncated (sock_fd : Int) (env : Env) (tr : List Call) (r : Reply)
    (hr : r = env tr.length (Call.recvmsg sock_fd MAX_PAYLOAD))
    (hlen : 0 < r.ret) (hint : get_u32 (resp_mem r) 0 < 2147483648) :
    check_response sock_fd env tr =
        (Res.fatal, tr ++ [Call.recvmsg sock_fd MAX_PAYLOAD,
          Call.die "received truncated message\n"]) ↔
      (r.msg_flags &&& MSG_TRUNC ≠ 0 ∧
        (get_u32 (resp_mem r) 0 < 16 ∨ r.ret < get_u32 (resp_mem r) 0)) := by
  rw [check_response_run sock_fd env tr r hr]
  simp only [to_int_small _ hint, datalen_cast _ hint]
  have h0 : ¬ r.ret = 0 := by omega
  have h1 : ¬ r.ret < 0 := by omega
  simp only [h0, h1, if_false, gt_iff_lt]
  split_ifs <;> simp_all

/-- C6, amended, at a reply with `MSG_TRUNC` that announces 2000 bytes of which 1024
arrived: the truncated-message diagnostic. -/
theorem check_response_truncated_witness :
    check_response 5 env_truncated [] =
      (Res.fatal, [] ++ [Call.recvmsg 5 MAX_PAYLOAD, Call.die "received truncated message\n"]) :=
  (check_response_truncated 5 env_truncated [] _ rfl (by decide) (by decide)).mpr
    ⟨by decide, Or.inr (by decide)⟩

/-- For a received reply whose `nlmsg_len` fits an `int` and is smaller than the header
or greater than the received length, `check_response` aborts with one of the two
diagnostics. -/
theorem check_response_malformed (sock_fd : Int) (env : Env) (tr : List Call) (r : Reply)
    (hr : r = env tr.length (Call.recvmsg sock_fd MAX_PAYLOAD))
    (hlen : 0 < r.ret) (hint : get_u32 (resp_mem r) 0 < 2147483648)
    (hbad : get_u32 (resp_mem r) 0 < 16 ∨ r.ret < get_u32 (resp_mem r) 0) :
    check_response sock_fd env tr =
        (Res.fatal, tr ++ [Call.recvmsg sock_fd MAX_PAYLOAD,
          Call.die "received truncated message\n"]) ∨
      check_response sock_fd env tr =
        (Res.fatal, tr ++ [Call.recvmsg sock_fd MAX_PAYLOAD,
          Call.die "malformed message: nlmsg_len=%d\n"]) := by
  rw [check_response_run sock_fd env tr r hr]
  simp only [to_int_small _ hint, datalen_cast _ hint]
  have h0 : ¬ r.ret = 0 := by omega
  have h1 : ¬ r.ret < 0 := by omega
  have h2 : (get_u32 (resp_mem r) 0 : Int) - 16 < 0 ∨ (get_u32 (resp_mem r) 0 : Int) > r.ret := by
    omega
  simp only [h0, h1, h2, if_false, if_true]
  split_ifs <;> simp

/-- C7, at the failing input: 16 bytes are received and the header says
`nlmsg_len = 0x80000000`, far beyond them; as an `int` this is negative and the
difference with the header size wraps to a positive `datalen`, so neither test fires and
`check_response` returns normally. -/
theorem check_response_huge_len_accepted :
    get_u32 (resp_mem (env_huge_len 0 (Call.recvmsg 5 MAX_PAYLOAD))) 0 = 2147483648 ∧
    (env_huge_len 0 (Call.recvmsg 5 MAX_PAYLOAD)).ret = 16 ∧
    check_response 5 env_huge_len [] = (Res.ok (), [Call.recvmsg 5 MAX_PAYLOAD]) := by
  refine ⟨by decide, rfl, ?_⟩
  rw [check_response_run 5 env_huge_len [] _ rfl]
  decide

/-- C8, the claim as stated fails: for the well-formed error reply with code `+5` the
value stored in `errno` is `-5`, not the absolute value `5`. -/
theorem check_response_errno_positive_code :
    to_int (get_u32 (resp_mem (env_positive_error 0 (Call.recvmsg 5 MAX_PAYLOAD))) 16) = 5 ∧
    check_response 5 env_positive_error [] =
      (Res.fatal, [Call.recvmsg 5 MAX_PAYLOAD, Call.set_errno (-5),
        Call.die "RTNETLINK: %m\n"]) ∧
    (-5 : Int) ≠ ((5 : Int).natAbs : Int) := by
  refine ⟨by decide, ?_, by decide⟩
  rw [check_response_run 5 env_positive_error [] _ rfl]
  decide

/-- C8, amended: for every well-formed reply (`16 ≤ nlmsg_len ≤ resp_len ≤ MAX_PAYLOAD`),
`check_response` aborts if and only if the type is `NLMSG_ERROR` and the error code is
non-zero; when it aborts, `errno` has been set to the negation of the error code (its
absolute value when the code is negative) before the `RTNETLINK` diagnostic; otherwise it
returns normally.  In both cases a short error message is reported on `stderr` first. -/
theorem check_response_ack (sock_fd : Int) (env : Env) (tr : List Call) (r : Reply)
    (hr : r = env tr.length (Call.recvmsg sock_fd MAX_PAYLOAD))
    (h16 : 16 ≤ get_u32 (resp_mem r) 0) (hle : (get_u32 (resp_mem r) 0 : Int) ≤ r.ret)
    (hmax : r.ret ≤ MAX_PAYLOAD) :
    ∃ pre, (pre = [] ∨ pre = [Call.fprintf_stderr "ERROR truncated!\n"]) ∧
      ((get_u16 (resp_mem r) 4 = NLMSG_ERROR ∧ to_int (get_u32 (resp_mem r) 16) ≠ 0) →
        ∃ errno, check_response sock_fd env tr =
          (Res.fatal, tr ++ [Call.recvmsg sock_fd MAX_PAYLOAD] ++ pre ++
            [Call.set_errno errno, Call.die "RTNETLINK: %m\n"]) ∧
          (-2147483648 < to_int (get_u32 (resp_mem r) 16) →
            errno = -to_int (get_u32 (resp_mem r) 16)) ∧
          (-2147483648 < to_int (get_u32 (resp_mem r) 16) →
            to_int (get_u32 (resp_mem r) 16) < 0 →
            errno = (to_int (get_u32 (resp_mem r) 16)).natAbs)) ∧
      (¬ (get_u16 (resp_mem r) 4 = NLMSG_ERROR ∧ to_int (get_u32 (resp_mem r) 16) ≠ 0) →
        check_response sock_fd env tr =
          (Res.ok (), tr ++ [Call.recvmsg sock_fd MAX_PAYLOAD] ++ pre)) := by
  have hM : MAX_PAYLOAD = 1024 := rfl
  have hint : get_u32 (resp_mem r) 0 < 2147483648 := by
    rw [hM] at hmax
    omega
  have herr := to_int_range (get_u32 (resp_mem r) 16)
  rw [check_response_run sock_fd env tr r hr]
  simp only [to_int_small _ hint, datalen_cast _ hint]
  have h0 : ¬ r.ret = 0 := by omega
  have h1 : ¬ r.ret < 0 := by omega
  have h2 : ¬ ((get_u32 (resp_mem r) 0 : Int) - 16 < 0 ∨ (get_u32 (resp_mem r) 0 : Int) > r.ret) := by
    omega
  simp only [h0, h1, h2, if_false]
  by_cases ht : get_u16 (resp_mem r) 4 = NLMSG_ERROR
  · by_cases hs : (get_u32 (resp_mem r) 0 : Int) - 16 < 20
    · refine ⟨[Call.fprintf_stderr "ERROR truncated!\n"], Or.inr rfl, ?_, ?_⟩
      · rintro ⟨_, he⟩
        refine ⟨to_int (to_u32 (-to_int (get_u32 (resp_mem r) 16))), ?_, ?_, ?_⟩
        · simp [ht, hs, he]
        · intro hmin
          exact neg_wrap _ hmin herr.2
        · intro hmin hneg
          rw [neg_wrap _ hmin herr.2]
          omega
      · intro hn
        have he : to_int (get_u32 (resp_mem r) 16) = 0 := by
          by_contra hc
          exact hn ⟨ht, hc⟩
        simp [ht, hs, he]
    · refine ⟨[], Or.inl rfl, ?_, ?_⟩
      · rintro ⟨_, he⟩
        refine ⟨to_int (to_u32 (-to_int (get_u32 (resp_mem r) 16))), ?_, ?_, ?_⟩
        · simp [ht, hs, he]
        · intro hmin
          exact neg_wrap _ hmin herr.2
        · intro hmin hneg
          rw [neg_wrap _ hmin herr.2]
          omega
      · intro hn
        have he : to_int (get_u32 (resp_mem r) 16) = 0 := by
          by_contra hc
          exact hn ⟨ht, hc⟩
        simp [ht, hs, he]
  · refine ⟨[], Or.inl rfl, ?_, ?_⟩
    · rintro ⟨h, _⟩
      exact absurd h ht
    · intro _
      simp [ht]

/-- C8, amended, at the acknowledgment carrying `-EEXIST`: `errno` is set to 17 and the
`RTNETLINK` diagnostic follows. -/
theorem check_response_ack_witness :
    ∃ errno, check_response 5 env_eexist [] =
        (Res.fatal, [Call.recvmsg 5 MAX_PAYLOAD, Call.set_errno errno,
          Call.die "RTNETLINK: %m\n"]) ∧ errno = 17 := by
  obtain ⟨pre, hpre, habort, _⟩ :=
    check_response_ack 5 env_eexist [] _ rfl (by decide) (by decide) (by decide)
  obtain ⟨errno, hrun, herrno, _⟩ := habort ⟨by decide, by decide⟩
  have hval : errno = 17 := by
    rw [herrno (by decide)]
    decide
  refine ⟨errno, ?_, hval⟩
  rcases hpre with h | h
  · rw [hrun, h]
    rfl
  · exfalso
    rw [h, hval, check_response_run 5 env_eexist [] _ rfl] at hrun
    revert hrun
    decide

/-! ## Memory and the construction of a request -/


/-! ## Memory -/

theorem poke_length_eq (m : Mem) (off : Nat) (d : List Nat) (a : Nat)
    (h : a < off ∨ off + d.length ≤ a) : poke m off d a = m a := by
  unfold poke
  rw [if_neg]
  omega

theorem poke_at (m : Mem) (off : Nat) (d : List Nat) (i : Nat) (h : i < d.length) :
    poke m off d (off + i) = d.getD i 0 := by
  unfold poke
  rw [if_pos (by omega)]
  congr 1
  omega

theorem peek_length (m : Mem) (off len : Nat) : (peek m off len).length = len := by
  simp [peek]

theorem peek_append (m : Mem) (off a b : Nat) :
    peek m off (a + b) = peek m off a ++ peek m (off + a) b := by
  simp only [peek, List.range_add, List.map_append, List.map_map]
  congr 1
  apply List.map_congr_left
  intro i _
  simp [Nat.add_assoc]

theorem peek_congr (m m1 : Mem) (off len : Nat)
    (h : ∀ a, off ≤ a → a < off + len → m a = m1 a) : peek m off len = peek m1 off len := by
  simp only [peek]
  apply List.map_congr_left
  intro i hi
  exact h _ (by omega) (by have := List.mem_range.mp hi; omega)

theorem peek_poke_disjoint (m : Mem) (off : Nat) (d : List Nat) (o len : Nat)
    (h : o + len ≤ off ∨ off + d.length ≤ o) :
    peek (poke m off d) o len = peek m o len := by
  apply peek_congr
  intro a h1 h2
  exact poke_length_eq m off d a (by omega)

theorem peek_poke_same (m : Mem) (off : Nat) (d : List Nat) :
    peek (poke m off d) off d.length = d := by
  apply List.ext_getElem
  · simp [peek]
  · intro i h1 h2
    simp only [peek, List.getElem_map, List.getElem_range]
    rw [poke_at m off d i h2]
    simp [List.getD_eq_getElem?_getD, h2]

theorem peek_zero (m : Mem) (off len : Nat) (h : ∀ a, off ≤ a → m a = 0) :
    peek m off len = List.replicate len 0 := by
  apply List.ext_getElem
  · simp [peek]
  · intro i h1 h2
    simp only [peek, List.getElem_map, List.getElem_range, List.getElem_replicate]
    exact h _ (by omega)

theorem get_u32_poke_same (m : Mem) (v : Nat) (h : v < 4294967296) :
    get_u32 (put_u32 m 0 v) 0 = v := by
  simp only [get_u32, put_u32, poke, le32, List.length_cons, List.length_nil]
  simp
  omega

theorem get_u32_poke_disjoint (m : Mem) (off : Nat) (d : List Nat) (o : Nat)
    (h : o + 4 ≤ off ∨ off + d.length ≤ o) :
    get_u32 (poke m off d) o = get_u32 m o := by
  simp only [get_u32]
  rw [poke_length_eq m off d o (by omega), poke_length_eq m off d (o + 1) (by omega),
    poke_length_eq m off d (o + 2) (by omega), poke_length_eq m off d (o + 3) (by omega)]


theorem poke_nil (m : Mem) (off : Nat) : poke m off [] = m := by
  funext a
  unfold poke
  rw [if_neg]
  simp

theorem rta_length (type : Nat) (p : List Nat) : (rta type p).length = (p.length + 7) / 4 * 4 := by
  simp only [rta, le16, List.length_append, List.length_cons, List.length_nil,
    List.length_replicate]
  omega

theorem le16_length (v : Nat) : (le16 v).length = 2 := rfl

theorem le32_length (v : Nat) : (le32 v).length = 4 := rfl

theorem addattr_l_holds (m : Mem) (body : List Nat) (maxlen : Nat) (type : Nat)
    (data : List Nat) (dl : Nat) (env : Env) (tr : List Call)
    (h : Holds m body) (h4 : body.length % 4 = 0) (hdata : dl ≤ data.length)
    (hdl : dl ≤ 65531) (hfit : 4 + body.length + (dl + 7) / 4 * 4 ≤ maxlen)
    (hmax : maxlen < 4294967296) :
    ∃ m1, addattr_l m (maxlen : Int) type data dl env tr = (Res.ok m1, tr) ∧
      Holds m1 (body ++ rta type (data.take dl)) := by
  obtain ⟨hlen, hbody, hzero⟩ := h
  have htake : (data.take dl).length = dl := by simp [hdata]
  have hal : NLMSG_ALIGN (4 + body.length) = 4 + body.length := by
    unfold NLMSG_ALIGN
    omega
  have hattr : RTA_LENGTH dl % 65536 = 4 + dl := by
    simp only [RTA_LENGTH, RTA_ALIGN, sizeof_rtattr]
    omega
  have hra : RTA_ALIGN (4 + dl) = (dl + 7) / 4 * 4 := by
    unfold RTA_ALIGN
    omega
  have hmaxu : to_u32 (maxlen : Int) = maxlen := by
    unfold to_u32
    omega
  have hdata0 : RTA_DATA (4 + body.length) = 4 + body.length + 4 := by
    simp only [RTA_DATA, RTA_LENGTH, RTA_ALIGN, sizeof_rtattr]
  have hnew : (4 + body.length + (dl + 7) / 4 * 4) % 4294967296
      = 4 + body.length + (dl + 7) / 4 * 4 := by
    omega
  have hgt : ¬ (4 + body.length + (dl + 7) / 4 * 4 > maxlen) := by omega
  refine ⟨put_u32 (poke (put_u16 (put_u16 m (4 + body.length + 2) type) (4 + body.length)
      (4 + dl)) (4 + body.length + 4) (data.take dl)) 0 (4 + body.length + (dl + 7) / 4 * 4),
    ?_, ?_, ?_, ?_⟩
  · simp only [addattr_l, NLMSG_TAIL, hlen, hal, hattr, hra, hmaxu, hdata0, hnew,
      die_bind, ret_bind, ite_bind, bind_assoc]
    simp only [hgt, if_false, run_pure]
    by_cases hz : dl = 0
    · subst hz
      simp only [ne_eq, not_true_eq_false, if_false, List.take_zero, poke_nil]
    · simp only [ne_eq, hz, not_false_eq_true, if_true]
  · rw [nlmsg_len, get_u32_poke_same _ _ (by omega)]
    simp only [List.length_append, rta_length, htake]
    omega
  · have hsplit : (body ++ rta type (data.take dl)).length
        = body.length + (2 + (2 + (dl + ((4 - dl % 4) % 4)))) := by
      simp only [List.length_append, rta, le16_length, htake, List.length_replicate]
      omega
    rw [hsplit, peek_append, peek_append, peek_append, peek_append]
    simp only [put_u32, put_u16]
    congr 1
    · rw [peek_poke_disjoint _ _ _ _ _ (by simp only [le32_length]; omega),
        peek_poke_disjoint _ _ _ _ _ (by omega),
        peek_poke_disjoint _ _ _ _ _ (by simp only [le16_length]; omega),
        peek_poke_disjoint _ _ _ _ _ (by simp only [le16_length]; omega), hbody]
    · simp only [rta, List.append_assoc, htake]
      congr 1
      · rw [peek_poke_disjoint _ _ _ _ _ (by simp only [le32_length]; omega),
          peek_poke_disjoint _ _ _ _ _ (by omega)]
        exact peek_poke_same _ _ (le16 (4 + dl))
      congr 1
      · rw [peek_poke_disjoint _ _ _ _ _ (by simp only [le32_length]; omega),
          peek_poke_disjoint _ _ _ _ _ (by omega),
          peek_poke_disjoint _ _ _ _ _ (by simp only [le16_length]; omega)]
        have := peek_poke_same m (4 + body.length + 2) (le16 type)
        rw [le16_length] at this
        rw [show 4 + body.length + 2 = 4 + (body.length + 2) from by omega] at this
        exact this
      congr 1
      · rw [peek_poke_disjoint _ _ _ _ _ (by simp only [le32_length]; omega)]
        have := peek_poke_same (poke (poke m (4 + body.length + 2) (le16 type))
          (4 + body.length) (le16 (4 + dl))) (4 + body.length + 4) (data.take dl)
        rw [htake] at this
        rw [show 4 + body.length + 4 = 4 + body.length + 2 + 2 from by omega] at this
        exact this
      · apply peek_zero
        intro a ha
        rw [poke_length_eq _ _ _ _ (by simp only [le32_length]; omega),
          poke_length_eq _ _ _ _ (by omega),
          poke_length_eq _ _ _ _ (by simp only [le16_length]; omega),
          poke_length_eq _ _ _ _ (by simp only [le16_length]; omega)]
        exact hzero a (by omega)
  · intro a ha
    simp only [List.length_append, rta_length, htake] at ha
    simp only [put_u32, put_u16]
    rw [poke_length_eq _ _ _ _ (by simp only [le32_length]; omega),
      poke_length_eq _ _ _ _ (by omega),
      poke_length_eq _ _ _ _ (by simp only [le16_length]; omega),
      poke_length_eq _ _ _ _ (by simp only [le16_length]; omega)]
    exact hzero a (by omega)

theorem addattr_nest_holds (m : Mem) (body : List Nat) (maxlen : Nat) (type : Nat)
    (env : Env) (tr : List Call)
    (h : Holds m body) (h4 : body.length % 4 = 0) (hfit : 4 + body.length + 4 ≤ maxlen)
    (hmax : maxlen < 4294967296) :
    ∃ m1, addattr_nest m (maxlen : Int) type env tr = (Res.ok (m1, 4 + body.length), tr) ∧
      Holds m1 (body ++ rta type []) := by
  obtain ⟨m1, h1, h2⟩ := addattr_l_holds m body maxlen type [] 0 env tr h h4 (by simp)
    (by omega) (by omega) hmax
  refine ⟨m1, ?_, by simpa using h2⟩
  have hal : NLMSG_ALIGN (4 + body.length) = 4 + body.length := by
    unfold NLMSG_ALIGN
    omega
  simp only [addattr_nest, run_bind, andThen_def, h1, run_pure, NLMSG_TAIL, h.1, hal]

theorem advance_holds (m : Mem) (body : List Nat) (k : Nat) (h : Holds m body)
    (hfit : 4 + body.length + k < 4294967296) :
    Holds (put_u32 m 0 ((nlmsg_len m + k) % 4294967296)) (body ++ List.replicate k 0) := by
  obtain ⟨hlen, hbody, hzero⟩ := h
  rw [hlen, Nat.mod_eq_of_lt hfit]
  refine ⟨?_, ?_, ?_⟩
  · rw [nlmsg_len, get_u32_poke_same _ _ hfit]
    simp
    omega
  · rw [List.length_append, peek_append, List.length_replicate]
    simp only [put_u32]
    congr 1
    · rw [peek_poke_disjoint _ _ _ _ _ (by simp only [le32_length]; omega), hbody]
    · apply peek_zero
      intro a ha
      rw [poke_length_eq _ _ _ _ (by simp only [le32_length]; omega)]
      exact hzero a ha
  · intro a ha
    simp only [List.length_append, List.length_replicate] at ha
    simp only [put_u32]
    rw [poke_length_eq _ _ _ _ (by simp only [le32_length]; omega)]
    exact hzero a (by omega)

theorem addattr_nest_end_holds (m : Mem) (P R : List Nat) (x y : Nat)
    (h : Holds m (P ++ (x :: y :: R))) (h4 : (P.length + 2 + R.length) % 4 = 0)
    (hfit : 4 + P.length + 2 + R.length < 4294967296) (hR : 2 + R.length < 65536) :
    Holds (addattr_nest_end m (4 + P.length)) (P ++ (le16 (2 + R.length) ++ R)) := by
  obtain ⟨hlen, hbody, hzero⟩ := h
  have hl : (P ++ (x :: y :: R)).length = P.length + (2 + R.length) := by
    simp
    omega
  rw [hl] at hlen hzero hbody
  have hal : NLMSG_ALIGN (4 + (P.length + (2 + R.length))) = 4 + (P.length + (2 + R.length)) := by
    unfold NLMSG_ALIGN
    omega
  have hval : to_u32 (((4 + (P.length + (2 + R.length)) : Nat) : Int) - ((4 + P.length : Nat) : Int))
      % 65536 = 2 + R.length := by
    unfold to_u32
    omega
  have hm : addattr_nest_end m (4 + P.length) = poke m (4 + P.length) (le16 (2 + R.length)) := by
    simp only [addattr_nest_end, NLMSG_TAIL, hlen, hal, hval, put_u16]
  rw [hm]
  rw [peek_append, peek_append] at hbody
  have hb1 := (List.append_inj hbody (by simp [peek_length])).1
  have hb2 := (List.append_inj hbody (by simp [peek_length])).2
  have hb3 : peek m (4 + P.length + 2) R.length = R := by
    have h5 : peek m (4 + P.length) 2 ++ peek m (4 + P.length + 2) R.length = [x, y] ++ R := by
      simpa using hb2
    exact (List.append_inj h5 (by simp [peek_length])).2
  have hl2 : (P ++ (le16 (2 + R.length) ++ R)).length = P.length + (2 + R.length) := by
    simp [le16_length]
  refine ⟨?_, ?_, ?_⟩
  · rw [nlmsg_len, get_u32_poke_disjoint _ _ _ _ (by simp only [le16_length]; omega), hl2]
    exact hlen
  · rw [hl2, peek_append, peek_append]
    congr 1
    · rw [peek_poke_disjoint _ _ _ _ _ (by omega), hb1]
    congr 1
    · exact peek_poke_same m (4 + P.length) (le16 (2 + R.length))
    · rw [peek_poke_disjoint _ _ _ _ _ (by simp only [le16_length]; omega), hb3]
  · intro a ha
    rw [hl2] at ha
    rw [poke_length_eq _ _ _ _ (by simp only [le16_length]; omega)]
    exact hzero a ha

theorem nl_req_init_holds (flags type family : Nat) :
    Holds (nl_req_init 32 flags type family)
      (request_header type flags family) := by
  unfold request_header
  refine ⟨?_, ?_, ?_⟩
  · simp [nlmsg_len, nl_req_init, get_u32, put_u32, put_u16, poke, le32, le16]
  · apply List.ext_getElem
    · simp [peek_length, le16_length]
    · intro i h1 h2
      simp only [peek_length] at h1
      simp only [List.length_append, le16_length, List.length_replicate, List.length_cons,
        List.length_nil] at h1
      interval_cases i <;>
        simp [peek, nl_req_init, put_u32, put_u16, poke, le32, le16]
  · intro a ha
    simp only [List.length_append, le16_length, List.length_replicate, List.length_cons,
        List.length_nil] at ha
    simp only [nl_req_init, put_u32, put_u16]
    rw [poke_length_eq _ _ _ _ (by simp; omega),
      poke_length_eq _ _ _ _ (by simp only [le16_length]; omega),
      poke_length_eq _ _ _ _ (by simp only [le16_length]; omega),
      poke_length_eq _ _ _ _ (by simp only [le32_length]; omega)]


theorem rta_nest (type : Nat) (X : List Nat) (h : X.length % 4 = 0) :
    rta type X = le16 (4 + X.length) ++ le16 type ++ X := by
  simp [rta, h]

theorem rta_length_mod (type : Nat) (p : List Nat) : (rta type p).length % 4 = 0 := by
  rw [rta_length]
  omega

theorem rta_empty (type : Nat) : rta type [] = [4, 0] ++ le16 type := by
  simp [rta, le16]

theorem sizeof_nl_req_val : sizeof_nl_req = 1056 := by decide

theorem request_header_length (t f g : Nat) : (request_header t f g).length = 28 := by
  simp [request_header, le16_length]

theorem create_veth_req_holds (a b : List Nat) (ha : a.length ≤ 15) (hb : b.length ≤ 15)
    (env : Env) (tr : List Call) :
    ∃ m, create_veth_req a b env tr = (Res.ok m, tr) ∧
      Holds m (request_header RTM_NEWLINK
        (NLM_F_REQUEST ||| NLM_F_CREATE ||| NLM_F_EXCL ||| NLM_F_ACK) PF_NETLINK ++
        veth_request_attrs a b) := by
  have hN : NLMSG_LENGTH sizeof_ifinfomsg = 32 := by decide
  have hS := sizeof_nl_req_val
  have hI : sizeof_ifinfomsg = 16 := rfl
  have hla : (strlen a + 1) % 65536 = a.length + 1 := by
    unfold strlen
    omega
  have hlb : (strlen b + 1) % 65536 = b.length + 1 := by
    unfold strlen
    omega
  have hta : (a ++ [0]).take (a.length + 1) = a ++ [0] := by simp
  have htb : (b ++ [0]).take (b.length + 1) = b ++ [0] := by simp
  have htv : (cstr "veth" ++ [0]).take 5 = cstr "veth" ++ [0] := by decide
  have hH := request_header_length RTM_NEWLINK
    (NLM_F_REQUEST ||| NLM_F_CREATE ||| NLM_F_EXCL ||| NLM_F_ACK) PF_NETLINK
  have h0 := nl_req_init_holds (NLM_F_REQUEST ||| NLM_F_CREATE ||| NLM_F_EXCL ||| NLM_F_ACK)
    RTM_NEWLINK PF_NETLINK
  generalize request_header RTM_NEWLINK
    (NLM_F_REQUEST ||| NLM_F_CREATE ||| NLM_F_EXCL ||| NLM_F_ACK) PF_NETLINK = H at h0 hH ⊢
  obtain ⟨m1, e1, h1⟩ := addattr_l_holds _ H sizeof_nl_req IFLA_IFNAME (a ++ [0])
    (a.length + 1) env tr h0 (by omega) (by simp) (by omega) (by rw [hS]; omega) (by rw [hS]; omega)
  rw [hta] at h1
  have l1 : (H ++ rta IFLA_IFNAME (a ++ [0])).length = 28 + (a.length + 8) / 4 * 4 := by
    simp [rta_length, hH]
  obtain ⟨m2, e2, h2⟩ := addattr_nest_holds m1 _ sizeof_nl_req IFLA_LINKINFO env tr h1
    (by omega) (by rw [hS]; omega) (by rw [hS]; omega)
  have l2 : (H ++ rta IFLA_IFNAME (a ++ [0]) ++ rta IFLA_LINKINFO []).length
      = 32 + (a.length + 8) / 4 * 4 := by
    rw [List.length_append, l1, rta_length]
    simp
    omega
  obtain ⟨m3, e3, h3⟩ := addattr_l_holds m2 _ sizeof_nl_req IFLA_INFO_KIND (cstr "veth" ++ [0])
    5 env tr h2 (by omega) (by decide) (by omega) (by rw [hS]; omega) (by rw [hS]; omega)
  rw [htv] at h3
  have l3 : (H ++ rta IFLA_IFNAME (a ++ [0]) ++ rta IFLA_LINKINFO [] ++
      rta IFLA_INFO_KIND (cstr "veth" ++ [0])).length = 44 + (a.length + 8) / 4 * 4 := by
    rw [List.length_append, l2, rta_length]
    simp [cstr]
    omega
  obtain ⟨m4, e4, h4⟩ := addattr_nest_holds m3 _ sizeof_nl_req IFLA_INFO_DATA env tr h3
    (by omega) (by rw [hS]; omega) (by rw [hS]; omega)
  have l4 : (H ++ rta IFLA_IFNAME (a ++ [0]) ++ rta IFLA_LINKINFO [] ++
      rta IFLA_INFO_KIND (cstr "veth" ++ [0]) ++ rta IFLA_INFO_DATA []).length
      = 48 + (a.length + 8) / 4 * 4 := by
    rw [List.length_append, l3, rta_length]
    simp
    omega
  obtain ⟨m5, e5, h5⟩ := addattr_nest_holds m4 _ sizeof_nl_req VETH_INFO_PEER env tr h4
    (by omega) (by rw [hS]; omega) (by rw [hS]; omega)
  have l5 : (H ++ rta IFLA_IFNAME (a ++ [0]) ++ rta IFLA_LINKINFO [] ++
      rta IFLA_INFO_KIND (cstr "veth" ++ [0]) ++ rta IFLA_INFO_DATA [] ++
      rta VETH_INFO_PEER []).length = 52 + (a.length + 8) / 4 * 4 := by
    rw [List.length_append, l4, rta_length]
    simp
    omega
  have h6 := advance_holds m5 _ 16 h5 (by omega)
  have l6 : (H ++ rta IFLA_IFNAME (a ++ [0]) ++ rta IFLA_LINKINFO [] ++
      rta IFLA_INFO_KIND (cstr "veth" ++ [0]) ++ rta IFLA_INFO_DATA [] ++
      rta VETH_INFO_PEER [] ++ List.replicate 16 0).length = 68 + (a.length + 8) / 4 * 4 := by
    rw [List.length_append, l5]
    simp
    omega
  obtain ⟨m7, e7, h7⟩ := addattr_l_holds _ _ sizeof_nl_req IFLA_IFNAME (b ++ [0])
    (b.length + 1) env tr h6 (by omega) (by simp) (by omega) (by rw [hS]; omega) (by rw [hS]; omega)
  rw [htb] at h7
  have hN2 : NLMSG_LENGTH 16 = 32 := by decide
  -- close the three nests, innermost first
  have c1 := addattr_nest_end_holds m7
    (H ++ rta IFLA_IFNAME (a ++ [0]) ++ rta IFLA_LINKINFO [] ++
      rta IFLA_INFO_KIND (cstr "veth" ++ [0]) ++ rta IFLA_INFO_DATA [])
    (le16 VETH_INFO_PEER ++ (List.replicate 16 0 ++ rta IFLA_IFNAME (b ++ [0]))) 4 0
    (by simpa [rta_empty, List.append_assoc] using h7)
    (by rw [l4]; simp [le16_length, rta_length]; omega)
    (by rw [l4]; simp [le16_length, rta_length]; omega)
    (by simp [le16_length, rta_length]; omega)
  have c2 := addattr_nest_end_holds
    (addattr_nest_end m7 (4 + (H ++ rta IFLA_IFNAME (a ++ [0]) ++ rta IFLA_LINKINFO [] ++
      rta IFLA_INFO_KIND (cstr "veth" ++ [0]) ++ rta IFLA_INFO_DATA []).length))
    (H ++ rta IFLA_IFNAME (a ++ [0]) ++ rta IFLA_LINKINFO [] ++
      rta IFLA_INFO_KIND (cstr "veth" ++ [0]))
    (le16 IFLA_INFO_DATA ++
      (le16 (2 + (le16 VETH_INFO_PEER ++
          (List.replicate 16 0 ++ rta IFLA_IFNAME (b ++ [0]))).length) ++
        (le16 VETH_INFO_PEER ++ (List.replicate 16 0 ++ rta IFLA_IFNAME (b ++ [0]))))) 4 0
    (by simpa [rta_empty, List.append_assoc] using c1)
    (by rw [l3]; simp [le16_length, rta_length]; omega)
    (by rw [l3]; simp [le16_length, rta_length]; omega)
    (by simp [le16_length, rta_length]; omega)
  have c3 := addattr_nest_end_holds
    (addattr_nest_end (addattr_nest_end m7
      (4 + (H ++ rta IFLA_IFNAME (a ++ [0]) ++ rta IFLA_LINKINFO [] ++
        rta IFLA_INFO_KIND (cstr "veth" ++ [0]) ++ rta IFLA_INFO_DATA []).length))
      (4 + (H ++ rta IFLA_IFNAME (a ++ [0]) ++ rta IFLA_LINKINFO [] ++
        rta IFLA_INFO_KIND (cstr "veth" ++ [0])).length))
    (H ++ rta IFLA_IFNAME (a ++ [0]))
    (le16 IFLA_LINKINFO ++ (rta IFLA_INFO_KIND (cstr "veth" ++ [0]) ++
      (le16 (2 + (le16 IFLA_INFO_DATA ++
        (le16 (2 + (le16 VETH_INFO_PEER ++
            (List.replicate 16 0 ++ rta IFLA_IFNAME (b ++ [0]))).length) ++
          (le16 VETH_INFO_PEER ++
            (List.replicate 16 0 ++ rta IFLA_IFNAME (b ++ [0]))))).length) ++
      (le16 IFLA_INFO_DATA ++
        (le16 (2 + (le16 VETH_INFO_PEER ++
            (List.replicate 16 0 ++ rta IFLA_IFNAME (b ++ [0]))).length) ++
          (le16 VETH_INFO_PEER ++
            (List.replicate 16 0 ++ rta IFLA_IFNAME (b ++ [0])))))))) 4 0
    (by simpa [rta_empty, List.append_assoc] using c2)
    (by rw [l1]; simp [le16_length, rta_length, cstr]; omega)
    (by rw [l1]; simp [le16_length, rta_length, cstr]; omega)
    (by simp [le16_length, rta_length, cstr]; omega)
  have k3 : (List.replicate sizeof_ifinfomsg 0 ++ rta IFLA_IFNAME (b ++ [0])).length % 4
      = 0 := by
    simp [hI, rta_length]
    omega
  have k2 : (rta VETH_INFO_PEER
      (List.replicate sizeof_ifinfomsg 0 ++ rta IFLA_IFNAME (b ++ [0]))).length % 4 = 0 :=
    rta_length_mod _ _
  have k1 : (rta IFLA_INFO_KIND (cstr "veth" ++ [0]) ++ rta IFLA_INFO_DATA
      (rta VETH_INFO_PEER (List.replicate sizeof_ifinfomsg 0 ++
        rta IFLA_IFNAME (b ++ [0])))).length % 4 = 0 := by
    rw [List.length_append]
    have := rta_length_mod IFLA_INFO_KIND (cstr "veth" ++ [0])
    have := rta_length_mod IFLA_INFO_DATA (rta VETH_INFO_PEER
      (List.replicate sizeof_ifinfomsg 0 ++ rta IFLA_IFNAME (b ++ [0])))
    omega
  have hfinal : H ++ veth_request_attrs a b = H ++ rta IFLA_IFNAME (a ++ [0]) ++
      (le16 (2 + (le16 IFLA_LINKINFO ++ (rta IFLA_INFO_KIND (cstr "veth" ++ [0]) ++ (le16 (2 + (le16 IFLA_INFO_DATA ++ (le16 (2 + (le16 VETH_INFO_PEER ++ (List.replicate 16 0 ++ rta IFLA_IFNAME (b ++ [0]))).length) ++ (le16 VETH_INFO_PEER ++ (List.replicate 16 0 ++ rta IFLA_IFNAME (b ++ [0]))))).length) ++ (le16 IFLA_INFO_DATA ++ (le16 (2 + (le16 VETH_INFO_PEER ++ (List.replicate 16 0 ++ rta IFLA_IFNAME (b ++ [0]))).length) ++ (le16 VETH_INFO_PEER ++ (List.replicate 16 0 ++ rta IFLA_IFNAME (b ++ [0])))))))).length) ++ (le16 IFLA_LINKINFO ++ (rta IFLA_INFO_KIND (cstr "veth" ++ [0]) ++ (le16 (2 + (le16 IFLA_INFO_DATA ++ (le16 (2 + (le16 VETH_INFO_PEER ++ (List.replicate 16 0 ++ rta IFLA_IFNAME (b ++ [0]))).length) ++ (le16 VETH_INFO_PEER ++ (List.replicate 16 0 ++ rta IFLA_IFNAME (b ++ [0]))))).length) ++ (le16 IFLA_INFO_DATA ++ (le16 (2 + (le16 VETH_INFO_PEER ++ (List.replicate 16 0 ++ rta IFLA_IFNAME (b ++ [0]))).length) ++ (le16 VETH_INFO_PEER ++ (List.replicate 16 0 ++ rta IFLA_IFNAME (b ++ [0]))))))))) := by
    unfold veth_request_attrs
    rw [rta_nest IFLA_LINKINFO _ k1, rta_nest IFLA_INFO_DATA _ k2,
      rta_nest VETH_INFO_PEER _ k3]
    simp only [hI, List.append_assoc, List.length_append, le16_length]
    have e : ∀ x : Nat, 2 + (2 + x) = 4 + x := fun x => by omega
    simp only [e]
  rw [← hfinal] at c3
  refine ⟨_, ?_, c3⟩
  simp only [create_veth_req, hI, hN2, hla, hlb, run_bind, andThen_def, e1, e2, e3, e4, e5,
    e7, run_pure]


theorem holds_byte (m : Mem) (body : List Nat) (h : Holds m body) (i : Nat)
    (hi : i < body.length) : m (4 + i) = body.getD i 0 := by
  have hp := h.2.1
  have : (peek m 4 body.length).getD i 0 = body.getD i 0 := by rw [hp]
  rw [← this]
  simp [peek, List.getD_eq_getElem?_getD, hi]

theorem holds_peek_mid (m : Mem) (P Q R : List Nat) (h : Holds m (P ++ (Q ++ R))) :
    peek m (4 + P.length) Q.length = Q := by
  have hp := h.2.1
  rw [List.length_append, List.length_append, peek_append, peek_append] at hp
  have h2 := (List.append_inj hp (by simp [peek_length])).2
  exact (List.append_inj h2 (by simp [peek_length])).1

theorem get_u16_of_peek (m : Mem) (o v : Nat) (h : peek m o 2 = le16 v) (hv : v < 65536) :
    get_u16 m o = v := by
  simp only [peek, le16, List.range, List.range.loop, List.map] at h
  simp only [List.cons.injEq, and_true, Nat.add_zero] at h
  unfold get_u16
  rw [h.1, h.2]
  omega

theorem holds_get_u16 (m : Mem) (P R : List Nat) (v : Nat) (h : Holds m (P ++ (le16 v ++ R)))
    (hv : v < 65536) : get_u16 m (4 + P.length) = v :=
  get_u16_of_peek m _ v (holds_peek_mid m P (le16 v) R h) hv

/-- The three nests of the veth request end where the message ends. -/
theorem veth_request_nests (m : Mem) (H a b : List Nat) (hH : H.length = 28)
    (hb : b.length ≤ 15)
    (h : Holds m (H ++ veth_request_attrs a b)) :
    nlmsg_len m = 32 + (veth_request_attrs a b).length ∧
    peek m 32 (veth_request_attrs a b).length = veth_request_attrs a b ∧
    get_u16 m (32 + (rta IFLA_IFNAME (a ++ [0])).length) =
      nlmsg_len m - (32 + (rta IFLA_IFNAME (a ++ [0])).length) ∧
    get_u16 m (32 + (rta IFLA_IFNAME (a ++ [0])).length + 16) =
      nlmsg_len m - (32 + (rta IFLA_IFNAME (a ++ [0])).length + 16) ∧
    get_u16 m (32 + (rta IFLA_IFNAME (a ++ [0])).length + 20) =
      nlmsg_len m - (32 + (rta IFLA_IFNAME (a ++ [0])).length + 20) := by
  have hI : sizeof_ifinfomsg = 16 := rfl
  have hlen : nlmsg_len m = 32 + (veth_request_attrs a b).length := by
    rw [h.1, List.length_append, hH]
    omega
  have hpk : peek m 32 (veth_request_attrs a b).length = veth_request_attrs a b := by
    have := holds_peek_mid m H (veth_request_attrs a b) [] (by simpa using h)
    rwa [hH] at this
  refine ⟨hlen, hpk, ?_⟩
  rw [hlen]
  have k3 : (List.replicate sizeof_ifinfomsg 0 ++ rta IFLA_IFNAME (b ++ [0])).length % 4
      = 0 := by
    simp [hI, rta_length]
    omega
  have k2 : (rta VETH_INFO_PEER
      (List.replicate sizeof_ifinfomsg 0 ++ rta IFLA_IFNAME (b ++ [0]))).length % 4 = 0 :=
    rta_length_mod _ _
  have k1 : (rta IFLA_INFO_KIND (cstr "veth" ++ [0]) ++ rta IFLA_INFO_DATA
      (rta VETH_INFO_PEER (List.replicate sizeof_ifinfomsg 0 ++
        rta IFLA_IFNAME (b ++ [0])))).length % 4 = 0 := by
    rw [List.length_append]
    have := rta_length_mod IFLA_INFO_KIND (cstr "veth" ++ [0])
    have := rta_length_mod IFLA_INFO_DATA (rta VETH_INFO_PEER
      (List.replicate sizeof_ifinfomsg 0 ++ rta IFLA_IFNAME (b ++ [0])))
    omega
  unfold veth_request_attrs at h ⊢
  rw [rta_nest IFLA_LINKINFO _ k1, rta_nest IFLA_INFO_DATA _ k2,
    rta_nest VETH_INFO_PEER _ k3] at h ⊢
  have lk : (rta IFLA_INFO_KIND (cstr "veth" ++ [0])).length = 12 := by
    rw [rta_length]
    decide
  have la : (rta IFLA_IFNAME (a ++ [0])).length = (a.length + 8) / 4 * 4 := by
    rw [rta_length]
    simp
  have lb : (rta IFLA_IFNAME (b ++ [0])).length = (b.length + 8) / 4 * 4 := by
    rw [rta_length]
    simp
  refine ⟨?_, ?_, ?_⟩
  · have := holds_get_u16 m (H ++ rta IFLA_IFNAME (a ++ [0])) _ _
      (by simpa only [List.append_assoc] using h)
      (by simp [le16_length, lk, lb, hI]; omega)
    rw [List.length_append, hH] at this
    rw [show 32 + (rta IFLA_IFNAME (a ++ [0])).length
      = 4 + (28 + (rta IFLA_IFNAME (a ++ [0])).length) from by omega, this]
    simp [le16_length, lk, la, lb, hI]
    omega
  · have := holds_get_u16 m (H ++ (rta IFLA_IFNAME (a ++ [0]) ++
        (le16 (4 + (rta IFLA_INFO_KIND (cstr "veth" ++ [0]) ++
          (le16 (4 + (le16 (4 + (List.replicate sizeof_ifinfomsg 0 ++
            rta IFLA_IFNAME (b ++ [0])).length) ++ le16 VETH_INFO_PEER ++
              (List.replicate sizeof_ifinfomsg 0 ++ rta IFLA_IFNAME (b ++ [0]))).length) ++
            le16 IFLA_INFO_DATA ++
            (le16 (4 + (List.replicate sizeof_ifinfomsg 0 ++
              rta IFLA_IFNAME (b ++ [0])).length) ++ le16 VETH_INFO_PEER ++
              (List.replicate sizeof_ifinfomsg 0 ++ rta IFLA_IFNAME (b ++ [0]))))).length) ++
          (le16 IFLA_LINKINFO ++ rta IFLA_INFO_KIND (cstr "veth" ++ [0]))))) _ _
      (by simpa only [List.append_assoc] using h)
      (by simp [le16_length, lk, lb, hI]; omega)
    simp only [List.length_append, hH, le16_length, lk] at this
    rw [show 32 + (rta IFLA_IFNAME (a ++ [0])).length + 16
      = 4 + (28 + ((rta IFLA_IFNAME (a ++ [0])).length + (2 + (2 + 12)))) from by omega, this]
    simp [le16_length, lk, la, lb, hI]
    omega
  · have := holds_get_u16 m (H ++ (rta IFLA_IFNAME (a ++ [0]) ++
        (le16 (4 + (rta IFLA_INFO_KIND (cstr "veth" ++ [0]) ++
          (le16 (4 + (le16 (4 + (List.replicate sizeof_ifinfomsg 0 ++
            rta IFLA_IFNAME (b ++ [0])).length) ++ le16 VETH_INFO_PEER ++
              (List.replicate sizeof_ifinfomsg 0 ++ rta IFLA_IFNAME (b ++ [0]))).length) ++
            le16 IFLA_INFO_DATA ++
            (le16 (4 + (List.replicate sizeof_ifinfomsg 0 ++
              rta IFLA_IFNAME (b ++ [0])).length) ++ le16 VETH_INFO_PEER ++
              (List.replicate sizeof_ifinfomsg 0 ++ rta IFLA_IFNAME (b ++ [0]))))).length) ++
          (le16 IFLA_LINKINFO ++ (rta IFLA_INFO_KIND (cstr "veth" ++ [0]) ++
            (le16 (4 + (le16 (4 + (List.replicate sizeof_ifinfomsg 0 ++
              rta IFLA_IFNAME (b ++ [0])).length) ++ le16 VETH_INFO_PEER ++
                (List.replicate sizeof_ifinfomsg 0 ++ rta IFLA_IFNAME (b ++ [0]))).length) ++
              le16 IFLA_INFO_DATA)))))) _ _
      (by simpa only [List.append_assoc] using h)
      (by simp [le16_length, lb, hI]; omega)
    simp only [List.length_append, hH, le16_length, lk] at this
    rw [show 32 + (rta IFLA_IFNAME (a ++ [0])).length + 20
      = 4 + (28 + ((rta IFLA_IFNAME (a ++ [0])).length + (2 + (2 + (12 + (2 + 2)))))) from by
        omega, this]
    simp [le16_length, lk, la, lb, hI]
    omega

/-! ## The veth creation request -/


/-- C4: for names of at most 15 bytes `create_veth` builds, without aborting, a request
of type `RTM_NEWLINK` with flags `REQUEST|CREATE|EXCL|ACK` whose bytes after the 32-byte
header are exactly the attributes the spec lists (`veth_request_attrs`): `IFLA_IFNAME`
with `name_a` and its NUL, then the `IFLA_LINKINFO` nest with `IFLA_INFO_KIND` `"veth\0"`
and the `IFLA_INFO_DATA` nest, holding the `VETH_INFO_PEER` nest whose payload is a
16-byte zero `ifinfomsg` and `IFLA_IFNAME` with `name_b` and its NUL.  Each of the three
nests has `rta_len` equal to the distance from its header to the end of the message.
For `("veth0", "veth1")` the length is 96 and the nest lengths are 52, 36 and 32. -/
theorem create_veth_request_layout (name_a name_b : List Nat)
    (ha : name_a.length ≤ 15) (hb : name_b.length ≤ 15) (env : Env) (tr : List Call) :
    ∃ m, create_veth_req name_a name_b env tr = (Res.ok m, tr) ∧
      get_u16 m 4 = RTM_NEWLINK ∧
      get_u16 m 6 = NLM_F_REQUEST ||| NLM_F_CREATE ||| NLM_F_EXCL ||| NLM_F_ACK ∧
      nlmsg_len m = 32 + (veth_request_attrs name_a name_b).length ∧
      peek m 32 (nlmsg_len m - 32) = veth_request_attrs name_a name_b ∧
      get_u16 m (32 + (rta IFLA_IFNAME (name_a ++ [0])).length) =
        nlmsg_len m - (32 + (rta IFLA_IFNAME (name_a ++ [0])).length) ∧
      get_u16 m (32 + (rta IFLA_IFNAME (name_a ++ [0])).length + 16) =
        nlmsg_len m - (32 + (rta IFLA_IFNAME (name_a ++ [0])).length + 16) ∧
      get_u16 m (32 + (rta IFLA_IFNAME (name_a ++ [0])).length + 20) =
        nlmsg_len m - (32 + (rta IFLA_IFNAME (name_a ++ [0])).length + 20) ∧
      (name_a = cstr "veth0" → name_b = cstr "veth1" →
        nlmsg_len m = 96 ∧ get_u16 m 44 = 52 ∧ get_u16 m 60 = 36 ∧ get_u16 m 64 = 32) := by
  obtain ⟨m, hrun, hold⟩ := create_veth_req_holds name_a name_b ha hb env tr
  have hH := request_header_length RTM_NEWLINK
    (NLM_F_REQUEST ||| NLM_F_CREATE ||| NLM_F_EXCL ||| NLM_F_ACK) PF_NETLINK
  obtain ⟨hlen, hpk, n1, n2, n3⟩ := veth_request_nests m _ name_a name_b hH hb hold
  have hh : Holds m (([] : List Nat) ++ (le16 RTM_NEWLINK ++ (le16 (NLM_F_REQUEST ||| NLM_F_CREATE
      ||| NLM_F_EXCL ||| NLM_F_ACK) ++ (List.replicate 8 0 ++ ([PF_NETLINK % 256] ++
      (List.replicate 15 0 ++ veth_request_attrs name_a name_b)))))) := by
    simpa only [request_header, List.append_assoc, List.nil_append] using hold
  have t1 := holds_get_u16 m [] _ RTM_NEWLINK hh (by decide)
  have t2 := holds_get_u16 m (le16 RTM_NEWLINK) _ (NLM_F_REQUEST ||| NLM_F_CREATE
      ||| NLM_F_EXCL ||| NLM_F_ACK) (by simpa only [List.nil_append] using hh) (by decide)
  refine ⟨m, hrun, t1, t2, hlen, ?_, n1, n2, n3, ?_⟩
  · rw [hlen]
    simpa using hpk
  · intro h1 h2
    subst h1 h2
    have e1 : (veth_request_attrs (cstr "veth0") (cstr "veth1")).length = 64 := by decide
    have e2 : (rta IFLA_IFNAME (cstr "veth0" ++ [0])).length = 12 := by decide
    rw [e1] at hlen
    rw [e2, hlen] at n1 n2 n3
    exact ⟨hlen, n1, n2, n3⟩

/-- C4 for the pair `("veth0", "veth1")`: the 64 bytes after the header. -/
theorem create_veth_request_layout_witness :
    ∃ m, create_veth_req (cstr "veth0") (cstr "veth1") env_launch [] = (Res.ok m, []) ∧
      get_u16 m 4 = 16 ∧ get_u16 m 6 = 0x605 ∧ nlmsg_len m = 96 ∧
      peek m 32 64 = [10, 0, 3, 0, 118, 101, 116, 104, 48, 0, 0, 0,
        52, 0, 18, 0,
        9, 0, 1, 0, 118, 101, 116, 104, 0, 0, 0, 0,
        36, 0, 2, 0,
        32, 0, 1, 0,
        0, 0, 0, 0, 0, 0, 0, 0, 0, 0, 0, 0, 0, 0, 0, 0,
        10, 0, 3, 0, 118, 101, 116, 104, 49, 0, 0, 0] := by
  obtain ⟨m, hrun, t1, t2, _, hpk, _, _, _, hc⟩ :=
    create_veth_request_layout (cstr "veth0") (cstr "veth1") (by decide) (by decide)
      env_launch []
  obtain ⟨hlen, _, _, _⟩ := hc rfl rfl
  refine ⟨m, hrun, t1, t2, hlen, ?_⟩
  rw [hlen] at hpk
  rw [show (64 : Nat) = 96 - 32 from rfl, hpk]
  decide

/-! ## The bound check of `addattr_l` -/


theorem nl_req_init_len (flags type family : Nat) :
    nlmsg_len (nl_req_init 32 flags type family) = 32 := by
  have := (nl_req_init_holds flags type family).1
  rw [request_header_length] at this
  exact this

/-- With a payload of 65535 bytes the check of `addattr_l` passes on a 32-byte message. -/
theorem addattr_l_wraps (n : Mem) (type : Nat) (data : List Nat) (env : Env) (tr : List Call)
    (hlen : nlmsg_len n = 32) (hd : data.length = 65535) :
    addattr_l n sizeof_nl_req type data 65535 env tr =
      (Res.ok (put_u32 (poke (put_u16 (put_u16 n 34 type) 32 3) 36 data) 0 36), tr) := by
  have h1 : RTA_LENGTH 65535 % 65536 = 3 := by decide
  have h2 : RTA_ALIGN 3 = 4 := by decide
  have h3 : NLMSG_ALIGN 32 = 32 := by decide
  have h4 : to_u32 (sizeof_nl_req : Int) = 1056 := by decide
  have h5 : RTA_DATA 32 = 36 := by decide
  have ht : data.take 65535 = data := List.take_of_length_le (by omega)
  simp only [addattr_l, NLMSG_TAIL, hlen, h1, h2, h3, h4, h5, ht,
    die_bind, ret_bind, ite_bind, bind_assoc]
  simp

theorem long_name_byte (i : Nat) (h : i < 65534) :
    (List.replicate 65534 65 ++ [0]).getD i 0 = 65 := by
  rw [List.getD_eq_getElem?_getD,
    List.getElem?_append_left (by rw [List.length_replicate]; exact h),
    List.getElem?_replicate, if_pos h]
  rfl

/-- C5, at the failing input: on a fresh 32-byte request with `maxlen = 1056`, a payload
of 65535 bytes (a 65534-byte interface name and its NUL) would end at offset 65571, far
behind `maxlen`; the `__u16 attr_len` wraps to 3, the check passes, `addattr_l` does not
abort, writes the header (`rta_len = 3`) and copies all 65535 payload bytes, among them
the bytes at offsets 1056 and 65569, outside the buffer. -/
theorem addattr_l_overflow_undetected :
    (NLMSG_ALIGN 32 + (4 + 65535) > sizeof_nl_req) ∧
    ∃ m, addattr_l (nl_req_init 32 (NLM_F_REQUEST ||| NLM_F_CREATE ||| NLM_F_EXCL ||| NLM_F_ACK)
        RTM_NEWLINK PF_NETLINK) sizeof_nl_req IFLA_IFNAME
        (List.replicate 65534 65 ++ [0]) 65535 env_launch [] = (Res.ok m, []) ∧
      get_u16 m 32 = 3 ∧ get_u16 m 34 = IFLA_IFNAME ∧ m 36 = 65 ∧ m 1056 = 65 ∧
      m 65569 = 65 ∧ nlmsg_len m = 36 := by
  refine ⟨by decide, ?_⟩
  have hd : (List.replicate 65534 65 ++ [0]).length = 65535 := by
    rw [List.length_append, List.length_replicate]
    rfl
  refine ⟨_, addattr_l_wraps _ _ _ _ _ (nl_req_init_len _ _ _) hd, ?_, ?_, ?_, ?_, ?_, ?_⟩
  · apply get_u16_of_peek _ _ 3 _ (by decide)
    simp only [put_u32]
    rw [peek_poke_disjoint _ _ _ _ _ (by simp only [le32_length]; omega),
      peek_poke_disjoint _ _ _ _ _ (by omega)]
    exact peek_poke_same _ 32 (le16 3)
  · apply get_u16_of_peek _ _ IFLA_IFNAME _ (by decide)
    simp only [put_u32, put_u16]
    rw [peek_poke_disjoint _ _ _ _ _ (by simp only [le32_length]; omega),
      peek_poke_disjoint _ _ _ _ _ (by omega),
      peek_poke_disjoint _ _ _ _ _ (by simp only [le16_length]; omega)]
    exact peek_poke_same _ 34 (le16 IFLA_IFNAME)
  · simp only [put_u32]
    rw [poke_length_eq _ _ _ _ (by simp only [le32_length]; omega)]
    have := poke_at (put_u16 (put_u16 (nl_req_init 32 (NLM_F_REQUEST ||| NLM_F_CREATE |||
      NLM_F_EXCL ||| NLM_F_ACK) RTM_NEWLINK PF_NETLINK) 34 IFLA_IFNAME) 32 3) 36
      (List.replicate 65534 65 ++ [0]) 0 (by omega)
    rw [this, long_name_byte 0 (by omega)]
  · simp only [put_u32]
    rw [poke_length_eq _ _ _ _ (by simp only [le32_length]; omega)]
    have := poke_at (put_u16 (put_u16 (nl_req_init 32 (NLM_F_REQUEST ||| NLM_F_CREATE |||
      NLM_F_EXCL ||| NLM_F_ACK) RTM_NEWLINK PF_NETLINK) 34 IFLA_IFNAME) 32 3) 36
      (List.replicate 65534 65 ++ [0]) 1020 (by omega)
    rw [this, long_name_byte 1020 (by omega)]
  · simp only [put_u32]
    rw [poke_length_eq _ _ _ _ (by simp only [le32_length]; omega)]
    have := poke_at (put_u16 (put_u16 (nl_req_init 32 (NLM_F_REQUEST ||| NLM_F_CREATE |||
      NLM_F_EXCL ||| NLM_F_ACK) RTM_NEWLINK PF_NETLINK) 34 IFLA_IFNAME) 32 3) 36
      (List.replicate 65534 65 ++ [0]) 65533 (by omega)
    rw [this, long_name_byte 65533 (by omega)]
  · exact get_u32_poke_same _ 36 (by omega)

/-- Within the ranges in which no conversion wraps, the check of `addattr_l` is sound:
an attribute that would end behind `maxlen` makes it abort, with nothing written. -/
theorem addattr_l_overflow_dies (n : Mem) (maxlen : Nat) (type : Nat) (data : List Nat)
    (datalen : Nat) (env : Env) (tr : List Call)
    (hlen : nlmsg_len n + 3 + 65540 < 4294967296) (hmax : maxlen < 4294967296)
    (hdl : datalen ≤ 65531)
    (hover : NLMSG_ALIGN (nlmsg_len n) + (4 + datalen) > maxlen) :
    addattr_l n maxlen type data datalen env tr =
      (Res.fatal, tr ++ [Call.die "cannot add attribute. size (%d) exceeded maxlen (%d)\n"]) := by
  have h1 : RTA_LENGTH datalen % 65536 = 4 + datalen := by
    simp only [RTA_LENGTH, RTA_ALIGN, sizeof_rtattr]
    omega
  have h4 : to_u32 (maxlen : Int) = maxlen := by
    unfold to_u32
    omega
  have hgt : (NLMSG_ALIGN (nlmsg_len n) + RTA_ALIGN (4 + datalen)) % 4294967296 > maxlen := by
    unfold NLMSG_ALIGN RTA_ALIGN at *
    omega
  simp only [addattr_l, h1, h4, die_bind, ret_bind, ite_bind, bind_assoc]
  simp [hgt]

/-! ## What a procedure can add to the trace -/

theorem Emits.ret {α : Type} (Q : Call → Prop) (a : α) : Emits Q (pure a : Sys α) :=
  fun _ tr => ⟨[], by simp, by simp⟩

theorem Emits.exit {α : Type} (Q : Call → Prop) (s : Int) : Emits Q (exit s : Sys α) :=
  fun _ tr => ⟨[], by simp, by simp⟩

theorem Emits.sys (Q : Call → Prop) (c : Call) (h : Q c) : Emits Q (sys c) :=
  fun _ tr => ⟨[c], by simp, by simpa using h⟩

theorem Emits.emit (Q : Call → Prop) (c : Call) (h : Q c) : Emits Q (emit c) :=
  fun _ tr => ⟨[c], by simp, by simpa using h⟩

theorem Emits.die {α : Type} (Q : Call → Prop) (m : String) (h : Q (Call.die m)) :
    Emits Q (die m : Sys α) :=
  fun _ tr => ⟨[Call.die m], by simp, by simpa using h⟩

theorem Emits.bind {α β : Type} (Q : Call → Prop) (x : Sys α) (f : α → Sys β)
    (hx : Emits Q x) (hf : ∀ a, Emits Q (f a)) : Emits Q (x >>= f) := by
  intro env tr
  obtain ⟨e1, h1, q1⟩ := hx env tr
  simp only [run_bind, andThen_def]
  rcases hr : x env tr with ⟨r, t⟩
  rw [hr] at h1
  simp only at h1
  subst h1
  cases r with
  | ok a =>
    obtain ⟨e2, h2, q2⟩ := hf a env (tr ++ e1)
    refine ⟨e1 ++ e2, by simpa using h2, ?_⟩
    intro e he
    rcases List.mem_append.mp he with h | h
    · exact q1 e h
    · exact q2 e h
  | exit s => exact ⟨e1, rfl, q1⟩
  | fatal => exact ⟨e1, rfl, q1⟩

theorem Emits.ite {α : Type} (Q : Call → Prop) (c : Prop) [Decidable c] (x y : Sys α)
    (hx : Emits Q x) (hy : Emits Q y) : Emits Q (if c then x else y) := by
  split
  · exact hx
  · exact hy

theorem Emits.mono {α : Type} (P Q : Call → Prop) (x : Sys α) (h : ∀ c, P c → Q c)
    (hx : Emits P x) : Emits Q x := by
  intro env tr
  obtain ⟨e, h1, h2⟩ := hx env tr
  exact ⟨e, h1, fun c hc => h c (h2 c hc)⟩


theorem Emits.extends {α : Type} (Q : Call → Prop) (x : Sys α) (h : Emits Q x) (env : Env)
    (tr tr1 : List Call) (r : Res α) (hr : x env tr = (r, tr1)) :
    ∃ evs, tr1 = tr ++ evs ∧ ∀ e ∈ evs, Q e := by
  obtain ⟨evs, h1, h2⟩ := h env tr
  rw [hr] at h1
  exact ⟨evs, h1, h2⟩

/-! The decimal rendering of a PID is never the readiness token. -/

theorem digitChar_isDigit (d : Nat) (h : d < 10) : (Nat.digitChar d).isDigit = true := by
  interval_cases d <;> decide

theorem toDigitsCore_digits (fuel : Nat) : ∀ (n : Nat) (ds : List Char) (c : Char),
    c ∈ Nat.toDigitsCore 10 fuel n ds → c ∈ ds ∨ c.isDigit = true := by
  induction fuel with
  | zero => intro n ds c h; exact Or.inl h
  | succ f ih =>
    intro n ds c h
    simp only [Nat.toDigitsCore] at h
    split at h
    · rcases List.mem_cons.mp h with h | h
      · exact Or.inr (h ▸ digitChar_isDigit _ (Nat.mod_lt _ (by decide)))
      · exact Or.inl h
    · rcases ih _ _ _ h with h | h
      · rcases List.mem_cons.mp h with h | h
        · exact Or.inr (h ▸ digitChar_isDigit _ (Nat.mod_lt _ (by decide)))
        · exact Or.inl h
      · exact Or.inr h

theorem fmt_d_ne_OK (i : Int) : fmt_d i ≠ "OK" := by
  intro h
  have hd : (fmt_d i).data = ['O', 'K'] := by rw [h]
  unfold fmt_d at hd
  split at hd
  · simp only [String.data_append] at hd
    simp at hd
  · have hm : 'O' ∈ Nat.toDigitsCore 10 (i.natAbs + 1) i.natAbs [] := by
      have : (Nat.repr i.natAbs).data = Nat.toDigits 10 i.natAbs := rfl
      rw [this] at hd
      unfold Nat.toDigits at hd
      rw [hd]
      simp
    rcases toDigitsCore_digits _ _ _ _ hm with h | h
    · simp at h
    · exact absurd h (by decide)

/-! The setup procedures issue setup calls only. -/


theorem setup_not_ready (c : Call) (h : c.is_setup = true) : c.is_ready = false := by
  cases c <;> simp_all [Call.is_setup, Call.is_ready]

theorem write_to_file_emits (path value : String) (hv : value ≠ "OK") :
    Emits (fun c => c.is_setup = true) (write_to_file path value) := by
  simp only [write_to_file, die_bind, exit_bind, ret_bind, ite_bind, bind_assoc]
  repeat' (first
    | with_reducible apply Emits.bind
    | with_reducible apply Emits.ite
    | with_reducible apply Emits.sys
    | with_reducible apply Emits.emit
    | with_reducible apply Emits.die
    | with_reducible apply Emits.ret
    | with_reducible apply Emits.exit
    | rfl
    | (show (Call.write _ value).is_setup = true; simp [Call.is_setup, hv])
    | intro _)

theorem cgroup_init_and_limit_emits (pid : Int) :
    Emits (fun c => c.is_setup = true) (cgroup_init_and_limit pid) := by
  simp only [cgroup_init_and_limit, create_cgroup_directory, cgroup_set_cpu_limit,
    cgroup_set_memory_limit, cgroup_set_pids_limit, cgroup_add_process,
    die_bind, exit_bind, ret_bind, ite_bind, bind_assoc]
  repeat' (first
    | (apply write_to_file_emits; first | decide | exact fmt_d_ne_OK _)
    | with_reducible apply Emits.bind
    | with_reducible apply Emits.ite
    | with_reducible apply Emits.sys
    | with_reducible apply Emits.emit
    | with_reducible apply Emits.die
    | with_reducible apply Emits.ret
    | with_reducible apply Emits.exit
    | rfl
    | intro _)

theorem write_file_emits (path line : String) :
    Emits (fun c => c.is_setup = true) (write_file path line) := by
  simp only [write_file, die_bind, exit_bind, ret_bind, ite_bind, bind_assoc]
  repeat' (first
    | with_reducible apply Emits.bind
    | with_reducible apply Emits.ite
    | with_reducible apply Emits.sys
    | with_reducible apply Emits.emit
    | with_reducible apply Emits.die
    | with_reducible apply Emits.ret
    | with_reducible apply Emits.exit
    | rfl
    | intro _)

theorem prepare_userns_emits (pid : Int) :
    Emits (fun c => c.is_setup = true) (prepare_userns pid) := by
  simp only [prepare_userns, die_bind, exit_bind, ret_bind, ite_bind, bind_assoc]
  repeat' (first
    | with_reducible apply write_file_emits
    | with_reducible apply Emits.bind
    | intro _)

theorem addattr_l_emits (n : Mem) (maxlen : Int) (type : Nat) (data : List Nat) (dl : Nat) :
    Emits (fun c => c.is_setup = true) (addattr_l n maxlen type data dl) := by
  simp only [addattr_l, die_bind, exit_bind, ret_bind, ite_bind, bind_assoc]
  repeat' (first
    | with_reducible apply Emits.bind
    | with_reducible apply Emits.ite
    | with_reducible apply Emits.die
    | with_reducible apply Emits.ret
    | rfl)

theorem addattr_nest_emits (n : Mem) (maxlen : Int) (type : Nat) :
    Emits (fun c => c.is_setup = true) (addattr_nest n maxlen type) := by
  simp only [addattr_nest]
  repeat' (first
    | with_reducible apply addattr_l_emits
    | with_reducible apply Emits.bind
    | with_reducible apply Emits.ret
    | intro _)

theorem check_response_emits (sock_fd : Int) :
    Emits (fun c => c.is_setup = true) (check_response sock_fd) := by
  simp only [check_response, read_response, die_bind, exit_bind, ret_bind, ite_bind, bind_assoc]
  repeat' (first
    | with_reducible apply Emits.bind
    | with_reducible apply Emits.ite
    | with_reducible apply Emits.sys
    | with_reducible apply Emits.emit
    | with_reducible apply Emits.die
    | with_reducible apply Emits.ret
    | with_reducible apply Emits.exit
    | rfl
    | intro _)

theorem send_nlmsg_emits (sock_fd : Int) (n : Mem) :
    Emits (fun c => c.is_setup = true) (send_nlmsg sock_fd n) := by
  simp only [send_nlmsg, die_bind, exit_bind, ret_bind, ite_bind, bind_assoc]
  repeat' (first
    | with_reducible apply check_response_emits
    | with_reducible apply Emits.bind
    | with_reducible apply Emits.ite
    | with_reducible apply Emits.sys
    | with_reducible apply Emits.die
    | rfl
    | intro _)

theorem create_veth_emits (sock_fd : Int) (a b : List Nat) :
    Emits (fun c => c.is_setup = true) (create_veth sock_fd a b) := by
  simp only [create_veth, create_veth_req, die_bind, exit_bind, ret_bind, ite_bind, bind_assoc]
  repeat' (first
    | with_reducible apply addattr_l_emits
    | with_reducible apply addattr_nest_emits
    | with_reducible apply send_nlmsg_emits
    | with_reducible apply Emits.bind
    | with_reducible apply Emits.ret
    | rintro ⟨_, _⟩
    | intro _)

theorem move_if_to_pid_netns_emits (sock_fd : Int) (a : List Nat) (netns : Int) :
    Emits (fun c => c.is_setup = true) (move_if_to_pid_netns sock_fd a netns) := by
  simp only [move_if_to_pid_netns, move_if_to_pid_netns_req, die_bind, exit_bind, ret_bind,
    ite_bind, bind_assoc]
  repeat' (first
    | with_reducible apply addattr_l_emits
    | with_reducible apply send_nlmsg_emits
    | with_reducible apply Emits.bind
    | with_reducible apply Emits.ret
    | intro _)

theorem create_socket_emits (d t p : Nat) :
    Emits (fun c => c.is_setup = true) (create_socket d t p) := by
  simp only [create_socket, die_bind, exit_bind, ret_bind, ite_bind, bind_assoc]
  repeat' (first
    | with_reducible apply Emits.bind
    | with_reducible apply Emits.ite
    | with_reducible apply Emits.sys
    | with_reducible apply Emits.die
    | with_reducible apply Emits.ret
    | rfl
    | intro _)

theorem get_netns_fd_emits (pid : Int) :
    Emits (fun c => c.is_setup = true) (get_netns_fd pid) := by
  simp only [get_netns_fd, die_bind, exit_bind, ret_bind, ite_bind, bind_assoc]
  repeat' (first
    | with_reducible apply Emits.bind
    | with_reducible apply Emits.ite
    | with_reducible apply Emits.sys
    | with_reducible apply Emits.die
    | with_reducible apply Emits.ret
    | rfl
    | intro _)

theorem if_up_emits (ifname : List Nat) (ip netmask : String) :
    Emits (fun c => c.is_setup = true) (if_up ifname ip netmask) := by
  simp only [if_up, die_bind, exit_bind, ret_bind, ite_bind, bind_assoc]
  repeat' (first
    | with_reducible apply create_socket_emits
    | with_reducible apply Emits.bind
    | with_reducible apply Emits.ite
    | with_reducible apply Emits.sys
    | with_reducible apply Emits.die
    | with_reducible apply Emits.ret
    | rfl
    | intro _)

theorem prepare_netns_emits (pid : Int) :
    Emits (fun c => c.is_setup = true) (prepare_netns pid) := by
  simp only [prepare_netns, die_bind, exit_bind, ret_bind, ite_bind, bind_assoc]
  repeat' (first
    | with_reducible apply create_socket_emits
    | with_reducible apply create_veth_emits
    | with_reducible apply move_if_to_pid_netns_emits
    | with_reducible apply if_up_emits
    | with_reducible apply get_netns_fd_emits
    | with_reducible apply Emits.bind
    | with_reducible apply Emits.ite
    | with_reducible apply Emits.sys
    | with_reducible apply Emits.die
    | with_reducible apply Emits.ret
    | rfl
    | intro _)

/-! ## The orchestrator -/

theorem main_run (argc : Int) (argv : List String) (env : Env) (p : Params) (pid : Int)
    (hp : p = { fd0 := (env 0 Call.pipe).buf.getD 0 0, fd1 := (env 0 Call.pipe).buf.getD 1 0,
                argv := argv.tail })
    (hpid : pid = (env 1 (Call.clone clone_flags p)).ret) :
    main argc argv env [] =
      if argc - 1 < 1 then (Res.exit 0, [Call.printf "Nothing to do!\n"])
      else if (env 0 Call.pipe).ret < 0 then
        (Res.fatal, [Call.pipe, Call.die "Failed to create pipe: %m"])
      else if pid < 0 then
        (Res.fatal, [Call.pipe, Call.clone clone_flags p, Call.die "Failed to clone: %m\n"])
      else
        (cgroup_init_and_limit pid >>= fun _ =>
          prepare_userns pid >>= fun _ =>
            prepare_netns pid >>= fun _ => main_release p.fd1 pid)
          env [Call.pipe, Call.clone clone_flags p] := by
  subst hp hpid
  simp only [main, parse_args, main_release, die_bind, exit_bind, ret_bind, ite_bind,
    bind_assoc]
  simp

theorem main_release_run (pipe pid : Int) (env : Env) (t : List Call) :
    ∃ r B, main_release pipe pid env t = (r, t ++ Call.write pipe "OK" :: B) ∧
      ∀ e ∈ B, e.is_ready = false := by
  simp only [main_release, die_bind, exit_bind, ret_bind, ite_bind, bind_assoc]
  simp only [run_bind, andThen_sys, run_ite, run_die, run_pure, List.append_assoc,
    List.singleton_append, List.cons_append, List.nil_append]
  split_ifs
  · exact ⟨_, _, rfl, by simp [Call.is_ready]⟩
  · exact ⟨_, _, rfl, by simp [Call.is_ready]⟩
  · exact ⟨_, _, rfl, by simp [Call.is_ready]⟩
  · exact ⟨_, _, rfl, by simp [Call.is_ready]⟩

theorem ready_index (A B : List Call) (x : Call) (hA : ∀ e ∈ A, e.is_ready = false)
    (hB : ∀ e ∈ B, e.is_ready = false) (k : Nat) (c : Call)
    (h : (A ++ x :: B)[k]? = some c) (hc : c.is_ready = true) : k = A.length := by
  rcases Nat.lt_trichotomy k A.length with hlt | heq | hgt
  · rw [List.getElem?_append_left hlt] at h
    have := hA c (List.getElem?_mem h)
    rw [hc] at this
    cases this
  · exact heq
  · rw [List.getElem?_append_right (by omega)] at h
    obtain ⟨j, hj⟩ : ∃ j, k - A.length = j + 1 := ⟨k - A.length - 1, by omega⟩
    rw [hj, List.getElem?_cons_succ] at h
    have := hB c (List.getElem?_mem h)
    rw [hc] at this
    cases this

theorem no_ready (T : List Call) (hT : ∀ e ∈ T, e.is_ready = false) (k : Nat) (c : Call)
    (h : T[k]? = some c) (hc : c.is_ready = true) : False := by
  have := hT c (List.getElem?_mem h)
  rw [hc] at this
  cases this

/-- The trace of `main` either holds no readiness token, or consists of `pipe`, `clone`,
three completed setup procedures, the token, and calls that are no token. -/
theorem main_trace_cases (argc : Int) (argv : List String) (env : Env) (p : Params) (pid : Int)
    (hp : p = { fd0 := (env 0 Call.pipe).buf.getD 0 0, fd1 := (env 0 Call.pipe).buf.getD 1 0,
                argv := argv.tail })
    (hpid : pid = (env 1 (Call.clone clone_flags p)).ret) :
    (∀ e ∈ (main argc argv env []).2, e.is_ready = false) ∨
    ∃ tc tu tn B,
      (main argc argv env []).2 = ([Call.pipe, Call.clone clone_flags p] ++ tc ++ tu ++ tn) ++
        Call.write p.fd1 "OK" :: B ∧
      (∀ e ∈ [Call.pipe, Call.clone clone_flags p] ++ tc ++ tu ++ tn, e.is_ready = false) ∧
      (∀ e ∈ B, e.is_ready = false) ∧
      cgroup_init_and_limit pid env [Call.pipe, Call.clone clone_flags p] =
        (Res.ok (), [Call.pipe, Call.clone clone_flags p] ++ tc) ∧
      prepare_userns pid env ([Call.pipe, Call.clone clone_flags p] ++ tc) =
        (Res.ok (), [Call.pipe, Call.clone clone_flags p] ++ tc ++ tu) ∧
      prepare_netns pid env ([Call.pipe, Call.clone clone_flags p] ++ tc ++ tu) =
        (Res.ok (), [Call.pipe, Call.clone clone_flags p] ++ tc ++ tu ++ tn) := by
  rw [main_run argc argv env p pid hp hpid]
  have h0 : ∀ e ∈ [Call.pipe, Call.clone clone_flags p], e.is_ready = false := by
    simp [Call.is_ready]
  split_ifs
  · exact Or.inl (by simp [Call.is_ready])
  · exact Or.inl (by simp [Call.is_ready])
  · exact Or.inl (by simp [Call.is_ready])
  simp only [run_bind, andThen_def]
  rcases h1 : cgroup_init_and_limit pid env [Call.pipe, Call.clone clone_flags p] with ⟨r1, t1⟩
  obtain ⟨tc, rfl, q1⟩ := Emits.extends _ _ (cgroup_init_and_limit_emits pid) env _ _ _ h1
  have n1 : ∀ e ∈ [Call.pipe, Call.clone clone_flags p] ++ tc, e.is_ready = false := by
    intro e he
    rcases List.mem_append.mp he with h | h
    · exact h0 e h
    · exact setup_not_ready e (q1 e h)
  cases r1 with
  | exit s => exact Or.inl n1
  | fatal => exact Or.inl n1
  | ok u1 =>
    simp only []
    rcases h2 : prepare_userns pid env ([Call.pipe, Call.clone clone_flags p] ++ tc)
      with ⟨r2, t2⟩
    obtain ⟨tu, rfl, q2⟩ := Emits.extends _ _ (prepare_userns_emits pid) env _ _ _ h2
    have n2 : ∀ e ∈ [Call.pipe, Call.clone clone_flags p] ++ tc ++ tu,
        e.is_ready = false := by
      intro e he
      rcases List.mem_append.mp he with h | h
      · exact n1 e h
      · exact setup_not_ready e (q2 e h)
    cases r2 with
    | exit s => exact Or.inl n2
    | fatal => exact Or.inl n2
    | ok u2 =>
      simp only []
      rcases h3 : prepare_netns pid env ([Call.pipe, Call.clone clone_flags p] ++ tc ++ tu)
        with ⟨r3, t3⟩
      obtain ⟨tn, rfl, q3⟩ := Emits.extends _ _ (prepare_netns_emits pid) env _ _ _ h3
      have n3 : ∀ e ∈ [Call.pipe, Call.clone clone_flags p] ++ tc ++ tu ++ tn,
          e.is_ready = false := by
        intro e he
        rcases List.mem_append.mp he with h | h
        · exact n2 e h
        · exact setup_not_ready e (q3 e h)
      cases r3 with
      | exit s => exact Or.inl n3
      | fatal => exact Or.inl n3
      | ok u3 =>
        simp only []
        obtain ⟨r, B, hB, nB⟩ := main_release_run p.fd1 pid env
          ([Call.pipe, Call.clone clone_flags p] ++ tc ++ tu ++ tn)
        refine Or.inr ⟨tc, tu, tn, B, by rw [hB], n3, nB, rfl, h2, h3⟩


/-- A completed `write_to_file` issued `open`, `write` and `close`, and both `open` and
`write` returned a non-negative value. -/
theorem write_to_file_ok_calls (path value : String) (env : Env) (t t1 : List Call)
    (h : write_to_file path value env t = (Res.ok (), t1)) :
    ∃ fd, t1 = t ++ [Call.sys_open path (O_WRONLY ||| O_CLOEXEC), Call.write fd value,
        Call.close fd] ∧ fd = (env t.length (Call.sys_open path (O_WRONLY ||| O_CLOEXEC))).ret ∧
      0 ≤ fd ∧ 0 ≤ (env (t.length + 1) (Call.write fd value)).ret := by
  rw [write_to_file_run] at h
  split_ifs at h with h1 h2
  · cases h
  · cases h
  · simp only [Prod.mk.injEq, true_and] at h
    exact ⟨_, h.symm, rfl, by omega, by omega⟩

theorem create_cgroup_directory_emits :
    Emits (fun c => c.is_setup = true) create_cgroup_directory := by
  simp only [create_cgroup_directory, die_bind, exit_bind, ret_bind, ite_bind, bind_assoc]
  repeat' (first
    | with_reducible apply Emits.bind
    | with_reducible apply Emits.ite
    | with_reducible apply Emits.sys
    | with_reducible apply Emits.emit
    | with_reducible apply Emits.ret
    | with_reducible apply Emits.exit
    | rfl
    | intro _)

theorem cgroup_ok_calls (pid : Int) (env : Env) (t tc : List Call)
    (h : cgroup_init_and_limit pid env t = (Res.ok (), t ++ tc)) :
    ∃ pre fd, tc = pre ++
      [Call.sys_open "/sys/fs/cgroup/isolate_group/cgroup.procs" (O_WRONLY ||| O_CLOEXEC),
       Call.write fd (fmt_d pid), Call.close fd] := by
  have h4 : CGROUP_PATH ++ "/cgroup.procs" = "/sys/fs/cgroup/isolate_group/cgroup.procs" := by
    decide
  simp only [cgroup_init_and_limit, cgroup_add_process, h4, run_bind] at h
  obtain ⟨_, t1, e1, h⟩ := (andThen_ok_iff _ _ _ _ _ _).mp h
  obtain ⟨_, t2, e2, h⟩ := (andThen_ok_iff _ _ _ _ _ _).mp h
  obtain ⟨_, t3, e3, h⟩ := (andThen_ok_iff _ _ _ _ _ _).mp h
  obtain ⟨_, t4, e4, h⟩ := (andThen_ok_iff _ _ _ _ _ _).mp h
  obtain ⟨fd, hfd, _⟩ := write_to_file_ok_calls _ _ _ _ _ h
  obtain ⟨x1, rfl, _⟩ := Emits.extends _ _ create_cgroup_directory_emits env _ _ _ e1
  obtain ⟨x2, rfl, _⟩ := Emits.extends _ _ (write_to_file_emits _ _ (by decide)) env _ _ _ e2
  obtain ⟨x3, rfl, _⟩ := Emits.extends _ _ (write_to_file_emits _ _ (by decide)) env _ _ _ e3
  obtain ⟨x4, rfl, _⟩ := Emits.extends _ _ (write_to_file_emits _ _ (by decide)) env _ _ _ e4
  refine ⟨x1 ++ x2 ++ x3 ++ x4, fd, ?_⟩
  simp only [List.append_assoc] at hfd ⊢
  exact List.append_cancel_left hfd

theorem userns_ok_calls (pid : Int) (env : Env) (t tu : List Call)
    (h : prepare_userns pid env t = (Res.ok (), t ++ tu)) :
    ∃ f1 f2 f3, tu = userns_calls pid f1 f2 f3 := by
  obtain ⟨f1, f2, f3, _, _, _, hc⟩ := prepare_userns_cases pid env t
  rcases hc with hc | ⟨n, fmt, _, hc⟩
  · rw [h] at hc
    simp only [Prod.mk.injEq, true_and] at hc
    exact ⟨f1, f2, f3, List.append_cancel_left hc⟩
  · rw [h] at hc
    cases hc

theorem get_netns_fd_run (pid : Int) (env : Env) (t : List Call) :
    get_netns_fd pid env t =
      if (env t.length (Call.sys_open ("/proc/" ++ fmt_d pid ++ "/ns/net") O_RDONLY)).ret < 0 then
        (Res.fatal, t ++ [Call.sys_open ("/proc/" ++ fmt_d pid ++ "/ns/net") O_RDONLY,
          Call.die "cannot read netns file %s: %m\n"])
      else
        (Res.ok (env t.length (Call.sys_open ("/proc/" ++ fmt_d pid ++ "/ns/net") O_RDONLY)).ret,
          t ++ [Call.sys_open ("/proc/" ++ fmt_d pid ++ "/ns/net") O_RDONLY]) := by
  simp only [get_netns_fd, die_bind, exit_bind, ret_bind, ite_bind, bind_assoc]
  simp

/-- A completed `prepare_netns(pid)` opened `/proc/<pid>/ns/net` and then completed
`move_if_to_pid_netns` for `veth1` with the descriptor that `open` returned. -/
theorem netns_ok_calls (pid : Int) (env : Env) (t tn : List Call)
    (h : prepare_netns pid env t = (Res.ok (), t ++ tn)) :
    ∃ sock_fd ta tb tc,
      tn = ta ++ [Call.sys_open ("/proc/" ++ fmt_d pid ++ "/ns/net") O_RDONLY] ++ tb ++ tc ∧
      move_if_to_pid_netns sock_fd (cstr "veth1")
        (env (t ++ ta).length (Call.sys_open ("/proc/" ++ fmt_d pid ++ "/ns/net") O_RDONLY)).ret
        env (t ++ ta ++ [Call.sys_open ("/proc/" ++ fmt_d pid ++ "/ns/net") O_RDONLY]) =
        (Res.ok (), t ++ ta ++ [Call.sys_open ("/proc/" ++ fmt_d pid ++ "/ns/net") O_RDONLY]
          ++ tb) := by
  simp only [prepare_netns, die_bind, exit_bind, ret_bind, ite_bind, bind_assoc,
    run_bind] at h
  obtain ⟨sock, t1, e1, h⟩ := (andThen_ok_iff _ _ _ _ _ _).mp h
  simp only [run_bind] at h
  obtain ⟨_, t2, e2, h⟩ := (andThen_ok_iff _ _ _ _ _ _).mp h
  simp only [run_bind] at h
  obtain ⟨_, t3, e3, h⟩ := (andThen_ok_iff _ _ _ _ _ _).mp h
  simp only [run_bind, andThen_sys] at h
  obtain ⟨mynetns, t5, e5, h⟩ := (andThen_ok_iff _ _ _ _ _ _).mp h
  simp only [run_bind] at h
  obtain ⟨child, t6, e6, h⟩ := (andThen_ok_iff _ _ _ _ _ _).mp h
  simp only [run_bind] at h
  obtain ⟨_, t7, e7, h⟩ := (andThen_ok_iff _ _ _ _ _ _).mp h
  obtain ⟨x1, rfl, _⟩ := Emits.extends _ _ (create_socket_emits _ _ _) env _ _ _ e1
  obtain ⟨x2, rfl, _⟩ := Emits.extends _ _ (create_veth_emits _ _ _) env _ _ _ e2
  obtain ⟨x3, rfl, _⟩ := Emits.extends _ _ (if_up_emits _ _ _) env _ _ _ e3
  obtain ⟨x5, rfl, _⟩ := Emits.extends _ _ (get_netns_fd_emits _) env _ _ _ e5
  rw [get_netns_fd_run] at e6
  split_ifs at e6
  · cases e6
  simp only [Prod.mk.injEq, Res.ok.injEq] at e6
  obtain ⟨rfl, rfl⟩ := e6
  obtain ⟨x7, rfl, _⟩ := Emits.extends _ _ (move_if_to_pid_netns_emits _ _ _) env _ _ _ e7
  have hrest : ∃ x8, t ++ tn = t ++ x1 ++ x2 ++ x3 ++ [Call.getpid] ++ x5 ++
      [Call.sys_open ("/proc/" ++ fmt_d pid ++ "/ns/net") O_RDONLY] ++ x7 ++ x8 := by
    obtain ⟨x8, h8, _⟩ := Emits.extends (fun c => c.is_setup = true) _ (by
      repeat' (first
        | with_reducible apply if_up_emits
        | with_reducible apply Emits.bind
        | with_reducible apply Emits.ite
        | with_reducible apply Emits.sys
        | with_reducible apply Emits.die
        | with_reducible apply Emits.ret
        | rfl
        | intro _)) env _ _ _ h
    exact ⟨x8, h8⟩
  obtain ⟨x8, h8⟩ := hrest
  refine ⟨sock, x1 ++ x2 ++ x3 ++ [Call.getpid] ++ x5, x7, x8, ?_, ?_⟩
  · simp only [List.append_assoc] at h8 ⊢
    exact List.append_cancel_left h8
  · simp only [List.append_assoc] at e7 ⊢
    exact e7

theorem cmd_exec_run (p : Params) (env : Env) :
    cmd_exec p env [] =
      if (env 0 (Call.prctl PR_SET_PDEATHSIG SIGKILL)).ret ≠ 0 then
        (Res.fatal, [Call.prctl PR_SET_PDEATHSIG SIGKILL,
          Call.die "cannot PR_SET_PDEATHSIG for child process: %m\n"])
      else if (env 1 (Call.read p.fd0 2)).ret ≠ 2 then
        (Res.fatal, [Call.prctl PR_SET_PDEATHSIG SIGKILL, Call.read p.fd0 2,
          Call.die "Failed to read from pipe: %m\n"])
      else cmd_exec_payload p env [Call.prctl PR_SET_PDEATHSIG SIGKILL, Call.read p.fd0 2] := by
  simp only [cmd_exec, cmd_exec_payload, await_setup, die_bind, exit_bind, ret_bind, ite_bind,
    bind_assoc]
  simp

theorem prepare_mntns_emits (rootfs : String) (Q : Call → Prop) (hQ : ∀ c, Q c) :
    Emits Q (prepare_mntns rootfs) := by
  simp only [prepare_mntns, prepare_procfs, die_bind, exit_bind, ret_bind, ite_bind,
    bind_assoc]
  repeat' (first
    | with_reducible apply Emits.bind
    | with_reducible apply Emits.ite
    | with_reducible apply Emits.sys
    | with_reducible apply Emits.die
    | with_reducible apply Emits.ret
    | exact hQ _
    | intro _)


theorem cmd_exec_payload_emits (p : Params) (Q : Call → Prop) (hQ : ∀ c, Q c) :
    Emits Q (cmd_exec_payload p) := by
  simp only [cmd_exec_payload, die_bind, exit_bind, ret_bind, ite_bind, bind_assoc]
  repeat' (first
    | exact prepare_mntns_emits _ _ hQ
    | with_reducible apply Emits.bind
    | with_reducible apply Emits.ite
    | with_reducible apply Emits.sys
    | with_reducible apply Emits.emit
    | with_reducible apply Emits.die
    | with_reducible apply Emits.ret
    | exact hQ _
    | intro _)

theorem cmd_exec_cases (p : Params) (env : Env) :
    (cmd_exec p env []).2 = [Call.prctl PR_SET_PDEATHSIG SIGKILL,
      Call.die "cannot PR_SET_PDEATHSIG for child process: %m\n"] ∨
    (cmd_exec p env []).2 = [Call.prctl PR_SET_PDEATHSIG SIGKILL, Call.read p.fd0 2,
      Call.die "Failed to read from pipe: %m\n"] ∨
    ((env 1 (Call.read p.fd0 2)).ret = 2 ∧
      ∃ evs, (cmd_exec p env []).2 =
        [Call.prctl PR_SET_PDEATHSIG SIGKILL, Call.read p.fd0 2] ++ evs) := by
  rw [cmd_exec_run]
  split_ifs with h1 h2
  · exact Or.inl rfl
  · exact Or.inr (Or.inl rfl)
  · refine Or.inr (Or.inr ⟨not_not.mp h2, ?_⟩)
    obtain ⟨evs, h8, _⟩ := cmd_exec_payload_emits p (fun _ => True) (fun _ => trivial) env
      [Call.prctl PR_SET_PDEATHSIG SIGKILL, Call.read p.fd0 2]
    exact ⟨evs, h8⟩

theorem setup_not_clone (c : Call) (h : c.is_setup = true) (argv : List String) :
    ∀ flags q, c = Call.clone flags q → q.argv = argv := by
  intro flags q hq
  subst hq
  cases h

theorem main_clone_emits (argc : Int) (argv : List String) :
    Emits (fun c => ∀ flags q, c = Call.clone flags q → q.argv = argv.tail)
      (main argc argv) := by
  have e1 := fun pid => Emits.mono _ (fun c => ∀ flags q, c = Call.clone flags q →
    q.argv = argv.tail) _ (fun c h => setup_not_clone c h argv.tail)
    (cgroup_init_and_limit_emits pid)
  have e2 := fun pid => Emits.mono _ (fun c => ∀ flags q, c = Call.clone flags q →
    q.argv = argv.tail) _ (fun c h => setup_not_clone c h argv.tail)
    (prepare_userns_emits pid)
  have e3 := fun pid => Emits.mono _ (fun c => ∀ flags q, c = Call.clone flags q →
    q.argv = argv.tail) _ (fun c h => setup_not_clone c h argv.tail)
    (prepare_netns_emits pid)
  simp only [main, parse_args, die_bind, exit_bind, ret_bind, ite_bind, bind_assoc]
  repeat' (first
    | exact e1 _
    | exact e2 _
    | exact e3 _
    | with_reducible apply Emits.bind
    | with_reducible apply Emits.ite
    | with_reducible apply Emits.sys
    | with_reducible apply Emits.emit
    | with_reducible apply Emits.die
    | with_reducible apply Emits.ret
    | with_reducible apply Emits.exit
    | (intro _ _ h; cases h; done)
    | (intro _ _ h; cases h; rfl)
    | intro _)

theorem prepare_mntns_execvp_emits (p : Params) :
    Emits (fun c => ∀ file args, c = Call.execvp file args →
      file = p.argv.headD "" ∧ args = p.argv) (prepare_mntns "rootfs") := by
  simp only [prepare_mntns, prepare_procfs, die_bind, exit_bind, ret_bind, ite_bind,
    bind_assoc]
  repeat' (first
    | with_reducible apply Emits.bind
    | with_reducible apply Emits.ite
    | with_reducible apply Emits.sys
    | with_reducible apply Emits.die
    | with_reducible apply Emits.ret
    | (intro _ _ h; cases h; done)
    | intro _)

theorem cmd_exec_execvp_emits (p : Params) :
    Emits (fun c => ∀ file args, c = Call.execvp file args →
      file = p.argv.headD "" ∧ args = p.argv) (cmd_exec p) := by
  simp only [cmd_exec, await_setup, die_bind, exit_bind,
    ret_bind, ite_bind, bind_assoc]
  repeat' (first
    | exact prepare_mntns_execvp_emits p
    | with_reducible apply Emits.bind
    | with_reducible apply Emits.ite
    | with_reducible apply Emits.sys
    | with_reducible apply Emits.emit
    | with_reducible apply Emits.die
    | with_reducible apply Emits.ret
    | (intro _ _ h; cases h; done)
    | (intro _ _ h; cases h; exact ⟨rfl, rfl⟩)
    | intro _)

/-! ## Lengths recorded by `addattr_l` -/

theorem addattr_l_run (n : Mem) (maxlen : Int) (type : Nat) (data : List Nat) (dl : Nat)
    (env : Env) (tr : List Call) :
    addattr_l n maxlen type data dl env tr =
      if (NLMSG_ALIGN (nlmsg_len n) + RTA_ALIGN (RTA_LENGTH dl % 65536)) % 4294967296
          > to_u32 maxlen then
        (Res.fatal, tr ++ [Call.die "cannot add attribute. size (%d) exceeded maxlen (%d)\n"])
      else
        (Res.ok (put_u32
          (if dl ≠ 0 then
            poke (put_u16 (put_u16 n (NLMSG_TAIL n + 2) type) (NLMSG_TAIL n)
              (RTA_LENGTH dl % 65536)) (RTA_DATA (NLMSG_TAIL n)) (data.take dl)
           else put_u16 (put_u16 n (NLMSG_TAIL n + 2) type) (NLMSG_TAIL n)
              (RTA_LENGTH dl % 65536))
          0 ((NLMSG_ALIGN (nlmsg_len n) + RTA_ALIGN (RTA_LENGTH dl % 65536)) % 4294967296)),
         tr) := by
  simp only [addattr_l, die_bind, exit_bind, ret_bind, ite_bind, bind_assoc]
  split_ifs <;> simp


theorem get_u16_poke_disjoint (m : Mem) (off : Nat) (d : List Nat) (o : Nat)
    (h : o + 2 ≤ off ∨ off + d.length ≤ o) :
    get_u16 (poke m off d) o = get_u16 m o := by
  simp only [get_u16]
  rw [poke_length_eq m off d o (by omega), poke_length_eq m off d (o + 1) (by omega)]

theorem get_u16_put_same (m : Mem) (o v : Nat) :
    get_u16 (put_u16 m o v) o = v % 65536 := by
  have h0 := poke_at m o (le16 v) 0 (by simp [le16])
  have h1 := poke_at m o (le16 v) 1 (by simp [le16])
  simp only [Nat.add_zero, le16, List.getD_cons_zero, List.getD_cons_succ] at h0 h1
  simp only [get_u16, put_u16, le16, h0, h1]
  omega

theorem NLMSG_ALIGN_small (len : Nat) (h : len + 3 < 4294967296) :
    NLMSG_ALIGN len = (len + 3) / 4 * 4 := by
  unfold NLMSG_ALIGN
  rw [Nat.mod_eq_of_lt h]

theorem RTA_ALIGN_small (len : Nat) (h : len + 3 < 4294967296) :
    RTA_ALIGN len = (len + 3) / 4 * 4 := by
  unfold RTA_ALIGN
  rw [Nat.mod_eq_of_lt h]

theorem RTA_LENGTH_val (dl : Nat) : RTA_LENGTH dl = 4 + dl := by
  simp [RTA_LENGTH, RTA_ALIGN, sizeof_rtattr]

/-- What a successful `addattr_l` leaves in the message. -/
theorem addattr_l_lengths (n : Mem) (maxlen : Int) (type : Nat) (data : List Nat) (dl : Nat)
    (env : Env) (tr : List Call) (n1 : Mem) (tr1 : List Call)
    (hhdr : 4 ≤ nlmsg_len n) (hlen : nlmsg_len n < 2147483648)
    (hdl : dl ≤ 65531) (hdata : dl ≤ data.length)
    (h : addattr_l n maxlen type data dl env tr = (Res.ok n1, tr1)) :
    get_u16 n1 (NLMSG_ALIGN (nlmsg_len n)) = 4 + dl ∧
    get_u16 n1 (NLMSG_ALIGN (nlmsg_len n) + 2) = type % 65536 ∧
    peek n1 (NLMSG_ALIGN (nlmsg_len n) + 4) dl = data.take dl ∧
    nlmsg_len n1 = NLMSG_ALIGN (nlmsg_len n) + RTA_ALIGN (4 + dl) ∧
    (nlmsg_len n1 : Int) ≤ to_u32 maxlen := by
  rw [addattr_l_run] at h
  have hA := NLMSG_ALIGN_small (nlmsg_len n) (by omega)
  have hR := RTA_ALIGN_small (4 + dl) (by omega)
  have hL : RTA_LENGTH dl % 65536 = 4 + dl := by
    rw [RTA_LENGTH_val]
    omega
  rw [hL] at h
  generalize hs : NLMSG_ALIGN (nlmsg_len n) = s at h hA ⊢
  generalize hr : RTA_ALIGN (4 + dl) = r at h hR ⊢
  have hs4 : 4 ≤ s := by omega
  have hnew : (s + r) % 4294967296 = s + r := Nat.mod_eq_of_lt (by omega)
  have htail : NLMSG_TAIL n = s := hs
  have hdata0 : RTA_DATA s = s + 4 := by simp [RTA_DATA, RTA_LENGTH_val]
  rw [hnew, htail, hdata0] at h
  have hlt : (List.take dl data).length = dl := by simp [hdata]
  split_ifs at h with hc hz
  · exact absurd (Prod.mk.inj h).1 (by simp)
  · rcases Prod.mk.inj h with ⟨h1, -⟩
    have h2 := Res.ok.inj h1
    subst h2
    refine ⟨?_, ?_, ?_, ?_, ?_⟩
    · unfold put_u32
      rw [get_u16_poke_disjoint _ _ _ _ (Or.inr (by rw [le32_length]; omega)),
        get_u16_poke_disjoint _ _ _ _ (by omega), get_u16_put_same]
      omega
    · unfold put_u32
      rw [get_u16_poke_disjoint _ _ _ _ (Or.inr (by rw [le32_length]; omega)),
        get_u16_poke_disjoint _ _ _ _ (by omega)]
      unfold put_u16
      rw [get_u16_poke_disjoint _ _ _ _ (by simp [le16])]
      exact get_u16_put_same n (s + 2) type
    · unfold put_u32
      rw [peek_poke_disjoint _ _ _ _ _ (Or.inr (by rw [le32_length]; omega))]
      have := peek_poke_same (put_u16 (put_u16 n (s + 2) type) s (4 + dl)) (s + 4)
        (List.take dl data)
      rw [hlt] at this
      exact this
    · exact get_u32_poke_same _ _ (by omega)
    · have e : nlmsg_len (put_u32 (poke (put_u16 (put_u16 n (s + 2) type) s (4 + dl)) (s + 4)
          (List.take dl data)) 0 (s + r)) = s + r := get_u32_poke_same _ _ (by omega)
      rw [e]
      exact_mod_cast Nat.le_of_not_lt hc
  · rcases Prod.mk.inj h with ⟨h1, -⟩
    have h2 := Res.ok.inj h1
    subst h2
    have hd0 : dl = 0 := by simpa using hz
    subst hd0
    refine ⟨?_, ?_, ?_, ?_, ?_⟩
    · unfold put_u32
      rw [get_u16_poke_disjoint _ _ _ _ (Or.inr (by rw [le32_length]; omega)), get_u16_put_same]
    · unfold put_u32
      rw [get_u16_poke_disjoint _ _ _ _ (Or.inr (by rw [le32_length]; omega))]
      unfold put_u16
      rw [get_u16_poke_disjoint _ _ _ _ (by simp [le16])]
      exact get_u16_put_same n (s + 2) type
    · simp [peek]
    · exact get_u32_poke_same _ _ (by omega)
    · have e : nlmsg_len (put_u32 (put_u16 (put_u16 n (s + 2) type) s (4 + 0)) 0 (s + r))
          = s + r := get_u32_poke_same _ _ (by omega)
      rw [e]
      exact_mod_cast Nat.le_of_not_lt hc


theorem NLMSG_LENGTH_ifinfomsg : NLMSG_LENGTH sizeof_ifinfomsg = 32 := by decide

/-- The first attribute of the veth request: `IFLA_IFNAME` with the six bytes of "veth0". -/
theorem addattr_l_first (env : Env) (tr : List Call) :
    ∃ n1, addattr_l (nl_req_init (NLMSG_LENGTH sizeof_ifinfomsg)
        (NLM_F_REQUEST ||| NLM_F_CREATE ||| NLM_F_EXCL ||| NLM_F_ACK) RTM_NEWLINK PF_NETLINK)
      sizeof_nl_req IFLA_IFNAME (cstr "veth0" ++ [0]) 6 env tr = (Res.ok n1, tr) := by
  rw [NLMSG_LENGTH_ifinfomsg]
  have h := addattr_l_holds _ _ sizeof_nl_req IFLA_IFNAME (cstr "veth0" ++ [0]) 6 env tr
    (nl_req_init_holds (NLM_F_REQUEST ||| NLM_F_CREATE ||| NLM_F_EXCL ||| NLM_F_ACK)
      RTM_NEWLINK PF_NETLINK) (by rw [request_header_length])
    (by decide) (by decide) (by rw [request_header_length]; decide) (by decide)
  rcases h with ⟨n1, h1, -⟩
  exact ⟨n1, h1⟩

/-- C12: a successful `addattr_l` with payload length `datalen` (at most 65531, on a message
whose length field covers at least the netlink header) places the attribute at the message
length rounded up to a multiple of 4, records the unrounded `rta_len = 4 + datalen` and copies
the payload behind the 4-byte attribute header; the new `nlmsg_len` is the aligned end of the
attribute, the aligned start plus `4 + datalen` rounded up to a multiple of 4. -/
theorem addattr_l_recorded_lengths (n : Mem) (maxlen : Int) (type : Nat) (data : List Nat)
    (datalen : Nat) (env : Env) (tr : List Call) (n1 : Mem) (tr1 : List Call)
    (hhdr : sizeof_nlmsghdr ≤ nlmsg_len n) (hlen : nlmsg_len n < 2147483648)
    (hdl : datalen ≤ 65531) (hdata : datalen ≤ data.length)
    (h : addattr_l n maxlen type data datalen env tr = (Res.ok n1, tr1)) :
    NLMSG_TAIL n % 4 = 0 ∧ nlmsg_len n ≤ NLMSG_TAIL n ∧ NLMSG_TAIL n < nlmsg_len n + 4 ∧
    get_u16 n1 (NLMSG_TAIL n) = 4 + datalen ∧
    peek n1 (NLMSG_TAIL n + 4) datalen = data.take datalen ∧
    nlmsg_len n1 = NLMSG_TAIL n + (4 + datalen + 3) / 4 * 4 := by
  have hh : 4 ≤ nlmsg_len n := by
    have : sizeof_nlmsghdr = 16 := rfl
    omega
  have hl := addattr_l_lengths n maxlen type data datalen env tr n1 tr1 hh hlen hdl hdata h
  have hA := NLMSG_ALIGN_small (nlmsg_len n) (by omega)
  have hR := RTA_ALIGN_small (4 + datalen) (by omega)
  have ht : NLMSG_TAIL n = NLMSG_ALIGN (nlmsg_len n) := rfl
  rw [ht]
  refine ⟨by omega, by omega, by omega, hl.1, hl.2.2.1, ?_⟩
  rw [hl.2.2.2.1, hR]

/-- The first attribute of the veth request, `IFLA_IFNAME` with the six bytes of "veth0" put
at offset 32: `rta_len` is 10 and `nlmsg_len` becomes 44, not 32 + 4 + 6. -/
theorem addattr_l_nlmsg_len_is_aligned :
    ∃ n1, addattr_l (nl_req_init (NLMSG_LENGTH sizeof_ifinfomsg)
        (NLM_F_REQUEST ||| NLM_F_CREATE ||| NLM_F_EXCL ||| NLM_F_ACK) RTM_NEWLINK PF_NETLINK)
      sizeof_nl_req IFLA_IFNAME (cstr "veth0" ++ [0]) 6 env_launch [] = (Res.ok n1, []) ∧
      get_u16 n1 32 = 4 + 6 ∧ nlmsg_len n1 = 44 ∧ nlmsg_len n1 ≠ 32 + 4 + 6 := by
  rcases addattr_l_first env_launch [] with ⟨n1, h1⟩
  have e0 := nl_req_init_len (NLM_F_REQUEST ||| NLM_F_CREATE ||| NLM_F_EXCL ||| NLM_F_ACK)
    RTM_NEWLINK PF_NETLINK
  rw [← NLMSG_LENGTH_ifinfomsg] at e0
  have hl := addattr_l_lengths _ _ _ _ _ _ _ n1 [] (by rw [e0]; decide)
    (by rw [e0]; decide) (by decide) (by decide) h1
  rw [e0] at hl
  have e1 : NLMSG_ALIGN (NLMSG_LENGTH sizeof_ifinfomsg) = 32 := by decide
  have e2 : RTA_ALIGN (4 + 6) = 12 := by decide
  rw [e1, e2] at hl
  refine ⟨n1, h1, hl.1, hl.2.2.2.1, ?_⟩
  rw [hl.2.2.2.1]
  decide

theorem addattr_l_recorded_lengths_witness :
    ∃ n1, addattr_l (nl_req_init (NLMSG_LENGTH sizeof_ifinfomsg)
        (NLM_F_REQUEST ||| NLM_F_CREATE ||| NLM_F_EXCL ||| NLM_F_ACK) RTM_NEWLINK PF_NETLINK)
      sizeof_nl_req IFLA_IFNAME (cstr "veth0" ++ [0]) 6 env_launch [] = (Res.ok n1, []) ∧
      get_u16 n1 (NLMSG_TAIL (nl_req_init (NLMSG_LENGTH sizeof_ifinfomsg)
        (NLM_F_REQUEST ||| NLM_F_CREATE ||| NLM_F_EXCL ||| NLM_F_ACK) RTM_NEWLINK PF_NETLINK))
        = 4 + 6 := by
  rcases addattr_l_first env_launch [] with ⟨n1, h1⟩
  have e0 := nl_req_init_len (NLM_F_REQUEST ||| NLM_F_CREATE ||| NLM_F_EXCL ||| NLM_F_ACK)
    RTM_NEWLINK PF_NETLINK
  rw [← NLMSG_LENGTH_ifinfomsg] at e0
  exact ⟨n1, h1, (addattr_l_recorded_lengths _ _ _ _ _ _ _ n1 [] (by rw [e0]; decide)
    (by rw [e0]; decide) (by decide) (by decide) h1).2.2.2.1⟩

/-! ## The sequence number of each request -/

theorem get_u32_put_same (m : Mem) (o v : Nat) (h : v < 4294967296) :
    get_u32 (put_u32 m o v) o = v := by
  have h0 := poke_at m o (le32 v) 0 (by simp [le32])
  have h1 := poke_at m o (le32 v) 1 (by simp [le32])
  have h2 := poke_at m o (le32 v) 2 (by simp [le32])
  have h3 := poke_at m o (le32 v) 3 (by simp [le32])
  simp only [Nat.add_zero, le32, List.getD_cons_zero, List.getD_cons_succ] at h0 h1 h2 h3
  simp only [get_u32, put_u32, le32, h0, h1, h2, h3]
  omega

theorem peek_getD (m : Mem) (len i : Nat) (h : i < len) : (peek m 0 len).getD i 0 = m i := by
  simp [peek, List.getD_eq_getElem?_getD, h]

/-- The sequence number read back from the bytes handed to `sendmsg`. -/
theorem nlmsg_seq_peek (m : Mem) (len : Nat) (h : 12 ≤ len) :
    nlmsg_seq (fun a => (peek m 0 len).getD a 0) = nlmsg_seq m := by
  simp only [nlmsg_seq, get_u32]
  rw [peek_getD m len 8 (by omega), peek_getD m len (8 + 1) (by omega),
    peek_getD m len (8 + 2) (by omega), peek_getD m len (8 + 3) (by omega)]

/-- A request laid out after `request_header` has `nlmsg_seq = 0` and is longer than the
netlink header. -/
theorem holds_seq_zero (m : Mem) (t f g : Nat) (rest : List Nat)
    (h : Holds m (request_header t f g ++ rest)) : nlmsg_seq m = 0 ∧ 12 ≤ nlmsg_len m := by
  have hl : 28 ≤ (request_header t f g ++ rest).length := by
    rw [List.length_append, request_header_length]
    omega
  have b4 := holds_byte m _ h 4 (by omega)
  have b5 := holds_byte m _ h 5 (by omega)
  have b6 := holds_byte m _ h 6 (by omega)
  have b7 := holds_byte m _ h 7 (by omega)
  simp [request_header, le16] at b4 b5 b6 b7
  refine ⟨?_, ?_⟩
  · simp only [nlmsg_seq, get_u32]
    rw [b4, b5, b6, b7]
  · rw [h.1]
    omega


theorem check_response_seq_emits (sock_fd : Int) :
    Emits (fun c => c.sent_seq.getD 1 = 1) (check_response sock_fd) := by
  simp only [check_response, read_response, die_bind, exit_bind, ret_bind, ite_bind, bind_assoc]
  repeat' (first
    | with_reducible apply Emits.bind
    | with_reducible apply Emits.ite
    | with_reducible apply Emits.sys
    | with_reducible apply Emits.emit
    | with_reducible apply Emits.die
    | with_reducible apply Emits.ret
    | with_reducible apply Emits.exit
    | rfl
    | intro _)

/-- A request with `nlmsg_seq = 0` is sent with `nlmsg_seq = 1`. -/
theorem send_nlmsg_seq_emits (sock_fd : Int) (n : Mem) (h0 : nlmsg_seq n = 0)
    (hl : 12 ≤ nlmsg_len n) :
    Emits (fun c => c.sent_seq.getD 1 = 1) (send_nlmsg sock_fd n) := by
  have hq : (Call.sendmsg sock_fd (peek (put_u32 n 8 ((get_u32 n 8 + 1) % 4294967296)) 0
      (nlmsg_len n))).sent_seq.getD 1 = 1 := by
    simp only [Call.sent_seq, Option.getD_some]
    rw [nlmsg_seq_peek _ _ hl]
    unfold nlmsg_seq at h0 ⊢
    rw [get_u32_put_same _ _ _ (Nat.mod_lt _ (by decide)), h0]
  simp only [send_nlmsg, die_bind, exit_bind, ret_bind, ite_bind, bind_assoc]
  repeat' (first
    | with_reducible apply check_response_seq_emits
    | with_reducible apply Emits.bind
    | with_reducible apply Emits.ite
    | with_reducible apply Emits.sys
    | with_reducible apply Emits.die
    | exact hq
    | rfl
    | intro _)

theorem create_socket_seq_emits (d t p : Nat) :
    Emits (fun c => c.sent_seq.getD 1 = 1) (create_socket d t p) := by
  simp only [create_socket, die_bind, exit_bind, ret_bind, ite_bind, bind_assoc]
  repeat' (first
    | with_reducible apply Emits.bind
    | with_reducible apply Emits.ite
    | with_reducible apply Emits.sys
    | with_reducible apply Emits.die
    | with_reducible apply Emits.ret
    | rfl
    | intro _)

theorem get_netns_fd_seq_emits (pid : Int) :
    Emits (fun c => c.sent_seq.getD 1 = 1) (get_netns_fd pid) := by
  simp only [get_netns_fd, die_bind, exit_bind, ret_bind, ite_bind, bind_assoc]
  repeat' (first
    | with_reducible apply Emits.bind
    | with_reducible apply Emits.ite
    | with_reducible apply Emits.sys
    | with_reducible apply Emits.die
    | with_reducible apply Emits.ret
    | rfl
    | intro _)

theorem if_up_seq_emits (ifname : List Nat) (ip netmask : String) :
    Emits (fun c => c.sent_seq.getD 1 = 1) (if_up ifname ip netmask) := by
  simp only [if_up, die_bind, exit_bind, ret_bind, ite_bind, bind_assoc]
  repeat' (first
    | with_reducible apply create_socket_seq_emits
    | with_reducible apply Emits.bind
    | with_reducible apply Emits.ite
    | with_reducible apply Emits.sys
    | with_reducible apply Emits.die
    | with_reducible apply Emits.ret
    | rfl
    | intro _)

/-- The request `move_if_to_pid_netns` builds for a name of at most 15 bytes: the header,
`IFLA_NET_NS_FD` with the descriptor, `IFLA_IFNAME` with the name. -/
theorem move_if_to_pid_netns_req_holds (a : List Nat) (ha : a.length ≤ 15) (netns : Int)
    (env : Env) (tr : List Call) :
    ∃ m, move_if_to_pid_netns_req a netns env tr = (Res.ok m, tr) ∧
      Holds m (request_header RTM_NEWLINK (NLM_F_REQUEST ||| NLM_F_ACK) PF_NETLINK ++
        (rta IFLA_NET_NS_FD (le32 (to_u32 netns)) ++ rta IFLA_IFNAME (a ++ [0]))) := by
  have hN : NLMSG_LENGTH sizeof_ifinfomsg = 32 := by decide
  have hS := sizeof_nl_req_val
  have hla : (strlen a + 1) % 65536 = a.length + 1 := by
    unfold strlen
    omega
  have hta : (a ++ [0]).take (a.length + 1) = a ++ [0] := by simp
  have htn : (le32 (to_u32 netns)).take 4 = le32 (to_u32 netns) := by simp [le32]
  have hH := request_header_length RTM_NEWLINK (NLM_F_REQUEST ||| NLM_F_ACK) PF_NETLINK
  have h0 := nl_req_init_holds (NLM_F_REQUEST ||| NLM_F_ACK) RTM_NEWLINK PF_NETLINK
  generalize request_header RTM_NEWLINK (NLM_F_REQUEST ||| NLM_F_ACK) PF_NETLINK = H
    at h0 hH ⊢
  obtain ⟨m1, e1, h1⟩ := addattr_l_holds _ H sizeof_nl_req IFLA_NET_NS_FD
    (le32 (to_u32 netns)) 4 env tr h0 (by omega) (by simp [le32]) (by omega)
    (by rw [hS]; omega) (by rw [hS]; omega)
  rw [htn] at h1
  have l1 : (H ++ rta IFLA_NET_NS_FD (le32 (to_u32 netns))).length = 36 := by
    simp [rta_length, hH, le32]
  obtain ⟨m2, e2, h2⟩ := addattr_l_holds m1 _ sizeof_nl_req IFLA_IFNAME (a ++ [0])
    (a.length + 1) env tr h1 (by omega) (by simp) (by omega) (by rw [hS]; omega)
    (by rw [hS]; omega)
  rw [hta, List.append_assoc] at h2
  refine ⟨m2, ?_, h2⟩
  simp only [move_if_to_pid_netns_req, die_bind, exit_bind, ret_bind, ite_bind, bind_assoc,
    run_bind, andThen_def, hN, hla, e1, e2, run_pure]

theorem create_veth_seq_emits (sock_fd : Int) (a b : List Nat) (ha : a.length ≤ 15)
    (hb : b.length ≤ 15) :
    Emits (fun c => c.sent_seq.getD 1 = 1) (create_veth sock_fd a b) := by
  intro env tr
  obtain ⟨m, e, hm⟩ := create_veth_req_holds a b ha hb env tr
  have hs := holds_seq_zero m _ _ _ _ hm
  have hrun : create_veth sock_fd a b env tr = send_nlmsg sock_fd m env tr := by
    simp only [create_veth, run_bind, andThen_def, e]
  rw [hrun]
  exact send_nlmsg_seq_emits sock_fd m hs.1 hs.2 env tr

theorem move_if_to_pid_netns_seq_emits (sock_fd : Int) (a : List Nat) (ha : a.length ≤ 15)
    (netns : Int) :
    Emits (fun c => c.sent_seq.getD 1 = 1) (move_if_to_pid_netns sock_fd a netns) := by
  intro env tr
  obtain ⟨m, e, hm⟩ := move_if_to_pid_netns_req_holds a ha netns env tr
  have hs := holds_seq_zero m _ _ _ _ hm
  have hrun : move_if_to_pid_netns sock_fd a netns env tr = send_nlmsg sock_fd m env tr := by
    simp only [move_if_to_pid_netns, run_bind, andThen_def, e]
  rw [hrun]
  exact send_nlmsg_seq_emits sock_fd m hs.1 hs.2 env tr

theorem prepare_netns_seq_emits (pid : Int) :
    Emits (fun c => c.sent_seq.getD 1 = 1) (prepare_netns pid) := by
  have h5 : (cstr "veth0").length ≤ 15 := by decide
  have h6 : (cstr "veth1").length ≤ 15 := by decide
  simp only [prepare_netns, die_bind, exit_bind, ret_bind, ite_bind, bind_assoc]
  repeat' (first
    | with_reducible apply create_socket_seq_emits
    | with_reducible exact create_veth_seq_emits _ _ _ h5 h6
    | with_reducible exact move_if_to_pid_netns_seq_emits _ _ h6 _
    | with_reducible apply if_up_seq_emits
    | with_reducible apply get_netns_fd_seq_emits
    | with_reducible apply Emits.bind
    | with_reducible apply Emits.ite
    | with_reducible apply Emits.sys
    | with_reducible apply Emits.die
    | with_reducible apply Emits.ret
    | rfl
    | intro _)


/-- The first call of `send_nlmsg` hands the request to `sendmsg` with the sequence number
of the request plus one. -/
theorem send_nlmsg_first_call (sock_fd : Int) (n : Mem) (env : Env) (tr : List Call)
    (hl : 12 ≤ nlmsg_len n) :
    ∃ bytes rest, (send_nlmsg sock_fd n env tr).2 = tr ++ Call.sendmsg sock_fd bytes :: rest ∧
      (Call.sendmsg sock_fd bytes).sent_seq = some ((nlmsg_seq n + 1) % 4294967296) := by
  have hrest : ∀ r : Reply, Emits (fun c => c.is_setup = true)
      (if r.ret < 0 then die "cannot talk to rtnetlink: %m\n" else check_response sock_fd) := by
    intro r
    repeat' (first
      | with_reducible apply check_response_emits
      | with_reducible apply Emits.ite
      | with_reducible apply Emits.die
      | rfl)
  simp only [send_nlmsg, die_bind, exit_bind, ret_bind, ite_bind, bind_assoc, run_bind,
    andThen_sys]
  obtain ⟨evs, h1, -⟩ := hrest (env tr.length (Call.sendmsg sock_fd
    (peek (put_u32 n 8 ((get_u32 n 8 + 1) % 4294967296)) 0 (nlmsg_len n)))) env
    (tr ++ [Call.sendmsg sock_fd
      (peek (put_u32 n 8 ((get_u32 n 8 + 1) % 4294967296)) 0 (nlmsg_len n))])
  refine ⟨peek (put_u32 n 8 ((get_u32 n 8 + 1) % 4294967296)) 0 (nlmsg_len n), evs, ?_, ?_⟩
  · rw [h1]
    simp
  · simp only [Call.sent_seq]
    rw [nlmsg_seq_peek _ _ hl]
    unfold nlmsg_seq
    rw [get_u32_put_same _ _ _ (Nat.mod_lt _ (by decide))]

theorem sent_requests_seq (evs : List Call) (h : ∀ c ∈ evs, c.sent_seq.getD 1 = 1) :
    ∀ p ∈ sent_requests evs, p.2 = 1 := by
  intro p hp
  simp only [sent_requests, List.mem_filterMap] at hp
  obtain ⟨c, hc, hcp⟩ := hp
  have hq := h c hc
  cases c <;> simp at hcp
  rw [← hcp]
  simpa [Call.sent_seq] using hq

/-- Under the launch environment `prepare_netns` sends two requests on socket 5, the veth
request and then the move request, and both carry `nlmsg_seq = 1`. -/
theorem prepare_netns_seq_repeats :
    sent_requests (prepare_netns 77 env_launch []).2 = [(5, 1), (5, 1)] := by
  decide

/-- C13: `send_nlmsg` hands the request to `sendmsg` with the request's own `nlmsg_seq` field
incremented by one, modulo 2^32; there is no counter that outlives a request.  `create_veth`
and `move_if_to_pid_netns` each build their request in a fresh zeroed `struct nl_req`, so
every request that `prepare_netns` sends carries `nlmsg_seq = 1`, whatever the process id
and the environment. -/
theorem send_nlmsg_seq_per_request (pid : Int) (env : Env) (tr : List Call) :
    (∀ sock_fd n, 12 ≤ nlmsg_len n →
      ∃ bytes rest,
        (send_nlmsg sock_fd n env tr).2 = tr ++ Call.sendmsg sock_fd bytes :: rest ∧
        (Call.sendmsg sock_fd bytes).sent_seq = some ((nlmsg_seq n + 1) % 4294967296)) ∧
    ∀ p ∈ sent_requests ((prepare_netns pid env tr).2.drop tr.length), p.2 = 1 := by
  refine ⟨fun sock_fd n hl => send_nlmsg_first_call sock_fd n env tr hl, ?_⟩
  obtain ⟨evs, h1, h2⟩ := prepare_netns_seq_emits pid env tr
  rw [h1, List.drop_left]
  exact sent_requests_seq evs h2

theorem send_nlmsg_seq_per_request_witness :
    (∃ bytes rest,
      (send_nlmsg 5 (nl_req_init 32 (NLM_F_REQUEST ||| NLM_F_ACK) RTM_NEWLINK PF_NETLINK)
        env_launch []).2 = [] ++ Call.sendmsg 5 bytes :: rest ∧
      (Call.sendmsg 5 bytes).sent_seq = some ((nlmsg_seq
        (nl_req_init 32 (NLM_F_REQUEST ||| NLM_F_ACK) RTM_NEWLINK PF_NETLINK) + 1)
          % 4294967296)) ∧
    ∀ p ∈ sent_requests ((prepare_netns 77 env_launch []).2.drop 0), p.2 = 1 :=
  ⟨(send_nlmsg_seq_per_request 77 env_launch []).1 5 _ (by rw [nl_req_init_len]; decide),
    (send_nlmsg_seq_per_request 77 env_launch []).2⟩

/-! ## Length fields along the construction of a request -/

/-- A successful `addattr_l` passed the bound check and left the header, the payload and the
new length in the buffer. -/
theorem addattr_l_ok (n : Mem) (maxlen : Int) (type : Nat) (data : List Nat) (dl : Nat)
    (env : Env) (tr : List Call) (n1 : Mem) (tr1 : List Call)
    (h : addattr_l n maxlen type data dl env tr = (Res.ok n1, tr1)) :
    (NLMSG_ALIGN (nlmsg_len n) + RTA_ALIGN (RTA_LENGTH dl % 65536)) % 4294967296
      ≤ to_u32 maxlen ∧
    n1 = put_u32 (poke (put_u16 (put_u16 n (NLMSG_TAIL n + 2) type) (NLMSG_TAIL n)
        (RTA_LENGTH dl % 65536)) (RTA_DATA (NLMSG_TAIL n)) (data.take dl)) 0
      ((NLMSG_ALIGN (nlmsg_len n) + RTA_ALIGN (RTA_LENGTH dl % 65536)) % 4294967296) := by
  rw [addattr_l_run] at h
  split_ifs at h with hc hz
  · exact absurd (Prod.mk.inj h).1 (by simp)
  · exact ⟨Nat.le_of_not_lt hc, (Res.ok.inj (Prod.mk.inj h).1).symm⟩
  · have hd0 : dl = 0 := by
      by_contra hne
      exact hz hne
    subst hd0
    refine ⟨Nat.le_of_not_lt hc, ?_⟩
    rw [List.take_zero, poke_nil]
    exact (Res.ok.inj (Prod.mk.inj h).1).symm

/-- After a successful `addattr_l` the first four bytes are the length field. -/
theorem addattr_l_len_bytes (n : Mem) (maxlen : Int) (type : Nat) (data : List Nat) (dl : Nat)
    (env : Env) (tr : List Call) (n1 : Mem) (tr1 : List Call)
    (h : addattr_l n maxlen type data dl env tr = (Res.ok n1, tr1)) :
    peek n1 0 4 = le32 (nlmsg_len n1) := by
  obtain ⟨-, hn1⟩ := addattr_l_ok _ _ _ _ _ _ _ _ _ h
  have hv : (NLMSG_ALIGN (nlmsg_len n) + RTA_ALIGN (RTA_LENGTH dl % 65536)) % 4294967296
      < 4294967296 := Nat.mod_lt _ (by decide)
  generalize (NLMSG_ALIGN (nlmsg_len n) + RTA_ALIGN (RTA_LENGTH dl % 65536)) % 4294967296 = v
    at hn1 hv
  have hl : nlmsg_len n1 = v := by
    rw [hn1]
    exact get_u32_poke_same _ _ hv
  rw [hl, hn1]
  exact peek_poke_same _ 0 (le32 v)

/-- The bytes `send_nlmsg` hands to `sendmsg` for a fresh request laid out after
`request_header`. -/
theorem holds_sent_bytes (m : Mem) (t f : Nat) (attrs : List Nat)
    (h : Holds m (request_header t f PF_NETLINK ++ attrs))
    (h0 : peek m 0 4 = le32 (nlmsg_len m)) :
    peek (put_u32 m 8 ((get_u32 m 8 + 1) % 4294967296)) 0 (nlmsg_len m) =
      sent_request t f 1 attrs := by
  have hs := (holds_seq_zero m _ _ _ _ h).1
  unfold nlmsg_seq at hs
  rw [hs]
  have hlen : nlmsg_len m = 4 + (4 + (4 + (20 + attrs.length))) := by
    rw [h.1, List.length_append, request_header_length]
    omega
  have hb : request_header t f PF_NETLINK ++ attrs =
      (le16 t ++ le16 f) ++ (List.replicate 4 0 ++ (List.replicate 4 0 ++
        [PF_NETLINK % 256] ++ List.replicate 15 0 ++ attrs)) := by
    simp [request_header, le16]
  rw [hb] at h
  have p1 : peek m 4 4 = le16 t ++ le16 f :=
    holds_peek_mid m [] (le16 t ++ le16 f) _ h
  have h' : Holds m ((le16 t ++ le16 f ++ List.replicate 4 0) ++ ((List.replicate 4 0 ++
        [PF_NETLINK % 256] ++ List.replicate 15 0 ++ attrs) ++ [])) := by
    simpa using h
  have p2 := holds_peek_mid m _ _ _ h'
  have e2 : (List.replicate 4 0 ++ [PF_NETLINK % 256] ++ List.replicate 15 0 ++ attrs).length
      = 20 + attrs.length := by
    simp
    omega
  have e3 : 4 + (le16 t ++ le16 f ++ List.replicate 4 0).length = 12 := by simp [le16]
  rw [e2, e3] at p2
  rw [hlen, peek_append, peek_append, peek_append]
  unfold put_u32
  rw [peek_poke_disjoint _ _ _ _ _ (Or.inl (by omega)),
    peek_poke_disjoint _ _ _ _ _ (Or.inl (by omega))]
  have p3 : peek (poke m 8 (le32 (1 % 4294967296))) (0 + 4 + 4) 4 = le32 1 :=
    peek_poke_same m 8 (le32 1)
  rw [p3, peek_poke_disjoint _ _ _ _ _ (Or.inr (by rw [le32_length])), h0, hlen, p1, p2]
  have e4 : 4 + (4 + (4 + (20 + attrs.length))) = 32 + attrs.length := by omega
  rw [e4]
  simp [sent_request]


theorem move_if_to_pid_netns_req_len_bytes (a : List Nat) (netns : Int) (env : Env)
    (tr : List Call) (m : Mem) (tr1 : List Call)
    (h : move_if_to_pid_netns_req a netns env tr = (Res.ok m, tr1)) :
    peek m 0 4 = le32 (nlmsg_len m) := by
  simp only [move_if_to_pid_netns_req, run_bind] at h
  obtain ⟨m1, t1, -, h⟩ := (andThen_ok_iff _ _ _ _ _ _).mp h
  simp only [run_bind] at h
  obtain ⟨m2, t2, e2, h⟩ := (andThen_ok_iff _ _ _ _ _ _).mp h
  simp only [run_pure, Prod.mk.injEq, Res.ok.injEq] at h
  obtain ⟨rfl, -⟩ := h
  exact addattr_l_len_bytes _ _ _ _ _ _ _ _ _ e2

/-- The first call of `send_nlmsg`: the first `nlmsg_len` bytes of the request, with the
sequence number incremented, go to `sendmsg`. -/
theorem send_nlmsg_sends (sock_fd : Int) (n : Mem) (env : Env) (tr : List Call) :
    ∃ rest, (send_nlmsg sock_fd n env tr).2 = tr ++ Call.sendmsg sock_fd
      (peek (put_u32 n 8 ((get_u32 n 8 + 1) % 4294967296)) 0 (nlmsg_len n)) :: rest := by
  have hrest : ∀ r : Reply, Emits (fun c => c.is_setup = true)
      (if r.ret < 0 then die "cannot talk to rtnetlink: %m\n" else check_response sock_fd) := by
    intro r
    repeat' (first
      | with_reducible apply check_response_emits
      | with_reducible apply Emits.ite
      | with_reducible apply Emits.die
      | rfl)
  simp only [send_nlmsg, die_bind, exit_bind, ret_bind, ite_bind, bind_assoc, run_bind,
    andThen_sys]
  obtain ⟨evs, h1, -⟩ := hrest (env tr.length (Call.sendmsg sock_fd
    (peek (put_u32 n 8 ((get_u32 n 8 + 1) % 4294967296)) 0 (nlmsg_len n)))) env
    (tr ++ [Call.sendmsg sock_fd
      (peek (put_u32 n 8 ((get_u32 n 8 + 1) % 4294967296)) 0 (nlmsg_len n))])
  refine ⟨evs, ?_⟩
  rw [h1]
  simp

/-- For a name of at most 15 bytes `move_if_to_pid_netns` first sends the migration
request: `IFLA_NET_NS_FD` with the descriptor, `IFLA_IFNAME` with the name. -/
theorem move_if_to_pid_netns_sends (sock_fd : Int) (a : List Nat) (ha : a.length ≤ 15)
    (netns : Int) (env : Env) (tr : List Call) :
    ∃ rest, (move_if_to_pid_netns sock_fd a netns env tr).2 =
      tr ++ Call.sendmsg sock_fd (move_request a netns) :: rest := by
  obtain ⟨m, e, hm⟩ := move_if_to_pid_netns_req_holds a ha netns env tr
  have hb := move_if_to_pid_netns_req_len_bytes a netns env tr m tr e
  have hrun : move_if_to_pid_netns sock_fd a netns env tr = send_nlmsg sock_fd m env tr := by
    simp only [move_if_to_pid_netns, run_bind, andThen_def, e]
  obtain ⟨rest, hr⟩ := send_nlmsg_sends sock_fd m env tr
  rw [holds_sent_bytes m _ _ _ hm hb] at hr
  exact ⟨rest, by rw [hrun, hr]; rfl⟩

theorem create_socket_run (d t p : Nat) (env : Env) (tr : List Call) :
    create_socket d t p env tr =
      if (env tr.length (Call.socket d t p)).ret < 0 then
        (Res.fatal, tr ++ [Call.socket d t p, Call.die "cannot open socket: %m\n"])
      else (Res.ok (env tr.length (Call.socket d t p)).ret, tr ++ [Call.socket d t p]) := by
  simp only [create_socket, die_bind, exit_bind, ret_bind, ite_bind, bind_assoc]
  simp

/-- A completed `prepare_netns(pid)`: it opened the rtnetlink socket, later opened
`/proc/<pid>/ns/net`, and then sent on that socket the migration request for `veth1`
carrying the descriptor `open` had returned, and `move_if_to_pid_netns` returned. -/
theorem netns_ok_request (pid : Int) (env : Env) (t tn : List Call)
    (h : prepare_netns pid env t = (Res.ok (), t ++ tn)) :
    ∃ ta tb tc,
      tn = Call.socket PF_NETLINK (SOCK_RAW ||| SOCK_CLOEXEC) NETLINK_ROUTE :: ta ++
        [Call.sys_open ("/proc/" ++ fmt_d pid ++ "/ns/net") O_RDONLY] ++
        (Call.sendmsg
          (env t.length (Call.socket PF_NETLINK (SOCK_RAW ||| SOCK_CLOEXEC) NETLINK_ROUTE)).ret
          (move_request (cstr "veth1")
            (env (t.length + 1 + ta.length)
              (Call.sys_open ("/proc/" ++ fmt_d pid ++ "/ns/net") O_RDONLY)).ret) :: tb) ++ tc ∧
      move_if_to_pid_netns
        (env t.length (Call.socket PF_NETLINK (SOCK_RAW ||| SOCK_CLOEXEC) NETLINK_ROUTE)).ret
        (cstr "veth1")
        (env (t.length + 1 + ta.length)
          (Call.sys_open ("/proc/" ++ fmt_d pid ++ "/ns/net") O_RDONLY)).ret
        env (t ++ Call.socket PF_NETLINK (SOCK_RAW ||| SOCK_CLOEXEC) NETLINK_ROUTE :: ta ++
          [Call.sys_open ("/proc/" ++ fmt_d pid ++ "/ns/net") O_RDONLY]) =
        (Res.ok (), t ++ Call.socket PF_NETLINK (SOCK_RAW ||| SOCK_CLOEXEC) NETLINK_ROUTE :: ta
          ++ [Call.sys_open ("/proc/" ++ fmt_d pid ++ "/ns/net") O_RDONLY] ++
          Call.sendmsg
            (env t.length
              (Call.socket PF_NETLINK (SOCK_RAW ||| SOCK_CLOEXEC) NETLINK_ROUTE)).ret
            (move_request (cstr "veth1")
              (env (t.length + 1 + ta.length)
                (Call.sys_open ("/proc/" ++ fmt_d pid ++ "/ns/net") O_RDONLY)).ret) :: tb) := by
  simp only [prepare_netns, die_bind, exit_bind, ret_bind, ite_bind, bind_assoc,
    run_bind] at h
  obtain ⟨sock, t1, e1, h⟩ := (andThen_ok_iff _ _ _ _ _ _).mp h
  simp only [run_bind] at h
  obtain ⟨_, t2, e2, h⟩ := (andThen_ok_iff _ _ _ _ _ _).mp h
  simp only [run_bind] at h
  obtain ⟨_, t3, e3, h⟩ := (andThen_ok_iff _ _ _ _ _ _).mp h
  simp only [run_bind, andThen_sys] at h
  obtain ⟨mynetns, t5, e5, h⟩ := (andThen_ok_iff _ _ _ _ _ _).mp h
  simp only [run_bind] at h
  obtain ⟨child, t6, e6, h⟩ := (andThen_ok_iff _ _ _ _ _ _).mp h
  simp only [run_bind] at h
  obtain ⟨_, t7, e7, h⟩ := (andThen_ok_iff _ _ _ _ _ _).mp h
  rw [create_socket_run] at e1
  split_ifs at e1
  · cases e1
  simp only [Prod.mk.injEq, Res.ok.injEq] at e1
  obtain ⟨rfl, rfl⟩ := e1
  obtain ⟨x2, rfl, _⟩ := Emits.extends _ _ (create_veth_emits _ _ _) env _ _ _ e2
  obtain ⟨x3, rfl, _⟩ := Emits.extends _ _ (if_up_emits _ _ _) env _ _ _ e3
  obtain ⟨x5, rfl, _⟩ := Emits.extends _ _ (get_netns_fd_emits _) env _ _ _ e5
  rw [get_netns_fd_run] at e6
  split_ifs at e6
  · cases e6
  simp only [Prod.mk.injEq, Res.ok.injEq] at e6
  obtain ⟨rfl, rfl⟩ := e6
  obtain ⟨x7, hx7⟩ := move_if_to_pid_netns_sends
    (env t.length (Call.socket PF_NETLINK (SOCK_RAW ||| SOCK_CLOEXEC) NETLINK_ROUTE)).ret
    (cstr "veth1") (by decide) _ env _
  rw [e7] at hx7
  simp only at hx7
  subst hx7
  have hrest : ∃ x8, t ++ tn = t ++ [Call.socket PF_NETLINK (SOCK_RAW ||| SOCK_CLOEXEC)
      NETLINK_ROUTE] ++ x2 ++ x3 ++ [Call.getpid] ++ x5 ++
      [Call.sys_open ("/proc/" ++ fmt_d pid ++ "/ns/net") O_RDONLY] ++ Call.sendmsg
        (env t.length (Call.socket PF_NETLINK (SOCK_RAW ||| SOCK_CLOEXEC) NETLINK_ROUTE)).ret
        (move_request (cstr "veth1")
          (env (t ++ [Call.socket PF_NETLINK (SOCK_RAW ||| SOCK_CLOEXEC) NETLINK_ROUTE] ++ x2
            ++ x3 ++ [Call.getpid] ++ x5).length
            (Call.sys_open ("/proc/" ++ fmt_d pid ++ "/ns/net") O_RDONLY)).ret) :: x7 ++ x8 := by
    obtain ⟨x8, h8, _⟩ := Emits.extends (fun c => c.is_setup = true) _ (by
      repeat' (first
        | with_reducible apply if_up_emits
        | with_reducible apply Emits.bind
        | with_reducible apply Emits.ite
        | with_reducible apply Emits.sys
        | with_reducible apply Emits.die
        | with_reducible apply Emits.ret
        | rfl
        | intro _)) env _ _ _ h
    exact ⟨x8, h8⟩
  obtain ⟨x8, h8⟩ := hrest
  have hl : (t ++ [Call.socket PF_NETLINK (SOCK_RAW ||| SOCK_CLOEXEC) NETLINK_ROUTE] ++ x2
      ++ x3 ++ [Call.getpid] ++ x5).length = t.length + 1 + (x2 ++ x3 ++ [Call.getpid] ++ x5).length := by
    simp only [List.length_append, List.length_cons, List.length_nil]
    omega
  rw [hl] at h8 e7
  refine ⟨x2 ++ x3 ++ [Call.getpid] ++ x5, x7, x8, ?_, ?_⟩
  · simp only [List.append_assoc, List.cons_append, List.nil_append] at h8 ⊢
    exact List.append_cancel_left h8
  · simp only [List.append_assoc, List.cons_append, List.nil_append] at e7 ⊢
    exact e7


/-- C1: in every run of `main` that reaches the write of the readiness token, the calls
before that write are `pipe`, `clone`, and then, in this order, a completed
`cgroup_init_and_limit(child)` (ending with the write of the child's PID to
`cgroup.procs`), a completed `prepare_userns(child)` (the nine calls on `uid_map`,
`setgroups`, `gid_map`) and a completed `prepare_netns(child)`: it opened the rtnetlink
socket, opened the netns of the child, and on that socket sent the migration request for
`veth1` (`IFLA_NET_NS_FD` with the descriptor just opened, `IFLA_IFNAME` with `veth1`),
which was acknowledged.  In `cmd_exec` every `mount`, `pivot_root`, `setgid`, `setuid` and
`execvp` comes after the `read` of `await_setup`, and that `read` returned two bytes. -/
theorem setup_precedes_ready (argc : Int) (argv : List String) (env : Env) :
    (∀ k fd, (main argc argv env []).2[k]? = some (Call.write fd "OK") →
      ∃ p pid tc tu tn,
        p = { fd0 := (env 0 Call.pipe).buf.getD 0 0, fd1 := (env 0 Call.pipe).buf.getD 1 0,
              argv := argv.tail } ∧
        pid = (env 1 (Call.clone clone_flags p)).ret ∧ fd = p.fd1 ∧
        (main argc argv env []).2.take k =
          [Call.pipe, Call.clone clone_flags p] ++ tc ++ tu ++ tn ∧
        cgroup_init_and_limit pid env [Call.pipe, Call.clone clone_flags p] =
          (Res.ok (), [Call.pipe, Call.clone clone_flags p] ++ tc) ∧
        (∃ pre fd4, tc = pre ++
          [Call.sys_open "/sys/fs/cgroup/isolate_group/cgroup.procs" (O_WRONLY ||| O_CLOEXEC),
           Call.write fd4 (fmt_d pid), Call.close fd4]) ∧
        prepare_userns pid env ([Call.pipe, Call.clone clone_flags p] ++ tc) =
          (Res.ok (), [Call.pipe, Call.clone clone_flags p] ++ tc ++ tu) ∧
        (∃ f1 f2 f3, tu = userns_calls pid f1 f2 f3) ∧
        prepare_netns pid env ([Call.pipe, Call.clone clone_flags p] ++ tc ++ tu) =
          (Res.ok (), [Call.pipe, Call.clone clone_flags p] ++ tc ++ tu ++ tn) ∧
        (∃ sock_fd netns_fd ta tb tc1,
          sock_fd = (env ([Call.pipe, Call.clone clone_flags p] ++ tc ++ tu).length
            (Call.socket PF_NETLINK (SOCK_RAW ||| SOCK_CLOEXEC) NETLINK_ROUTE)).ret ∧
          netns_fd = (env (([Call.pipe, Call.clone clone_flags p] ++ tc ++ tu).length + 1 +
            ta.length) (Call.sys_open ("/proc/" ++ fmt_d pid ++ "/ns/net") O_RDONLY)).ret ∧
          tn = Call.socket PF_NETLINK (SOCK_RAW ||| SOCK_CLOEXEC) NETLINK_ROUTE :: ta ++
            [Call.sys_open ("/proc/" ++ fmt_d pid ++ "/ns/net") O_RDONLY] ++
            (Call.sendmsg sock_fd (move_request (cstr "veth1") netns_fd) :: tb) ++ tc1 ∧
          move_if_to_pid_netns sock_fd (cstr "veth1") netns_fd env
            ([Call.pipe, Call.clone clone_flags p] ++ tc ++ tu ++
              Call.socket PF_NETLINK (SOCK_RAW ||| SOCK_CLOEXEC) NETLINK_ROUTE :: ta ++
              [Call.sys_open ("/proc/" ++ fmt_d pid ++ "/ns/net") O_RDONLY]) =
            (Res.ok (), [Call.pipe, Call.clone clone_flags p] ++ tc ++ tu ++
              Call.socket PF_NETLINK (SOCK_RAW ||| SOCK_CLOEXEC) NETLINK_ROUTE :: ta ++
              [Call.sys_open ("/proc/" ++ fmt_d pid ++ "/ns/net") O_RDONLY] ++
              Call.sendmsg sock_fd (move_request (cstr "veth1") netns_fd) :: tb))) ∧
    (∀ (p : Params) (cenv : Env) (i : Nat) (c : Call),
      (cmd_exec p cenv []).2[i]? = some c → c.is_payload_step = true →
        1 < i ∧ (cmd_exec p cenv []).2[1]? = some (Call.read p.fd0 2) ∧
          (cenv 1 (Call.read p.fd0 2)).ret = 2) := by
  constructor
  · intro k fd hk
    have hc : (Call.write fd "OK").is_ready = true := rfl
    rcases main_trace_cases argc argv env _ _ rfl rfl with hno | ⟨tc, tu, tn, B, hT, hA, hB,
      g1, g2, g3⟩
    · exact absurd (no_ready _ hno k _ hk hc) id
    · rw [hT] at hk
      have hidx := ready_index _ _ _ hA hB k _ hk hc
      rw [hidx, List.getElem?_append_right (Nat.le_refl _), Nat.sub_self] at hk
      simp only [List.getElem?_cons_zero, Option.some.injEq, Call.write.injEq, and_true] at hk
      obtain ⟨ta, tb, tc1, n1, n2⟩ := netns_ok_request _ _ _ _ g3
      refine ⟨_, _, tc, tu, tn, rfl, rfl, hk.symm, ?_, g1, cgroup_ok_calls _ _ _ _ g1, g2,
        userns_ok_calls _ _ _ _ g2, g3, _, _, ta, tb, tc1, rfl, rfl, n1, n2⟩
      rw [hT, hidx]
      exact List.take_left _ _
  · intro p cenv i c hi hc
    rcases cmd_exec_cases p cenv with h | h | ⟨hret, evs, h⟩
    · rw [h] at hi
      have := List.getElem?_mem hi
      simp only [List.mem_cons, List.mem_singleton, List.not_mem_nil, or_false] at this
      rcases this with rfl | rfl <;> cases hc
    · rw [h] at hi
      have := List.getElem?_mem hi
      simp only [List.mem_cons, List.mem_singleton, List.not_mem_nil, or_false] at this
      rcases this with rfl | rfl | rfl <;> cases hc
    · rw [h] at hi ⊢
      refine ⟨?_, ?_, hret⟩
      swap
      · rw [List.getElem?_append_left (by simp)]
        rfl
      by_contra hlt
      rw [List.getElem?_append_left (by simpa using Nat.lt_succ_of_le (Nat.le_of_not_lt hlt))]
        at hi
      have := List.getElem?_mem hi
      simp only [List.mem_cons, List.mem_singleton, List.not_mem_nil, or_false] at this
      rcases this with rfl | rfl <;> cases hc

/-- C1 at a first launch of `isolate echo hi`: the token is call number 46; before it the
parent wrote 77 to `cgroup.procs`, wrote the three maps, and sent on socket 5 the 52-byte
request that moves `veth1` to the netns behind descriptor 3 (attribute type 28 is
`IFLA_NET_NS_FD`).  The first payload step of the child is call number 2. -/
theorem setup_precedes_ready_witness :
    (∃ tc tu ta tb tc1, (main 3 ["isolate", "echo", "hi"] env_launch []).2.take 46 =
        [Call.pipe, Call.clone clone_flags { fd0 := 3, fd1 := 4, argv := ["echo", "hi"] }]
          ++ tc ++ tu ++
          (Call.socket PF_NETLINK (SOCK_RAW ||| SOCK_CLOEXEC) NETLINK_ROUTE :: ta ++
            [Call.sys_open ("/proc/" ++ fmt_d 77 ++ "/ns/net") O_RDONLY] ++
            (Call.sendmsg 5 [52, 0, 0, 0, 16, 0, 5, 0, 1, 0, 0, 0, 0, 0, 0, 0,
              16, 0, 0, 0, 0, 0, 0, 0, 0, 0, 0, 0, 0, 0, 0, 0,
              8, 0, 28, 0, 3, 0, 0, 0,
              10, 0, 3, 0, 118, 101, 116, 104, 49, 0, 0, 0] :: tb) ++ tc1) ∧
      (∃ pre fd4, tc = pre ++
          [Call.sys_open "/sys/fs/cgroup/isolate_group/cgroup.procs" (O_WRONLY ||| O_CLOEXEC),
           Call.write fd4 (fmt_d 77), Call.close fd4]) ∧
      (∃ f1 f2 f3, tu = userns_calls 77 f1 f2 f3)) ∧
    (1 < 2 ∧ (cmd_exec { fd0 := 3, fd1 := 4, argv := ["echo", "hi"] } env_launch []).2[1]? =
      some (Call.read 3 2)) := by
  have h := setup_precedes_ready 3 ["isolate", "echo", "hi"] env_launch
  constructor
  · obtain ⟨p, pid, tc, tu, tn, hp, hpid, _, htake, _, hc, _, hu, _, sock_fd, netns_fd, ta,
      tb, tc1, hs, hn, htn, _⟩ := h.1 46 4 (by decide)
    have hp2 : p = { fd0 := 3, fd1 := 4, argv := ["echo", "hi"] } := by
      rw [hp]
      decide
    have hpid2 : pid = 77 := by
      rw [hpid]
      rfl
    have hs2 : sock_fd = 5 := by
      rw [hs]
      rfl
    have hn2 : netns_fd = 3 := by
      rw [hn]
      rfl
    have hm : move_request (cstr "veth1") 3 =
        [52, 0, 0, 0, 16, 0, 5, 0, 1, 0, 0, 0, 0, 0, 0, 0,
          16, 0, 0, 0, 0, 0, 0, 0, 0, 0, 0, 0, 0, 0, 0, 0,
          8, 0, 28, 0, 3, 0, 0, 0,
          10, 0, 3, 0, 118, 101, 116, 104, 49, 0, 0, 0] := by decide
    subst hp2 hpid2 hs2 hn2
    rw [hm] at htn
    rw [htn] at htake
    exact ⟨tc, tu, ta, tb, tc1, htake, hc, hu⟩
  · obtain ⟨h1, h2, _⟩ := h.2 { fd0 := 3, fd1 := 4, argv := ["echo", "hi"] } env_launch 2
      (Call.mount "rootfs" "rootfs" "ext4" MS_BIND) (by decide) rfl
    exact ⟨h1, h2⟩

/-! ## The argument vector from `parse_args` to `execvp` -/

theorem outcome_ret {α : Type} (L : List String) (c : Call) (P : α → Prop) (a : α) (h : P a) :
    Outcome L c P (pure a) :=
  fun _ tr => Or.inl ⟨a, tr, rfl, h⟩

theorem outcome_sys (L : List String) (c : Call) (d : Call) :
    Outcome L c (fun _ => True) (sys d) :=
  fun env tr => Or.inl ⟨env tr.length d, tr ++ [d], rfl, trivial⟩

theorem outcome_emit (L : List String) (c : Call) (d : Call) :
    Outcome L c (fun _ => True) (emit d) :=
  fun _ tr => Or.inl ⟨(), tr ++ [d], rfl, trivial⟩

theorem outcome_die {α : Type} (L : List String) (c : Call) (P : α → Prop) (m : String)
    (h : m ∈ L) : Outcome L c P (die m : Sys α) :=
  fun _ tr => Or.inr (Or.inl ⟨m, h, tr, by simp⟩)

theorem outcome_ite {α : Type} (L : List String) (c : Call) (P : α → Prop) (b : Prop)
    [Decidable b] (x y : Sys α) (hx : Outcome L c P x) (hy : Outcome L c P y) :
    Outcome L c P (if b then x else y) := by
  split
  · exact hx
  · exact hy

theorem outcome_bind {α β : Type} (L : List String) (c : Call) (P : α → Prop) (Q : β → Prop)
    (x : Sys α) (f : α → Sys β) (hx : Outcome L c P x) (hf : ∀ a, P a → Outcome L c Q (f a)) :
    Outcome L c Q (x >>= f) := by
  intro env tr
  simp only [run_bind, andThen_def]
  rcases hx env tr with ⟨a, t, e, hp⟩ | ⟨msg, hm, t, e⟩ | ⟨t, e, hc⟩
  · rw [e]
    exact hf a hp env t
  · rw [e]
    exact Or.inr (Or.inl ⟨msg, hm, t, rfl⟩)
  · rw [e]
    exact Or.inr (Or.inr ⟨t, rfl, hc⟩)

/-- The last step of `cmd_exec`: `execvp`, and a `die` whatever it returns. -/
theorem outcome_exec {α : Type} (L : List String) (c : Call) (P : α → Prop)
    (m1 m2 : String) :
    Outcome L c P (Isolate.sys c >>= fun r =>
      if r.ret = -1 then (Isolate.die m1 : Sys α) else Isolate.die m2) := by
  intro env tr
  refine Or.inr (Or.inr ?_)
  simp only [run_bind, andThen_sys]
  split_ifs
  · exact ⟨_, rfl, by simp⟩
  · exact ⟨_, rfl, by simp⟩

theorem prepare_mntns_outcome (c : Call) :
    Outcome child_setup_failures c (fun _ => True) (prepare_mntns "rootfs") := by
  simp only [prepare_mntns, prepare_procfs, die_bind, exit_bind, ret_bind, ite_bind,
    bind_assoc]
  repeat' (first
    | with_reducible apply outcome_bind
    | with_reducible apply outcome_ite
    | with_reducible apply outcome_sys
    | with_reducible apply outcome_die
    | with_reducible apply outcome_ret
    | trivial
    | decide
    | intro _)

theorem cmd_exec_outcome (p : Params) :
    Outcome child_setup_failures (Call.execvp (p.argv.headD "") p.argv) (fun _ => False)
      (cmd_exec p) := by
  simp only [cmd_exec, await_setup, die_bind, exit_bind, ret_bind, ite_bind, bind_assoc]
  repeat' (first
    | exact prepare_mntns_outcome _
    | with_reducible apply outcome_exec
    | with_reducible apply outcome_bind
    | with_reducible apply outcome_ite
    | with_reducible apply outcome_sys
    | with_reducible apply outcome_emit
    | with_reducible apply outcome_die
    | trivial
    | decide
    | intro _)


theorem cmd_exec_green (p : Params) (cenv : Env) (h : child_setup_ok cenv) :
    cmd_exec p cenv [] = (Res.fatal, child_calls p) := by
  have hf : fmt_d 0 = "0" := by decide
  rw [cmd_exec_run]
  simp only [cmd_exec_payload, prepare_mntns, prepare_procfs, die_bind, exit_bind, ret_bind,
    ite_bind, bind_assoc]
  simp [h _ _, hf, child_calls]


theorem env_child_ok : child_setup_ok env_child := by
  intro k c
  cases c <;> rfl

theorem main_release_emits (pipe pid : Int) :
    Emits (fun _ => True) (main_release pipe pid) := by
  simp only [main_release, die_bind, exit_bind, ret_bind, ite_bind, bind_assoc]
  repeat' (first
    | with_reducible apply Emits.bind
    | with_reducible apply Emits.ite
    | with_reducible apply Emits.sys
    | with_reducible apply Emits.die
    | with_reducible apply Emits.ret
    | trivial
    | intro _)

theorem main_setup_emits (p : Params) (pid : Int) :
    Emits (fun _ => True) (cgroup_init_and_limit pid >>= fun _ =>
      prepare_userns pid >>= fun _ => prepare_netns pid >>= fun _ =>
        main_release p.fd1 pid) := by
  repeat' (first
    | exact Emits.mono _ _ _ (fun _ _ => trivial) (cgroup_init_and_limit_emits _)
    | exact Emits.mono _ _ _ (fun _ _ => trivial) (prepare_userns_emits _)
    | exact Emits.mono _ _ _ (fun _ _ => trivial) (prepare_netns_emits _)
    | exact main_release_emits _ _
    | with_reducible apply Emits.bind
    | intro _)

/-- Once the pipe exists, the second call of `main` is `clone` with the parsed vector. -/
theorem main_clone_call (argc : Int) (argv : List String) (env : Env) (p : Params)
    (hp : p = { fd0 := (env 0 Call.pipe).buf.getD 0 0, fd1 := (env 0 Call.pipe).buf.getD 1 0,
                argv := argv.tail })
    (h1 : ¬ argc - 1 < 1) (h2 : ¬ (env 0 Call.pipe).ret < 0) :
    (main argc argv env []).2[1]? = some (Call.clone clone_flags p) := by
  rw [main_run argc argv env p _ hp rfl, if_neg h1, if_neg h2]
  split_ifs
  · rfl
  · obtain ⟨evs, h, -⟩ := main_setup_emits p (env 1 (Call.clone clone_flags p)).ret env
      [Call.pipe, Call.clone clone_flags p]
    rw [h, List.getElem?_append_left (by simp)]
    rfl

/-- C10: if no argument follows the program name, `main` prints `Nothing to do!` and
exits with status 0 having issued no other call; otherwise `parse_args` returns with
`params.argv` equal to `argv` without its first element.  Once the pipe exists, the second
call of `main` is the `clone` that hands this vector to the child, and no `clone` of `main`
carries another vector.  The child `cmd_exec` calls `execvp` with the first element of the
vector as the command (`argv[1]` of `main`) and the whole vector as arguments: it does so
unless it dies before with a diagnostic of one of its setup steps, no `execvp` of it has
other arguments, and when every setup step succeeds its calls are exactly
`child_calls`. -/
theorem parse_args_spec (argv : List String) (env : Env) :
    (argv.length ≤ 1 →
      main argv.length argv env [] = (Res.exit 0, [Call.printf "Nothing to do!\n"])) ∧
    (1 < argv.length → ∀ (p : Params) (tr : List Call),
      parse_args argv.length argv p env tr = (Res.ok { p with argv := argv.tail }, tr)) ∧
    (1 < argv.length → 0 ≤ (env 0 Call.pipe).ret →
      (main argv.length argv env []).2[1]? = some (Call.clone clone_flags
        { fd0 := (env 0 Call.pipe).buf.getD 0 0, fd1 := (env 0 Call.pipe).buf.getD 1 0,
          argv := argv.tail })) ∧
    (∀ flags q, Call.clone flags q ∈ (main argv.length argv env []).2 → q.argv = argv.tail) ∧
    (∀ (q : Params) (cenv : Env),
      Call.execvp (q.argv.headD "") q.argv ∈ (cmd_exec q cenv []).2 ∨
      ∃ msg ∈ child_setup_failures, (cmd_exec q cenv []).2.getLast? = some (Call.die msg)) ∧
    (∀ (q : Params) (cenv : Env) file args,
      Call.execvp file args ∈ (cmd_exec q cenv []).2 →
        file = q.argv.headD "" ∧ args = q.argv) ∧
    (∀ (q : Params) (cenv : Env), child_setup_ok cenv →
      cmd_exec q cenv [] = (Res.fatal, child_calls q)) ∧
    argv.tail.headD "" = argv.getD 1 "" := by
  refine ⟨?_, ?_, ?_, ?_, ?_, ?_, ?_, ?_⟩
  · intro h
    rw [main_run _ argv env _ _ rfl rfl, if_pos (by omega)]
  · intro h p tr
    rw [parse_args_run, if_neg (by omega)]
  · intro h hp
    exact main_clone_call _ argv env _ rfl (by omega) (by omega)
  · intro flags q hq
    obtain ⟨evs, h1, h2⟩ := main_clone_emits argv.length argv env []
    rw [h1, List.nil_append] at hq
    exact h2 _ hq flags q rfl
  · intro q cenv
    rcases cmd_exec_outcome q cenv [] with ⟨a, t, -, hf⟩ | ⟨msg, hm, t, e⟩ | ⟨t, e, hc⟩
    · exact absurd hf id
    · exact Or.inr ⟨msg, hm, by rw [e]; simp⟩
    · exact Or.inl (by rw [e]; exact hc)
  · intro q cenv file args hq
    obtain ⟨evs, h1, h2⟩ := cmd_exec_execvp_emits q cenv []
    rw [h1, List.nil_append] at hq
    exact h2 _ hq file args rfl
  · intro q cenv h
    exact cmd_exec_green q cenv h
  · cases argv with
    | nil => rfl
    | cons a l => cases l <;> rfl

/-- C10 at `isolate` alone and at `isolate echo hi`: the second call of `main` is the
`clone` with `["echo", "hi"]`, and the child ends with `execvp "echo" ["echo", "hi"]`. -/
theorem parse_args_spec_witness :
    main 1 ["isolate"] env_launch [] = (Res.exit 0, [Call.printf "Nothing to do!\n"]) ∧
    parse_args 3 ["isolate", "echo", "hi"] { fd0 := 0, fd1 := 0, argv := [] } env_launch [] =
      (Res.ok { fd0 := 0, fd1 := 0, argv := ["echo", "hi"] }, []) ∧
    (main 3 ["isolate", "echo", "hi"] env_launch []).2[1]? =
      some (Call.clone clone_flags { fd0 := 3, fd1 := 4, argv := ["echo", "hi"] }) ∧
    cmd_exec { fd0 := 3, fd1 := 4, argv := ["echo", "hi"] } env_child [] =
      (Res.fatal, child_calls { fd0 := 3, fd1 := 4, argv := ["echo", "hi"] }) ∧
    Call.execvp "echo" ["echo", "hi"] ∈
      child_calls { fd0 := 3, fd1 := 4, argv := ["echo", "hi"] } :=
  ⟨(parse_args_spec ["isolate"] env_launch).1 (by decide),
   (parse_args_spec ["isolate", "echo", "hi"] env_launch).2.1 (by decide) _ _,
   (parse_args_spec ["isolate", "echo", "hi"] env_launch).2.2.1 (by decide) (by decide),
   (parse_args_spec ["isolate", "echo", "hi"] env_launch).2.2.2.2.2.2.1 _ env_child
     env_child_ok,
   by decide⟩

end Isolate
